import Mathlib

/-!
# A shallow embedding of the jsGBC emulator core

This file models, in Lean, the parts of the jsGBC Game Boy emulator core
(`src/core/index.js`, `src/core/joypad.ts`, `src/core/cartridge/index.js`)
that the verified statements below are about, and proves or refutes those
statements.

Conventions used to translate the JavaScript source:

* JS numbers that stay non-negative are `Nat`; numbers that can go negative
  are `Int`.
* On non-negative values, `x & (2^k - 1)` is written `x % 2^k`, `x >> k` is
  written `x / 2^k`, and `x << k` is written `x * 2^k`; where the bitwise
  form is kept literally, Lean's `&&&`, `|||`, `^^^`, `>>>`, `<<<` on `Nat`
  are used.  On a possibly negative 32-bit value, `x & (2^k - 1)` equals
  `Int.emod x (2^k)`.
* A single-bit test `(x & 2^b) === 2^b` is `Nat.testBit x b`.
* Mutable objects become records that are passed and returned explicitly;
  JS typed arrays and the `memory` array become functions `Nat → Nat`
  updated with `Function.update`; the host audio sink (`audioServer`)
  becomes a write counter.
-/

namespace JsGBC

/-! ## DIV register (FF04)

State touched by the `0xff04` closures of `registerWriteJumpCompile` and
`memoryReadJumpCompile`: the stored byte `memory[0xff04]` and the running
cycle counter `DIVTicks`. -/

structure DivState where
  ff04 : Nat
  divTicks : Nat

/-- `memoryWriter[0xff04]`:
`this.DIVTicks &= 0xff; this.memory[0xff04] = 0;` — the written data byte is
ignored. -/
def registerWriteFF04 (s : DivState) (_data : Nat) : DivState :=
  { s with divTicks := s.divTicks % 0x100, ff04 := 0 }

/-- `memoryReader[0xff04]`:
`this.memory[0xff04] = this.memory[0xff04] + (this.DIVTicks >> 8) & 0xff;
this.DIVTicks &= 0xff; return this.memory[0xff04];` -/
def memoryReadFF04 (s : DivState) : Nat × DivState :=
  let v := (s.ff04 + s.divTicks / 0x100) % 0x100
  (v, { s with ff04 := v, divTicks := s.divTicks % 0x100 })

/-- `this.DIVTicks += this.CPUTicks;` — the per-instruction DIV update in
`executeIteration` (unshifted by double-speed). -/
def elapseDIV (s : DivState) (cpuTicks : Nat) : DivState :=
  { s with divTicks := s.divTicks + cpuTicks }

/-! ## Joypad (FF00) and the STOP flag

State touched by the `Joypad` class (`joypad.ts`), by the `0xff00` read and
write closures, and by `checkIRQMatching`. -/

structure JoypadState where
  value : Nat
  ff00 : Nat
  interruptsRequested : Nat
  interruptsEnabled : Nat
  IME : Bool
  IRQLineMatched : Nat
  remainingClocks : Int
  CPUStopped : Bool
  hasCartridge : Bool
  useGBCMode : Bool
  usedBootROM : Bool
  usedGBCBootROM : Bool

/-- `GameBoyCore.prototype.checkIRQMatching`:
`if (this.IME) { this.IRQLineMatched = this.interruptsEnabled & this.interruptsRequested & 0x1f; }` -/
def checkIRQMatching (s : JoypadState) : JoypadState :=
  if s.IME then
    { s with IRQLineMatched := s.interruptsEnabled &&& s.interruptsRequested &&& 0x1f }
  else s

/-- `Joypad.writeToMemory` (`joypad.ts`): recomputes the low nibble of
`memory[0xff00]` from the selected key groups and clears `CPUStopped`. -/
def Joypad.writeToMemory (s : JoypadState) : JoypadState :=
  { s with
    ff00 := (s.ff00 &&& 0x30) +
      ((if s.ff00 &&& 0x20 = 0 then s.value >>> 4 else 0xf) &&&
        (if s.ff00 &&& 0x10 = 0 then s.value &&& 0xf else 0xf)),
    CPUStopped := false }

/-- `Joypad.down` (`joypad.ts`): clears the key's bit in `value`; on a
non-GBC-mode cartridge (boot-ROM conditions permitting) requests joypad
interrupt `0x10`, zeroes `remainingClocks` and re-runs `checkIRQMatching`;
finally calls `writeToMemory`. -/
def Joypad.down (s : JoypadState) (key : Nat) : JoypadState :=
  let s1 := { s with value := s.value &&& (0xff ^^^ (1 <<< key)) }
  let s2 :=
    if s1.hasCartridge ∧ ¬s1.useGBCMode ∧ (¬s1.usedBootROM ∨ ¬s1.usedGBCBootROM) then
      checkIRQMatching
        { s1 with interruptsRequested := s1.interruptsRequested ||| 0x10, remainingClocks := 0 }
    else s1
  Joypad.writeToMemory s2

/-- `Joypad.up` (`joypad.ts`): sets the key's bit in `value` and calls
`writeToMemory`. -/
def Joypad.up (s : JoypadState) (key : Nat) : JoypadState :=
  Joypad.writeToMemory { s with value := s.value ||| (1 <<< key) }

/-- `memoryWriter[0xff00]` closure of `registerWriteJumpCompile`:
`this.memory[0xff00] = data & 0x30 | ((data & 0x20) === 0 ? this.joypad.value >> 4 : 0xf) & ((data & 0x10) === 0 ? this.joypad.value & 0xf : 0xf);` -/
def registerWriteFF00 (s : JoypadState) (data : Nat) : JoypadState :=
  { s with
    ff00 := (data &&& 0x30) |||
      ((if data &&& 0x20 = 0 then s.value >>> 4 else 0xf) &&&
        (if data &&& 0x10 = 0 then s.value &&& 0xf else 0xf)) }

/-- `memoryReader[0xff00]` closure of `memoryReadJumpCompile`:
`return 0xc0 | this.memory[0xff00];` -/
def memoryReadFF00 (s : JoypadState) : Nat :=
  0xc0 ||| s.ff00

/-! ## OAM / VRAM CPU access gating by STAT mode

State touched by the CPU-side OAM and VRAM accessors.  `graphicsJIT`,
`generateGBOAMTileLine`, `generateGBTileLine`, `generateGBCTileLineBank1`
and `generateGBCTileLineBank2` mutate only rendering state (the tile
caches, render queue and frame buffer), none of the fields modelled here,
so on this record they act as the identity. -/

structure PpuAccessState where
  modeSTAT : Nat
  memory : Nat → Nat
  currVRAMBank : Nat
  VRAM : Nat → Nat
  BGCHRBank1 : Nat → Nat
  BGCHRCurrentBank : Nat → Nat

/-- `graphicsJIT` renders the queued scan lines; it touches none of the
fields of `PpuAccessState`. -/
def graphicsJIT (s : PpuAccessState) : PpuAccessState := s

/-- The tile-decoder helpers regenerate tile-cache entries from the VRAM
bytes; they touch none of the fields of `PpuAccessState`. -/
def generateTileLine (s : PpuAccessState) (_address : Nat) : PpuAccessState := s

/-- `GameBoyCore.prototype.memoryReadOAM`:
`return this.modeSTAT > 1 ? 0xff : this.memory[address];` -/
def memoryReadOAM (s : PpuAccessState) (address : Nat) : Nat :=
  if s.modeSTAT > 1 then 0xff else s.memory address

/-- `GameBoyCore.prototype.VRAMDATAReadCGBCPU`:
`return this.modeSTAT > 2 ? 0xff : this.currVRAMBank === 0 ? this.memory[address] : this.VRAM[address & 0x1fff];` -/
def VRAMDATAReadCGBCPU (s : PpuAccessState) (address : Nat) : Nat :=
  if s.modeSTAT > 2 then 0xff
  else if s.currVRAMBank = 0 then s.memory address
  else s.VRAM (address &&& 0x1fff)

/-- `GameBoyCore.prototype.VRAMDATAReadDMGCPU`:
`return this.modeSTAT > 2 ? 0xff : this.memory[address];` -/
def VRAMDATAReadDMGCPU (s : PpuAccessState) (address : Nat) : Nat :=
  if s.modeSTAT > 2 then 0xff else s.memory address

/-- `GameBoyCore.prototype.VRAMCHRReadCGBCPU`:
`return this.modeSTAT > 2 ? 0xff : this.BGCHRCurrentBank[address & 0x7ff];` -/
def VRAMCHRReadCGBCPU (s : PpuAccessState) (address : Nat) : Nat :=
  if s.modeSTAT > 2 then 0xff else s.BGCHRCurrentBank (address &&& 0x7ff)

/-- `GameBoyCore.prototype.VRAMCHRReadDMGCPU`:
`return this.modeSTAT > 2 ? 0xff : this.BGCHRBank1[address & 0x7ff];` -/
def VRAMCHRReadDMGCPU (s : PpuAccessState) (address : Nat) : Nat :=
  if s.modeSTAT > 2 then 0xff else s.BGCHRBank1 (address &&& 0x7ff)

/-- `GameBoyCore.prototype.memoryWriteOAMRAM`: the write goes through only
in STAT modes 0 and 1 (source comment: "OAM RAM cannot be written to in
mode 2 & 3"), and only if the byte actually changes. -/
def memoryWriteOAMRAM (s : PpuAccessState) (address data : Nat) : PpuAccessState :=
  if s.modeSTAT < 2 then
    if s.memory address ≠ data then
      let s1 := graphicsJIT s
      { s1 with memory := Function.update s1.memory address data }
    else s
  else s

/-- `GameBoyCore.prototype.VRAMGBDATAWrite`: the write goes through only in
STAT modes 0-2 (source comment: "VRAM cannot be written to during mode 3"). -/
def VRAMGBDATAWrite (s : PpuAccessState) (address data : Nat) : PpuAccessState :=
  if s.modeSTAT < 3 then
    if s.memory address ≠ data then
      let s1 := graphicsJIT s
      generateTileLine { s1 with memory := Function.update s1.memory address data } address
    else s
  else s

/-- `GameBoyCore.prototype.VRAMGBDATAUpperWrite`: same gating as
`VRAMGBDATAWrite`, with `generateGBTileLine` as the cache regenerator. -/
def VRAMGBDATAUpperWrite (s : PpuAccessState) (address data : Nat) : PpuAccessState :=
  if s.modeSTAT < 3 then
    if s.memory address ≠ data then
      let s1 := graphicsJIT s
      generateTileLine { s1 with memory := Function.update s1.memory address data } address
    else s
  else s

/-- `GameBoyCore.prototype.VRAMGBCDATAWrite`: mode-3 gate, then bank 0
writes `memory[address]`, bank 1 writes `VRAM[address & 0x1fff]`. -/
def VRAMGBCDATAWrite (s : PpuAccessState) (address data : Nat) : PpuAccessState :=
  if s.modeSTAT < 3 then
    if s.currVRAMBank = 0 then
      if s.memory address ≠ data then
        let s1 := graphicsJIT s
        generateTileLine { s1 with memory := Function.update s1.memory address data } address
      else s
    else
      let address1 := address &&& 0x1fff
      if s.VRAM address1 ≠ data then
        let s1 := graphicsJIT s
        generateTileLine { s1 with VRAM := Function.update s1.VRAM address1 data } address1
      else s
  else s

/-- `GameBoyCore.prototype.VRAMGBCHRMAPWrite`: mode-3 gate, then writes
`BGCHRBank1[address & 0x7ff]`. -/
def VRAMGBCHRMAPWrite (s : PpuAccessState) (address data : Nat) : PpuAccessState :=
  if s.modeSTAT < 3 then
    let address1 := address &&& 0x7ff
    if s.BGCHRBank1 address1 ≠ data then
      let s1 := graphicsJIT s
      { s1 with BGCHRBank1 := Function.update s1.BGCHRBank1 address1 data }
    else s
  else s

/-- `GameBoyCore.prototype.VRAMGBCCHRMAPWrite`: mode-3 gate, then writes
`BGCHRCurrentBank[address & 0x7ff]`. -/
def VRAMGBCCHRMAPWrite (s : PpuAccessState) (address data : Nat) : PpuAccessState :=
  if s.modeSTAT < 3 then
    let address1 := address &&& 0x7ff
    if s.BGCHRCurrentBank address1 ≠ data then
      let s1 := graphicsJIT s
      { s1 with BGCHRCurrentBank := Function.update s1.BGCHRCurrentBank address1 data }
    else s
  else s

/-! ## Cartridge parsing, type interpretation and RAM setup -/

/-- Modelled from the spec: `rom.js` is not under `src/`.  Per §3 and §6 of
the specification a ROM wraps the raw cartridge byte buffer; it exposes the
byte count (`length`) and byte access (`getByte`). -/
structure ROMImage where
  length : Nat
  getByte : Nat → Nat

/-- The `settings` flags consulted by `Cartridge.parseROM` (the `settings`
module is not under `src/`; field meanings are taken from their uses). -/
structure BootROMConfig where
  bootBootRomFirst : Bool
  forceGBBootRom : Bool
  gbcBootROMLength : Nat
  gbBootROMLength : Nat

/-- `this.gameboy.usedBootROM = settings.bootBootRomFirst && (...)` at the
top of `Cartridge.parseROM`. -/
def usedBootROM (c : BootROMConfig) : Bool :=
  c.bootBootRomFirst &&
    ((!c.forceGBBootRom && (c.gbcBootROMLength == 0x800)) ||
      (c.forceGBBootRom && (c.gbBootROMLength == 0x100)))

/-- `Cartridge.parseROM()`:
throws `Error("ROM size too small.")` when `rom.length < 0x4000`; when the
boot ROM is used the patch-in code is entirely commented out in the source
(no memory change); otherwise copies the first `0x4000` ROM bytes into
memory (`this.gameboy.memory[i] = this.rom.getByte(i) & 0xff`), modelled
pointwise. -/
def parseROM (c : BootROMConfig) (rom : ROMImage) (memory : Nat → Nat) :
    Except String (Nat → Nat) :=
  if rom.length < 0x4000 then .error "ROM size too small."
  else if usedBootROM c then .ok memory
  else .ok fun i => if i < 0x4000 then rom.getByte i % 0x100 else memory i

/-- The cartridge feature flags assigned by `Cartridge.setTypeName`; the
constructor initializes all of them to `false`. -/
structure CartridgeFlags where
  hasMBC1 : Bool := false
  hasMBC2 : Bool := false
  hasMBC3 : Bool := false
  hasMBC5 : Bool := false
  hasMBC7 : Bool := false
  hasSRAM : Bool := false
  cMMMO1 : Bool := false
  hasBattery : Bool := false
  cRUMBLE : Bool := false
  cCamera : Bool := false
  cTAMA5 : Bool := false
  cHuC3 : Bool := false
  cHuC1 : Bool := false
  hasRTC : Bool := false
  typeName : String := ""

/-- `Cartridge.setTypeName()`: the switch over the cartridge-type byte at
`0x147`.  Case `0x00` has no `break` and falls through into case `0x01`
(so its `typeName` ends up `"MBC1"` with `hasMBC1` set regardless of
`settings.enableMBC1Override`).  The `default` case only logs
"Cartridge type is unknown." and sets `typeName = "Unknown"`
(`// TODO error` in the source — no rejection happens). -/
def setTypeName (type : Nat) : CartridgeFlags :=
  if type = 0x00 then { hasMBC1 := true, typeName := "MBC1" }
  else if type = 0x01 then { hasMBC1 := true, typeName := "MBC1" }
  else if type = 0x02 then { hasMBC1 := true, hasSRAM := true, typeName := "MBC1 + SRAM" }
  else if type = 0x03 then
    { hasMBC1 := true, hasSRAM := true, hasBattery := true, typeName := "MBC1 + SRAM + Battery" }
  else if type = 0x05 then { hasMBC2 := true, typeName := "MBC2" }
  else if type = 0x06 then { hasMBC2 := true, hasBattery := true, typeName := "MBC2 + Battery" }
  else if type = 0x08 then { hasSRAM := true, typeName := "ROM + SRAM" }
  else if type = 0x09 then
    { hasSRAM := true, hasBattery := true, typeName := "ROM + SRAM + Battery" }
  else if type = 0x0b then { cMMMO1 := true, typeName := "MMMO1" }
  else if type = 0x0c then { cMMMO1 := true, hasSRAM := true, typeName := "MMMO1 + SRAM" }
  else if type = 0x0d then
    { cMMMO1 := true, hasSRAM := true, hasBattery := true, typeName := "MMMO1 + SRAM + Battery" }
  else if type = 0x0f then
    { hasMBC3 := true, hasRTC := true, hasBattery := true, typeName := "MBC3 + RTC + Battery" }
  else if type = 0x10 then
    { hasMBC3 := true, hasRTC := true, hasBattery := true, hasSRAM := true,
      typeName := "MBC3 + RTC + Battery + SRAM" }
  else if type = 0x11 then { hasMBC3 := true, typeName := "MBC3" }
  else if type = 0x12 then { hasMBC3 := true, hasSRAM := true, typeName := "MBC3 + SRAM" }
  else if type = 0x13 then
    { hasMBC3 := true, hasSRAM := true, hasBattery := true, typeName := "MBC3 + SRAM + Battery" }
  else if type = 0x19 then { hasMBC5 := true, typeName := "MBC5" }
  else if type = 0x1a then { hasMBC5 := true, hasSRAM := true, typeName := "MBC5 + SRAM" }
  else if type = 0x1b then
    { hasMBC5 := true, hasSRAM := true, hasBattery := true, typeName := "MBC5 + SRAM + Battery" }
  else if type = 0x1c then { cRUMBLE := true, typeName := "RUMBLE" }
  else if type = 0x1d then { cRUMBLE := true, hasSRAM := true, typeName := "RUMBLE + SRAM" }
  else if type = 0x1e then
    { cRUMBLE := true, hasSRAM := true, hasBattery := true, typeName := "RUMBLE + SRAM + Battery" }
  else if type = 0x1f then { cCamera := true, typeName := "GameBoy Camera" }
  else if type = 0x22 then
    { hasMBC7 := true, hasSRAM := true, hasBattery := true, typeName := "MBC7 + SRAM + Battery" }
  else if type = 0xfd then { cTAMA5 := true, typeName := "TAMA5" }
  else if type = 0xfe then { cHuC3 := true, typeName := "HuC3" }
  else if type = 0xff then { cHuC1 := true, typeName := "HuC1" }
  else { typeName := "Unknown" }

/-- The cartridge-type bytes handled by some non-default case of the
`setTypeName` switch. -/
def knownCartridgeTypes : List Nat :=
  [0x00, 0x01, 0x02, 0x03, 0x05, 0x06, 0x08, 0x09, 0x0b, 0x0c, 0x0d, 0x0f,
    0x10, 0x11, 0x12, 0x13, 0x19, 0x1a, 0x1b, 0x1c, 0x1d, 0x1e, 0x1f, 0x22,
    0xfd, 0xfe, 0xff]

/-- The fields of `Cartridge` that `setupRAM` consults: the MBC feature
flags, the header RAM-size byte `ramSize` (read in `interpret()`, stored on
the object, but never consulted by `setupRAM`), and the constructor-default
`numRAMBanks`. -/
structure CartridgeRAMConfig where
  hasMBC1 : Bool
  hasMBC2 : Bool
  hasMBC3 : Bool
  hasMBC5 : Bool
  cRUMBLE : Bool
  cHuC3 : Bool
  hasSRAM : Bool
  ramSize : Nat
  numRAMBanks : ℚ

/-- `Cartridge.setupRAM()` bank count: MBC2 gets `1 / 16` of a bank (a JS
fractional number — `0x200` bytes); MBC1 / RUMBLE / MBC3 / HuC3 get 4
banks; MBC5 gets 16; SRAM-only gets 1; otherwise `numRAMBanks` keeps its
prior (constructor) value. -/
def setupRAMBanks (c : CartridgeRAMConfig) : ℚ :=
  if c.hasMBC2 then 1 / 16
  else if c.hasMBC1 || c.cRUMBLE || c.hasMBC3 || c.cHuC3 then 4
  else if c.hasMBC5 then 16
  else if c.hasSRAM then 1
  else c.numRAMBanks

/-- `this.allocatedRamBytes = this.numRAMBanks * 0x2000;` in
`Cartridge.setupRAM()`. -/
def allocatedRamBytes (c : CartridgeRAMConfig) : ℚ :=
  setupRAMBanks c * 0x2000

/-! ## APU state

All fields of `GameBoyCore` touched by the audio-generation functions, the
mixer cache cascade, the frame sequencer, the `0xff10`-`0xff3f` register
write closures and the wave-RAM read closures, plus the few scheduler
fields used by the `CPUStopped` branch of `run()`.  JS typed-array tables
(`channel3PCM`, the LSFR noise tables, `audioBuffer`) are function fields;
the host audio sink (`audioServer.writeAudio`) is modelled by the counter
`audioServerWritten`.  `settingsSoundOn` and `enabledChannels` mirror the
`settings` module flags read by these functions.  `data` arguments of the
register writers are memory bytes, i.e. `< 0x100`. -/

structure ApuState where
  memory : Nat → Nat
  audioIndex : Nat
  audioResamplerFirstPassFactor : Nat
  downsampleInput : Int
  downSampleInputDivider : ℚ
  audioDestinationPosition : Nat
  numSamplesTotal : Nat
  audioBuffer : Nat → ℚ
  audioServerWritten : Nat
  audioTicks : Nat
  audioClocksUntilNextEvent : Int
  audioClocksUntilNextEventCounter : Int
  sequencerClocks : Int
  sequencePosition : Nat
  soundMasterEnabled : Bool
  CPUStopped : Bool
  settingsSoundOn : Bool
  enabledChannels : Nat → Bool
  useGBCMode : Bool
  mixerOutputCache : Int
  VinLeftChannelMasterVolume : Int
  VinRightChannelMasterVolume : Int
  leftChannel1 : Bool
  leftChannel2 : Bool
  leftChannel3 : Bool
  leftChannel4 : Bool
  rightChannel1 : Bool
  rightChannel2 : Bool
  rightChannel3 : Bool
  rightChannel4 : Bool
  channel1FrequencyCounter : Int
  channel1FrequencyTracker : Int
  channel1DutyTracker : Nat
  channel1CachedDuty : Nat → Bool
  channel1totalLength : Nat
  channel1envelopeVolume : Int
  channel1envelopeType : Bool
  channel1envelopeSweeps : Int
  channel1envelopeSweepsLast : Int
  channel1consecutive : Bool
  channel1frequency : Nat
  channel1SweepFault : Bool
  channel1ShadowFrequency : Nat
  channel1timeSweep : Nat
  channel1lastTimeSweep : Nat
  channel1Swept : Bool
  channel1frequencySweepDivider : Nat
  channel1decreaseSweep : Bool
  channel1canPlay : Bool
  channel1Enabled : Bool
  channel1currentSampleLeft : Int
  channel1currentSampleRight : Int
  channel1currentSampleLeftSecondary : Int
  channel1currentSampleRightSecondary : Int
  channel1currentSampleLeftTrimary : Int
  channel1currentSampleRightTrimary : Int
  channel2FrequencyCounter : Int
  channel2FrequencyTracker : Int
  channel2DutyTracker : Nat
  channel2CachedDuty : Nat → Bool
  channel2totalLength : Nat
  channel2envelopeVolume : Int
  channel2envelopeType : Bool
  channel2envelopeSweeps : Int
  channel2envelopeSweepsLast : Int
  channel2consecutive : Bool
  channel2frequency : Nat
  channel2canPlay : Bool
  channel2Enabled : Bool
  channel2currentSampleLeft : Int
  channel2currentSampleRight : Int
  channel2currentSampleLeftSecondary : Int
  channel2currentSampleRightSecondary : Int
  channel2currentSampleLeftTrimary : Int
  channel2currentSampleRightTrimary : Int
  channel3canPlay : Bool
  channel3totalLength : Nat
  channel3patternType : Nat
  channel3frequency : Nat
  channel3consecutive : Bool
  channel3Counter : Int
  channel3FrequencyPeriod : Int
  channel3lastSampleLookup : Nat
  channel3PCM : Nat → Nat
  cachedChannel3Sample : Int
  channel3Enabled : Bool
  channel3currentSampleLeft : Int
  channel3currentSampleRight : Int
  channel3currentSampleLeftSecondary : Int
  channel3currentSampleRightSecondary : Int
  channel4FrequencyPeriod : Int
  channel4Counter : Int
  channel4totalLength : Nat
  channel4envelopeVolume : Int
  channel4currentVolume : Int
  channel4envelopeType : Bool
  channel4envelopeSweeps : Int
  channel4envelopeSweepsLast : Int
  channel4consecutive : Bool
  channel4BitRange : Nat
  channel4VolumeShifter : Nat
  channel4lastSampleLookup : Nat
  LSFR7Table : Nat → Int
  LSFR15Table : Nat → Int
  noiseSampleTable : Nat → Int
  cachedChannel4Sample : Int
  channel4canPlay : Bool
  channel4Enabled : Bool
  channel4currentSampleLeft : Int
  channel4currentSampleRight : Int
  channel4currentSampleLeftSecondary : Int
  channel4currentSampleRightSecondary : Int
  stopEmulator : Nat
  cpuCyclesTotal : Int
  cpuCyclesTotalBase : Int
  bufferContainAmount : Int

/-- Modelled from the spec: `duty-lookup.js` is not under `src/`.  §4.4(c)
gates channels 1 and 2 by a cached duty pattern indexed by the NRx1 duty
bits; these are the standard Game Boy duty tables (12.5%, 25%, 50%, 75%):
`[F,F,F,F,F,F,F,T]`, `[T,F,F,F,F,F,F,T]`, `[T,F,F,F,F,T,T,T]`,
`[F,T,T,T,T,T,T,F]`. -/
def dutyLookup (i : Nat) : Nat → Bool := fun step =>
  if i = 0 then step == 7
  else if i = 1 then step == 0 || step == 7
  else if i = 2 then step == 0 || step == 5 || step == 6 || step == 7
  else decide (1 ≤ step ∧ step ≤ 6)

/-- JS `a | b` on two values that are non-negative at every use site. -/
def jsOr (a b : Int) : Int :=
  ((a.toNat ||| b.toNat : Nat) : Int)

/-- JS `x >>> 0`: the uint32 reinterpretation of a number. -/
def jsToUint32 (x : Int) : Nat :=
  (x % 2 ^ 32).toNat

/-- `GameBoyCore.prototype.mixerOutputLevelCache`:
`mixerOutputCache = (L1+L2+L3+L4) * VinL << 16 | (R1+R2+R3+R4) * VinR`. -/
def mixerOutputLevelCache (s : ApuState) : ApuState :=
  { s with mixerOutputCache :=
      (jsOr
        ((s.channel1currentSampleLeftTrimary + s.channel2currentSampleLeftTrimary +
            s.channel3currentSampleLeftSecondary + s.channel4currentSampleLeftSecondary) *
          s.VinLeftChannelMasterVolume * 2 ^ 16)
        ((s.channel1currentSampleRightTrimary + s.channel2currentSampleRightTrimary +
            s.channel3currentSampleRightSecondary + s.channel4currentSampleRightSecondary) *
          s.VinRightChannelMasterVolume)) }

/-- `channel1OutputLevelTrimaryCache`: gate the secondary samples by the
cached duty step and the user channel-enable setting. -/
def channel1OutputLevelTrimaryCache (s : ApuState) : ApuState :=
  mixerOutputLevelCache <|
    if s.channel1CachedDuty s.channel1DutyTracker && s.enabledChannels 0 then
      { s with channel1currentSampleLeftTrimary := s.channel1currentSampleLeftSecondary,
               channel1currentSampleRightTrimary := s.channel1currentSampleRightSecondary }
    else
      { s with channel1currentSampleLeftTrimary := 0, channel1currentSampleRightTrimary := 0 }

/-- `channel1OutputLevelSecondaryCache`: gate the base samples by
`channel1Enabled`. -/
def channel1OutputLevelSecondaryCache (s : ApuState) : ApuState :=
  channel1OutputLevelTrimaryCache <|
    if s.channel1Enabled then
      { s with channel1currentSampleLeftSecondary := s.channel1currentSampleLeft,
               channel1currentSampleRightSecondary := s.channel1currentSampleRight }
    else
      { s with channel1currentSampleLeftSecondary := 0, channel1currentSampleRightSecondary := 0 }

/-- `channel1OutputLevelCache`: base samples are the envelope volume gated
by the NR51 left/right enables. -/
def channel1OutputLevelCache (s : ApuState) : ApuState :=
  channel1OutputLevelSecondaryCache
    { s with channel1currentSampleLeft := if s.leftChannel1 then s.channel1envelopeVolume else 0,
             channel1currentSampleRight := if s.rightChannel1 then s.channel1envelopeVolume else 0 }

/-- `channel1EnableCheck`:
`channel1Enabled = (consecutive || totalLength > 0) && !sweepFault && canPlay`. -/
def channel1EnableCheck (s : ApuState) : ApuState :=
  channel1OutputLevelSecondaryCache
    { s with channel1Enabled :=
        (s.channel1consecutive || decide (0 < s.channel1totalLength)) &&
          !s.channel1SweepFault && s.channel1canPlay }

/-- `channel1VolumeEnableCheck`: `channel1canPlay = memory[0xff12] > 7`,
then `channel1EnableCheck` and the secondary cache again. -/
def channel1VolumeEnableCheck (s : ApuState) : ApuState :=
  channel1OutputLevelSecondaryCache
    (channel1EnableCheck { s with channel1canPlay := decide (7 < s.memory 0xff12) })

/-- `channel2OutputLevelTrimaryCache`. -/
def channel2OutputLevelTrimaryCache (s : ApuState) : ApuState :=
  mixerOutputLevelCache <|
    if s.channel2CachedDuty s.channel2DutyTracker && s.enabledChannels 1 then
      { s with channel2currentSampleLeftTrimary := s.channel2currentSampleLeftSecondary,
               channel2currentSampleRightTrimary := s.channel2currentSampleRightSecondary }
    else
      { s with channel2currentSampleLeftTrimary := 0, channel2currentSampleRightTrimary := 0 }

/-- `channel2OutputLevelSecondaryCache`. -/
def channel2OutputLevelSecondaryCache (s : ApuState) : ApuState :=
  channel2OutputLevelTrimaryCache <|
    if s.channel2Enabled then
      { s with channel2currentSampleLeftSecondary := s.channel2currentSampleLeft,
               channel2currentSampleRightSecondary := s.channel2currentSampleRight }
    else
      { s with channel2currentSampleLeftSecondary := 0, channel2currentSampleRightSecondary := 0 }

/-- `channel2OutputLevelCache`. -/
def channel2OutputLevelCache (s : ApuState) : ApuState :=
  channel2OutputLevelSecondaryCache
    { s with channel2currentSampleLeft := if s.leftChannel2 then s.channel2envelopeVolume else 0,
             channel2currentSampleRight := if s.rightChannel2 then s.channel2envelopeVolume else 0 }

/-- `channel2EnableCheck`:
`channel2Enabled = (consecutive || totalLength > 0) && canPlay`. -/
def channel2EnableCheck (s : ApuState) : ApuState :=
  channel2OutputLevelSecondaryCache
    { s with channel2Enabled :=
        (s.channel2consecutive || decide (0 < s.channel2totalLength)) && s.channel2canPlay }

/-- `channel2VolumeEnableCheck`: `channel2canPlay = memory[0xff17] > 7`. -/
def channel2VolumeEnableCheck (s : ApuState) : ApuState :=
  channel2OutputLevelSecondaryCache
    (channel2EnableCheck { s with channel2canPlay := decide (7 < s.memory 0xff17) })

/-- `channel3OutputLevelSecondaryCache`: gate by `channel3Enabled` and the
user channel-enable setting. -/
def channel3OutputLevelSecondaryCache (s : ApuState) : ApuState :=
  mixerOutputLevelCache <|
    if s.channel3Enabled && s.enabledChannels 2 then
      { s with channel3currentSampleLeftSecondary := s.channel3currentSampleLeft,
               channel3currentSampleRightSecondary := s.channel3currentSampleRight }
    else
      { s with channel3currentSampleLeftSecondary := 0, channel3currentSampleRightSecondary := 0 }

/-- `channel3OutputLevelCache`. -/
def channel3OutputLevelCache (s : ApuState) : ApuState :=
  channel3OutputLevelSecondaryCache
    { s with channel3currentSampleLeft := if s.leftChannel3 then s.cachedChannel3Sample else 0,
             channel3currentSampleRight := if s.rightChannel3 then s.cachedChannel3Sample else 0 }

/-- `channel3EnableCheck`: `channel3Enabled = consecutive || totalLength > 0`
(the `canPlay` conjunct is commented out in the source). -/
def channel3EnableCheck (s : ApuState) : ApuState :=
  channel3OutputLevelSecondaryCache
    { s with channel3Enabled := s.channel3consecutive || decide (0 < s.channel3totalLength) }

/-- `channel3UpdateCache`:
`cachedChannel3Sample = channel3PCM[lastSampleLookup] >> patternType`. -/
def channel3UpdateCache (s : ApuState) : ApuState :=
  channel3OutputLevelCache
    { s with cachedChannel3Sample :=
        ((s.channel3PCM s.channel3lastSampleLookup >>> s.channel3patternType : Nat) : Int) }

/-- `channel4OutputLevelSecondaryCache`. -/
def channel4OutputLevelSecondaryCache (s : ApuState) : ApuState :=
  mixerOutputLevelCache <|
    if s.channel4Enabled && s.enabledChannels 3 then
      { s with channel4currentSampleLeftSecondary := s.channel4currentSampleLeft,
               channel4currentSampleRightSecondary := s.channel4currentSampleRight }
    else
      { s with channel4currentSampleLeftSecondary := 0, channel4currentSampleRightSecondary := 0 }

/-- `channel4OutputLevelCache`. -/
def channel4OutputLevelCache (s : ApuState) : ApuState :=
  channel4OutputLevelSecondaryCache
    { s with channel4currentSampleLeft := if s.leftChannel4 then s.cachedChannel4Sample else 0,
             channel4currentSampleRight := if s.rightChannel4 then s.cachedChannel4Sample else 0 }

/-- `channel4EnableCheck`. -/
def channel4EnableCheck (s : ApuState) : ApuState :=
  channel4OutputLevelSecondaryCache
    { s with channel4Enabled :=
        (s.channel4consecutive || decide (0 < s.channel4totalLength)) && s.channel4canPlay }

/-- `channel4VolumeEnableCheck`: `channel4canPlay = memory[0xff21] > 7`. -/
def channel4VolumeEnableCheck (s : ApuState) : ApuState :=
  channel4OutputLevelSecondaryCache
    (channel4EnableCheck { s with channel4canPlay := decide (7 < s.memory 0xff21) })

/-- `channel4UpdateCache`:
`cachedChannel4Sample = noiseSampleTable[currentVolume | lastSampleLookup]`
(`currentVolume` is non-negative at every use site). -/
def channel4UpdateCache (s : ApuState) : ApuState :=
  channel4OutputLevelCache
    { s with cachedChannel4Sample :=
        s.noiseSampleTable (s.channel4currentVolume.toNat ||| s.channel4lastSampleLookup) }

/-- The channel-1 block of `clockAudioLength`: the length counter counts
down; on the 1 → 0 transition the enable is re-checked and the NR52
channel-1 on-flag is cleared. -/
def clockAudioLength1 (s : ApuState) : ApuState :=
  if 1 < s.channel1totalLength then { s with channel1totalLength := s.channel1totalLength - 1 }
  else if s.channel1totalLength = 1 then
    let s1 := channel1EnableCheck { s with channel1totalLength := 0 }
    { s1 with memory := Function.update s1.memory 0xff26 (s1.memory 0xff26 &&& 0xfe) }
  else s

/-- The channel-2 block of `clockAudioLength`. -/
def clockAudioLength2 (s : ApuState) : ApuState :=
  if 1 < s.channel2totalLength then { s with channel2totalLength := s.channel2totalLength - 1 }
  else if s.channel2totalLength = 1 then
    let s1 := channel2EnableCheck { s with channel2totalLength := 0 }
    { s1 with memory := Function.update s1.memory 0xff26 (s1.memory 0xff26 &&& 0xfd) }
  else s

/-- The channel-3 block of `clockAudioLength`. -/
def clockAudioLength3 (s : ApuState) : ApuState :=
  if 1 < s.channel3totalLength then { s with channel3totalLength := s.channel3totalLength - 1 }
  else if s.channel3totalLength = 1 then
    let s1 := channel3EnableCheck { s with channel3totalLength := 0 }
    { s1 with memory := Function.update s1.memory 0xff26 (s1.memory 0xff26 &&& 0xfb) }
  else s

/-- The channel-4 block of `clockAudioLength`. -/
def clockAudioLength4 (s : ApuState) : ApuState :=
  if 1 < s.channel4totalLength then { s with channel4totalLength := s.channel4totalLength - 1 }
  else if s.channel4totalLength = 1 then
    let s1 := channel4EnableCheck { s with channel4totalLength := 0 }
    { s1 with memory := Function.update s1.memory 0xff26 (s1.memory 0xff26 &&& 0xf7) }
  else s

/-- `GameBoyCore.prototype.clockAudioLength`: the four per-channel blocks
in source order. -/
def clockAudioLength (s : ApuState) : ApuState :=
  clockAudioLength4 (clockAudioLength3 (clockAudioLength2 (clockAudioLength1 s)))

/-- `GameBoyCore.prototype.runAudioSweep`: one channel-1 sweep step.
`new = shadow ∓ (shadow >> divider)`; on increase the overflow check runs
twice; the frequency tracker becomes `(0x800 - frequency) << 2` (source:
`0x800 - this.channel1frequency << 2`, where `-` binds tighter than `<<`). -/
def runAudioSweep (s : ApuState) : ApuState :=
  if 0 < s.channel1lastTimeSweep then
    if 0 < s.channel1frequencySweepDivider then
      let s := { s with channel1Swept := true }
      if s.channel1decreaseSweep then
        let shadow := s.channel1ShadowFrequency -
          s.channel1ShadowFrequency >>> s.channel1frequencySweepDivider
        let freq := shadow &&& 0x7ff
        { s with channel1ShadowFrequency := shadow, channel1frequency := freq,
                 channel1FrequencyTracker := (((0x800 - freq) <<< 2 : Nat) : Int),
                 channel1timeSweep := s.channel1lastTimeSweep }
      else
        let shadow := s.channel1ShadowFrequency +
          s.channel1ShadowFrequency >>> s.channel1frequencySweepDivider
        let s := { s with channel1ShadowFrequency := shadow, channel1frequency := shadow }
        let s :=
          if shadow ≤ 0x7ff then
            let s := { s with channel1FrequencyTracker := (((0x800 - shadow) <<< 2 : Nat) : Int) }
            if 0x7ff < shadow + (shadow >>> s.channel1frequencySweepDivider) then
              let s1 := channel1EnableCheck { s with channel1SweepFault := true }
              { s1 with memory := Function.update s1.memory 0xff26 (s1.memory 0xff26 &&& 0xfe) }
            else s
          else
            let s1 := channel1EnableCheck
              { s with channel1frequency := shadow &&& 0x7ff, channel1SweepFault := true }
            { s1 with memory := Function.update s1.memory 0xff26 (s1.memory 0xff26 &&& 0xfe) }
        { s with channel1timeSweep := s.channel1lastTimeSweep }
    else
      channel1EnableCheck { s with channel1SweepFault := true }
  else s

/-- `GameBoyCore.prototype.clockAudioSweep`:
`if (!sweepFault && timeSweep > 0) { if (--timeSweep === 0) runAudioSweep(); }`. -/
def clockAudioSweep (s : ApuState) : ApuState :=
  if !s.channel1SweepFault && decide (0 < s.channel1timeSweep) then
    let s1 := { s with channel1timeSweep := s.channel1timeSweep - 1 }
    if s1.channel1timeSweep = 0 then runAudioSweep s1 else s1
  else s

/-- `GameBoyCore.prototype.channel1AudioSweepPerformDummy`: the immediate
overflow check on trigger; it uses a local shadow value and never commits
it. -/
def channel1AudioSweepPerformDummy (s : ApuState) : ApuState :=
  if 0 < s.channel1frequencySweepDivider then
    if !s.channel1decreaseSweep then
      let shadow := s.channel1ShadowFrequency +
        s.channel1ShadowFrequency >>> s.channel1frequencySweepDivider
      if shadow ≤ 0x7ff then
        if 0x7ff < shadow + (shadow >>> s.channel1frequencySweepDivider) then
          let s1 := channel1EnableCheck { s with channel1SweepFault := true }
          { s1 with memory := Function.update s1.memory 0xff26 (s1.memory 0xff26 &&& 0xfe) }
        else s
      else
        let s1 := channel1EnableCheck { s with channel1SweepFault := true }
        { s1 with memory := Function.update s1.memory 0xff26 (s1.memory 0xff26 &&& 0xfe) }
    else s
  else s

/-- The channel-1 block of `clockAudioEnvelope`. -/
def clockAudioEnvelope1 (s : ApuState) : ApuState :=
  if -1 < s.channel1envelopeSweepsLast then
    if 0 < s.channel1envelopeSweeps then
      { s with channel1envelopeSweeps := s.channel1envelopeSweeps - 1 }
    else if !s.channel1envelopeType then
      if 0 < s.channel1envelopeVolume then
        channel1OutputLevelCache
          { s with channel1envelopeVolume := s.channel1envelopeVolume - 1,
                   channel1envelopeSweeps := s.channel1envelopeSweepsLast }
      else { s with channel1envelopeSweepsLast := -1 }
    else if s.channel1envelopeVolume < 0xf then
      channel1OutputLevelCache
        { s with channel1envelopeVolume := s.channel1envelopeVolume + 1,
                 channel1envelopeSweeps := s.channel1envelopeSweepsLast }
    else { s with channel1envelopeSweepsLast := -1 }
  else s

/-- The channel-2 block of `clockAudioEnvelope`. -/
def clockAudioEnvelope2 (s : ApuState) : ApuState :=
  if -1 < s.channel2envelopeSweepsLast then
    if 0 < s.channel2envelopeSweeps then
      { s with channel2envelopeSweeps := s.channel2envelopeSweeps - 1 }
    else if !s.channel2envelopeType then
      if 0 < s.channel2envelopeVolume then
        channel2OutputLevelCache
          { s with channel2envelopeVolume := s.channel2envelopeVolume - 1,
                   channel2envelopeSweeps := s.channel2envelopeSweepsLast }
      else { s with channel2envelopeSweepsLast := -1 }
    else if s.channel2envelopeVolume < 0xf then
      channel2OutputLevelCache
        { s with channel2envelopeVolume := s.channel2envelopeVolume + 1,
                 channel2envelopeSweeps := s.channel2envelopeSweepsLast }
    else { s with channel2envelopeSweepsLast := -1 }
  else s

/-- The channel-4 block of `clockAudioEnvelope` (the decrement and
increment also refresh `channel4currentVolume`). -/
def clockAudioEnvelope4 (s : ApuState) : ApuState :=
  if -1 < s.channel4envelopeSweepsLast then
    if 0 < s.channel4envelopeSweeps then
      { s with channel4envelopeSweeps := s.channel4envelopeSweeps - 1 }
    else if !s.channel4envelopeType then
      if 0 < s.channel4envelopeVolume then
        channel4UpdateCache
          { s with channel4envelopeVolume := s.channel4envelopeVolume - 1,
                   channel4currentVolume :=
                     (s.channel4envelopeVolume - 1) * 2 ^ s.channel4VolumeShifter,
                   channel4envelopeSweeps := s.channel4envelopeSweepsLast }
      else { s with channel4envelopeSweepsLast := -1 }
    else if s.channel4envelopeVolume < 0xf then
      channel4UpdateCache
        { s with channel4envelopeVolume := s.channel4envelopeVolume + 1,
                 channel4currentVolume :=
                   (s.channel4envelopeVolume + 1) * 2 ^ s.channel4VolumeShifter,
                 channel4envelopeSweeps := s.channel4envelopeSweepsLast }
    else { s with channel4envelopeSweepsLast := -1 }
  else s

/-- `GameBoyCore.prototype.clockAudioEnvelope`: the envelope step of
channels 1, 2 and 4, in source order. -/
def clockAudioEnvelope (s : ApuState) : ApuState :=
  clockAudioEnvelope4 (clockAudioEnvelope2 (clockAudioEnvelope1 s))

/-- `GameBoyCore.prototype.audioComputeSequencer`: the 8-step frame
sequencer (`switch (this.sequencePosition++)`); length at steps 0, 2, 4,
6; sweep at 2 and 6; envelope at 7 (which also resets the position). -/
def audioComputeSequencer (s : ApuState) : ApuState :=
  let pos := s.sequencePosition
  let s := { s with sequencePosition := s.sequencePosition + 1 }
  if pos = 0 then clockAudioLength s
  else if pos = 2 then clockAudioSweep (clockAudioLength s)
  else if pos = 4 then clockAudioLength s
  else if pos = 6 then clockAudioSweep (clockAudioLength s)
  else if pos = 7 then
    let s1 := clockAudioEnvelope s
    { s1 with sequencePosition := 0 }
  else s

/-- The opening block of `computeAudioChannels`: clock the four channel
counters down by the previous event interval. -/
def computeAudioChannelsDec (s : ApuState) : ApuState :=
  { s with
    channel1FrequencyCounter := s.channel1FrequencyCounter - s.audioClocksUntilNextEvent,
    channel2FrequencyCounter := s.channel2FrequencyCounter - s.audioClocksUntilNextEvent,
    channel3Counter := s.channel3Counter - s.audioClocksUntilNextEvent,
    channel4Counter := s.channel4Counter - s.audioClocksUntilNextEvent }

/-- The channel-1 counter block of `computeAudioChannels`. -/
def computeAudioChannels1 (s : ApuState) : ApuState :=
  if s.channel1FrequencyCounter = 0 then
    channel1OutputLevelTrimaryCache
      { s with channel1FrequencyCounter := s.channel1FrequencyTracker,
               channel1DutyTracker := (s.channel1DutyTracker + 1) &&& 0x7 }
  else s

/-- The channel-2 counter block of `computeAudioChannels`. -/
def computeAudioChannels2 (s : ApuState) : ApuState :=
  if s.channel2FrequencyCounter = 0 then
    channel2OutputLevelTrimaryCache
      { s with channel2FrequencyCounter := s.channel2FrequencyTracker,
               channel2DutyTracker := (s.channel2DutyTracker + 1) &&& 0x7 }
  else s

/-- The channel-3 counter block of `computeAudioChannels` (the wave
position advances only while the channel can play). -/
def computeAudioChannels3 (s : ApuState) : ApuState :=
  if s.channel3Counter = 0 then
    let s :=
      if s.channel3canPlay then
        { s with channel3lastSampleLookup := (s.channel3lastSampleLookup + 1) &&& 0x1f }
      else s
    channel3UpdateCache { s with channel3Counter := s.channel3FrequencyPeriod }
  else s

/-- The channel-4 counter block of `computeAudioChannels`. -/
def computeAudioChannels4 (s : ApuState) : ApuState :=
  if s.channel4Counter = 0 then
    channel4UpdateCache
      { s with channel4lastSampleLookup := (s.channel4lastSampleLookup + 1) &&& s.channel4BitRange,
               channel4Counter := s.channel4FrequencyPeriod }
  else s

/-- The closing block of `computeAudioChannels`: the next event interval
is the minimum of the four counters. -/
def computeAudioChannelsNext (s : ApuState) : ApuState :=
  let m := min (min s.channel1FrequencyCounter s.channel2FrequencyCounter)
    (min s.channel3Counter s.channel4Counter)
  { s with audioClocksUntilNextEvent := m, audioClocksUntilNextEventCounter := m }

/-- `GameBoyCore.prototype.computeAudioChannels`: the blocks in source
order. -/
def computeAudioChannels (s : ApuState) : ApuState :=
  computeAudioChannelsNext
    (computeAudioChannels4
      (computeAudioChannels3
        (computeAudioChannels2 (computeAudioChannels1 (computeAudioChannelsDec s)))))

/-- `GameBoyCore.prototype.outputAudio`: writes the two resampled stereo
values into `audioBuffer` and, when the buffer fills, hands it to the host
(`audioServer.writeAudio`, counted by `audioServerWritten`) and rewinds. -/
def outputAudio (s : ApuState) : ApuState :=
  let u := jsToUint32 s.downsampleInput
  let s := { s with
    audioBuffer := Function.update s.audioBuffer s.audioDestinationPosition
      (((u >>> 16 : Nat) : ℚ) * s.downSampleInputDivider - 1),
    audioDestinationPosition := s.audioDestinationPosition + 1 }
  let s := { s with
    audioBuffer := Function.update s.audioBuffer s.audioDestinationPosition
      (((u &&& 0xffff : Nat) : ℚ) * s.downSampleInputDivider - 1),
    audioDestinationPosition := s.audioDestinationPosition + 1 }
  let s :=
    if s.audioDestinationPosition = s.numSamplesTotal then
      { s with audioServerWritten := s.audioServerWritten + 1, audioDestinationPosition := 0 }
    else s
  { s with downsampleInput := 0 }

/-- The inner `while (clockUpTo > 0)` resampler loop of `generateAudio`.
The first argument is fuel making the recursion structural: each iteration
consumes at least one clock whenever `audioIndex < audioResamplerFirstPassFactor`
(an invariant of the loop), so fuel equal to the clock count suffices; on
the degenerate states where `multiplier` would be 0 the source loops
forever and we return the state unchanged. -/
def generateAudioInner : Nat → ApuState → Nat → ApuState
  | 0, s, _ => s
  | fuel + 1, s, clockUpTo =>
    if clockUpTo = 0 then s
    else
      let multiplier := min clockUpTo (s.audioResamplerFirstPassFactor - s.audioIndex)
      if multiplier = 0 then s
      else
        let s1 := { s with
          audioIndex := s.audioIndex + multiplier,
          downsampleInput := s.downsampleInput + s.mixerOutputCache * (multiplier : Int) }
        let s2 :=
          if s1.audioIndex = s1.audioResamplerFirstPassFactor then
            outputAudio { s1 with audioIndex := 0 }
          else s1
        generateAudioInner fuel s2 (clockUpTo - multiplier)

/-- The outer `for (; numSamples > 0;)` loop of `generateAudio` (the
audible path).  Fuel as in `generateAudioInner`: every iteration consumes
at least one clock when the event counter and the sequencer counter are
positive (which the loop re-establishes at the end of each iteration), so
fuel equal to the clock count suffices; where `clockUpTo ≤ 0` the source
would loop forever and we return the state unchanged. -/
def generateAudioGo : Nat → ApuState → Nat → ApuState
  | 0, s, _ => s
  | fuel + 1, s, numSamples =>
    if numSamples = 0 then s
    else
      let clockUpTo :=
        min (min s.audioClocksUntilNextEventCounter s.sequencerClocks) (numSamples : Int)
      if clockUpTo ≤ 0 then s
      else
        let m := clockUpTo.toNat
        let s1 := { s with
          audioClocksUntilNextEventCounter := s.audioClocksUntilNextEventCounter - clockUpTo,
          sequencerClocks := s.sequencerClocks - clockUpTo }
        let s2 := generateAudioInner m s1 m
        let s3 :=
          if s2.sequencerClocks = 0 then
            { (audioComputeSequencer s2) with sequencerClocks := 0x2000 }
          else s2
        let s4 :=
          if s3.audioClocksUntilNextEventCounter = 0 then computeAudioChannels s3 else s3
        generateAudioGo fuel s4 (numSamples - m)

/-- The silent branch of `generateAudio` (master enable off or CPU
stopped): the resampler still runs and emits, but nothing accumulates into
`downsampleInput`. -/
def generateAudioSilent : Nat → ApuState → Nat → ApuState
  | 0, s, _ => s
  | fuel + 1, s, numSamples =>
    if numSamples = 0 then s
    else
      let multiplier := min numSamples (s.audioResamplerFirstPassFactor - s.audioIndex)
      if multiplier = 0 then s
      else
        let s1 := { s with audioIndex := s.audioIndex + multiplier }
        let s2 :=
          if s1.audioIndex = s1.audioResamplerFirstPassFactor then
            outputAudio { s1 with audioIndex := 0 }
          else s1
        generateAudioSilent fuel s2 (numSamples - multiplier)

/-- `GameBoyCore.prototype.generateAudio(numSamples)`. -/
def generateAudio (s : ApuState) (numSamples : Nat) : ApuState :=
  if s.soundMasterEnabled && !s.CPUStopped then generateAudioGo numSamples s numSamples
  else generateAudioSilent numSamples s numSamples

/-- The loop of `generateAudioFake` (fuel as in `generateAudioGo`). -/
def generateAudioFakeGo : Nat → ApuState → Nat → ApuState
  | 0, s, _ => s
  | fuel + 1, s, numSamples =>
    if numSamples = 0 then s
    else
      let clockUpTo :=
        min (min s.audioClocksUntilNextEventCounter s.sequencerClocks) (numSamples : Int)
      if clockUpTo ≤ 0 then s
      else
        let m := clockUpTo.toNat
        let s1 := { s with
          audioClocksUntilNextEventCounter := s.audioClocksUntilNextEventCounter - clockUpTo,
          sequencerClocks := s.sequencerClocks - clockUpTo }
        let s2 :=
          if s1.sequencerClocks = 0 then
            { (audioComputeSequencer s1) with sequencerClocks := 0x2000 }
          else s1
        let s3 :=
          if s2.audioClocksUntilNextEventCounter = 0 then computeAudioChannels s2 else s2
        generateAudioFakeGo fuel s3 (numSamples - m)

/-- `GameBoyCore.prototype.generateAudioFake(numSamples)`: clocks channel
events and the sequencer without producing output. -/
def generateAudioFake (s : ApuState) (numSamples : Nat) : ApuState :=
  if s.soundMasterEnabled && !s.CPUStopped then generateAudioFakeGo numSamples s numSamples
  else s

/-- `GameBoyCore.prototype.audioJIT`: flush the pending `audioTicks`
through `generateAudio` (sound on) or `generateAudioFake` (sound off). -/
def audioJIT (s : ApuState) : ApuState :=
  let s1 := if s.settingsSoundOn then generateAudio s s.audioTicks
    else generateAudioFake s s.audioTicks
  { s1 with audioTicks := 0 }

/-- `GameBoyCore.prototype.channel3WriteRAM(address, data)` (`address` is
the wave-RAM offset `0x0`-`0xf`): flushes audio when channel 3 is playing,
stores the byte at `0xff30 | address` and decodes its two nibbles into
`channel3PCM`. -/
def channel3WriteRAM (s : ApuState) (address data : Nat) : ApuState :=
  let s := if s.channel3canPlay then audioJIT s else s
  let s := { s with memory := Function.update s.memory (0xff30 ||| address) data }
  let a2 := address <<< 1
  { s with channel3PCM :=
      Function.update (Function.update s.channel3PCM a2 (data >>> 4)) (a2 ||| 1) (data &&& 0xf) }

/-- `memoryWriter[0xff10]` (NR10): gated on the master enable; a
negate → positive direction change after a sweep has occurred
(`channel1Swept`) sets `channel1SweepFault`; then the sweep parameters and
the stored byte are assigned and `channel1EnableCheck` runs. -/
def registerWriteFF10 (s : ApuState) (data : Nat) : ApuState :=
  if s.soundMasterEnabled then
    let s := audioJIT s
    let s :=
      if s.channel1decreaseSweep ∧ ¬ Nat.testBit data 3 then
        if s.channel1Swept then { s with channel1SweepFault := true } else s
      else s
    channel1EnableCheck
      { s with channel1lastTimeSweep := (data &&& 0x70) >>> 4,
               channel1frequencySweepDivider := data &&& 0x07,
               channel1decreaseSweep := Nat.testBit data 3,
               memory := Function.update s.memory 0xff10 data }
  else s

/-- `memoryWriter[0xff11]` (NR11): also reachable with the master enable
off on DMG (`!useGBCMode`), where the duty bits are masked away
(`data &= 0x3f`). -/
def registerWriteFF11 (s : ApuState) (data : Nat) : ApuState :=
  if s.soundMasterEnabled || !s.useGBCMode then
    let s1 := if s.soundMasterEnabled then audioJIT s else s
    let data1 := if s.soundMasterEnabled then data else data &&& 0x3f
    channel1EnableCheck
      { s1 with channel1CachedDuty := dutyLookup (data1 >>> 6),
                channel1totalLength := 0x40 - (data1 &&& 0x3f),
                memory := Function.update s1.memory 0xff11 data1 }
  else s

/-- `memoryWriter[0xff12]` (NR12), including the zombie-volume quirk when
the channel is enabled with no pending envelope sweeps. -/
def registerWriteFF12 (s : ApuState) (data : Nat) : ApuState :=
  if s.soundMasterEnabled then
    let s := audioJIT s
    let s :=
      if s.channel1Enabled ∧ s.channel1envelopeSweeps = 0 then
        let s :=
          if Nat.testBit (s.memory 0xff12 ^^^ data) 3 then
            let s :=
              if ¬ Nat.testBit (s.memory 0xff12) 3 then
                if s.memory 0xff12 &&& 0x7 = 0x7 then
                  { s with channel1envelopeVolume := s.channel1envelopeVolume + 2 }
                else { s with channel1envelopeVolume := s.channel1envelopeVolume + 1 }
              else s
            { s with channel1envelopeVolume := (16 - s.channel1envelopeVolume).emod 16 }
          else if s.memory 0xff12 &&& 0xf = 0x8 then
            { s with channel1envelopeVolume := (1 + s.channel1envelopeVolume).emod 16 }
          else s
        channel1OutputLevelCache s
      else s
    channel1VolumeEnableCheck
      { s with channel1envelopeType := Nat.testBit data 3,
               memory := Function.update s.memory 0xff12 data }
  else s

/-- `memoryWriter[0xff13]` (NR13): low frequency byte;
`FrequencyTracker = 0x800 - frequency << 2`. -/
def registerWriteFF13 (s : ApuState) (data : Nat) : ApuState :=
  if s.soundMasterEnabled then
    let s := audioJIT s
    let freq := (s.channel1frequency &&& 0x700) ||| data
    { s with channel1frequency := freq,
             channel1FrequencyTracker := (((0x800 - freq) <<< 2 : Nat) : Int) }
  else s

/-- The `data > 0x7f` (trigger) block of the NR14 write closure: sweep
reload, envelope reload from NR12, length reload, the NR52 channel-1 flag,
shadow frequency, sweep-fault reset and the immediate dummy sweep check. -/
def registerWriteFF14Trigger (s : ApuState) (data : Nat) : ApuState :=
  let s := { s with channel1timeSweep := s.channel1lastTimeSweep, channel1Swept := false }
  let nr12 := s.memory 0xff12
  let s := channel1OutputLevelCache
    { s with channel1envelopeVolume := ((nr12 >>> 4 : Nat) : Int) }
  let s := { s with
    channel1envelopeSweepsLast := ((nr12 &&& 0x7 : Nat) : Int) - 1,
    channel1totalLength := if s.channel1totalLength = 0 then 0x40 else s.channel1totalLength }
  let s := { s with memory :=
      (Function.update s.memory 0xff26
        (if 0 < s.channel1lastTimeSweep ∨ 0 < s.channel1frequencySweepDivider then
          s.memory 0xff26 ||| 0x1
        else s.memory 0xff26 &&& 0xfe)) }
  let s :=
    if Nat.testBit data 6 then
      { s with memory := Function.update s.memory 0xff26 (s.memory 0xff26 ||| 0x1) }
    else s
  channel1AudioSweepPerformDummy
    { s with channel1ShadowFrequency := s.channel1frequency, channel1SweepFault := false }

/-- `memoryWriter[0xff14]` (NR14): high frequency bits, length-mode bit,
and on bit 7 the channel-1 trigger block (`registerWriteFF14Trigger`). -/
def registerWriteFF14 (s : ApuState) (data : Nat) : ApuState :=
  if s.soundMasterEnabled then
    let s := audioJIT s
    let s := { s with channel1consecutive := data &&& 0x40 = 0,
                      channel1frequency := ((data &&& 0x7) <<< 8) ||| (s.channel1frequency &&& 0xff) }
    let s := { s with
      channel1FrequencyTracker := (((0x800 - s.channel1frequency) <<< 2 : Nat) : Int) }
    let s := if 0x7f < data then registerWriteFF14Trigger s data else s
    let s := channel1EnableCheck s
    { s with memory := Function.update s.memory 0xff14 data }
  else s

/-- `memoryWriter[0xff16]` (NR21): like NR11 for channel 2. -/
def registerWriteFF16 (s : ApuState) (data : Nat) : ApuState :=
  if s.soundMasterEnabled || !s.useGBCMode then
    let s1 := if s.soundMasterEnabled then audioJIT s else s
    let data1 := if s.soundMasterEnabled then data else data &&& 0x3f
    channel2EnableCheck
      { s1 with channel2CachedDuty := dutyLookup (data1 >>> 6),
                channel2totalLength := 0x40 - (data1 &&& 0x3f),
                memory := Function.update s1.memory 0xff16 data1 }
  else s

/-- `memoryWriter[0xff17]` (NR22): like NR12 for channel 2. -/
def registerWriteFF17 (s : ApuState) (data : Nat) : ApuState :=
  if s.soundMasterEnabled then
    let s := audioJIT s
    let s :=
      if s.channel2Enabled ∧ s.channel2envelopeSweeps = 0 then
        let s :=
          if Nat.testBit (s.memory 0xff17 ^^^ data) 3 then
            let s :=
              if ¬ Nat.testBit (s.memory 0xff17) 3 then
                if s.memory 0xff17 &&& 0x7 = 0x7 then
                  { s with channel2envelopeVolume := s.channel2envelopeVolume + 2 }
                else { s with channel2envelopeVolume := s.channel2envelopeVolume + 1 }
              else s
            { s with channel2envelopeVolume := (16 - s.channel2envelopeVolume).emod 16 }
          else if s.memory 0xff17 &&& 0xf = 0x8 then
            { s with channel2envelopeVolume := (1 + s.channel2envelopeVolume).emod 16 }
          else s
        channel2OutputLevelCache s
      else s
    channel2VolumeEnableCheck
      { s with channel2envelopeType := Nat.testBit data 3,
               memory := Function.update s.memory 0xff17 data }
  else s

/-- `memoryWriter[0xff18]` (NR23). -/
def registerWriteFF18 (s : ApuState) (data : Nat) : ApuState :=
  if s.soundMasterEnabled then
    let s := audioJIT s
    let freq := (s.channel2frequency &&& 0x700) ||| data
    { s with channel2frequency := freq,
             channel2FrequencyTracker := (((0x800 - freq) <<< 2 : Nat) : Int) }
  else s

/-- The `data > 0x7f` (trigger) block of the NR24 write closure. -/
def registerWriteFF19Trigger (s : ApuState) (data : Nat) : ApuState :=
  let nr22 := s.memory 0xff17
  let s := channel2OutputLevelCache
    { s with channel2envelopeVolume := ((nr22 >>> 4 : Nat) : Int) }
  let s := { s with channel2envelopeSweepsLast := ((nr22 &&& 0x7 : Nat) : Int) - 1 }
  let s := if s.channel2totalLength = 0 then { s with channel2totalLength := 0x40 } else s
  if Nat.testBit data 6 then
    { s with memory := Function.update s.memory 0xff26 (s.memory 0xff26 ||| 0x2) }
  else s

/-- `memoryWriter[0xff19]` (NR24): trigger block on bit 7, then
length-mode, frequency, tracker, stored byte and `channel2EnableCheck`. -/
def registerWriteFF19 (s : ApuState) (data : Nat) : ApuState :=
  if s.soundMasterEnabled then
    let s := audioJIT s
    let s := if 0x7f < data then registerWriteFF19Trigger s data else s
    let s := { s with channel2consecutive := data &&& 0x40 = 0,
                      channel2frequency := ((data &&& 0x7) <<< 8) ||| (s.channel2frequency &&& 0xff) }
    let s := { s with
      channel2FrequencyTracker := (((0x800 - s.channel2frequency) <<< 2 : Nat) : Int) }
    channel2EnableCheck { s with memory := Function.update s.memory 0xff19 data }
  else s

/-- `memoryWriter[0xff1a]` (NR30): DAC enable for channel 3
(`channel3EnableCheck()` is commented out in the source). -/
def registerWriteFF1A (s : ApuState) (data : Nat) : ApuState :=
  if s.soundMasterEnabled then
    let s := audioJIT s
    let s :=
      if !s.channel3canPlay && decide (0x80 ≤ data) then
        channel3UpdateCache { s with channel3lastSampleLookup := 0 }
      else s
    let s := { s with channel3canPlay := decide (0x7f < data) }
    let s :=
      if s.channel3canPlay ∧ 0x7f < s.memory 0xff1a ∧ ¬s.channel3consecutive then
        { s with memory := Function.update s.memory 0xff26 (s.memory 0xff26 ||| 0x4) }
      else s
    { s with memory := Function.update s.memory 0xff1a data }
  else s

/-- `memoryWriter[0xff1b]` (NR31): channel-3 length; also reachable with
the master enable off on DMG. -/
def registerWriteFF1B (s : ApuState) (data : Nat) : ApuState :=
  if s.soundMasterEnabled || !s.useGBCMode then
    let s := if s.soundMasterEnabled then audioJIT s else s
    channel3EnableCheck { s with channel3totalLength := 0x100 - data }
  else s

/-- `memoryWriter[0xff1c]` (NR32): output level; the stored byte is masked
to `0x60`. -/
def registerWriteFF1C (s : ApuState) (data : Nat) : ApuState :=
  if s.soundMasterEnabled then
    let s := audioJIT s
    let d := data &&& 0x60
    { s with memory := Function.update s.memory 0xff1c d,
             channel3patternType := if d = 0 then 4 else (d >>> 5) - 1 }
  else s

/-- `memoryWriter[0xff1d]` (NR33):
`FrequencyPeriod = 0x800 - frequency << 1`. -/
def registerWriteFF1D (s : ApuState) (data : Nat) : ApuState :=
  if s.soundMasterEnabled then
    let s := audioJIT s
    let freq := (s.channel3frequency &&& 0x700) ||| data
    { s with channel3frequency := freq,
             channel3FrequencyPeriod := (((0x800 - freq) <<< 1 : Nat) : Int) }
  else s

/-- `memoryWriter[0xff1e]` (NR34): channel-3 trigger and frequency high
bits. -/
def registerWriteFF1E (s : ApuState) (data : Nat) : ApuState :=
  if s.soundMasterEnabled then
    let s := audioJIT s
    let s :=
      if 0x7f < data then
        let s := if s.channel3totalLength = 0 then { s with channel3totalLength := 0x100 } else s
        let s := { s with channel3lastSampleLookup := 0 }
        if Nat.testBit data 6 then
          { s with memory := Function.update s.memory 0xff26 (s.memory 0xff26 ||| 0x4) }
        else s
      else s
    let s := { s with channel3consecutive := data &&& 0x40 = 0 }
    let freq := ((data &&& 0x7) <<< 8) ||| (s.channel3frequency &&& 0xff)
    let s := { s with channel3frequency := freq,
                      channel3FrequencyPeriod := (((0x800 - freq) <<< 1 : Nat) : Int) }
    channel3EnableCheck { s with memory := Function.update s.memory 0xff1e data }
  else s

/-- `memoryWriter[0xff20]` (NR41): channel-4 length; also reachable with
the master enable off on DMG. -/
def registerWriteFF20 (s : ApuState) (data : Nat) : ApuState :=
  if s.soundMasterEnabled || !s.useGBCMode then
    let s := if s.soundMasterEnabled then audioJIT s else s
    channel4EnableCheck { s with channel4totalLength := 0x40 - (data &&& 0x3f) }
  else s

/-- `memoryWriter[0xff21]` (NR42): like NR12 for channel 4 (the zombie
path refreshes `channel4currentVolume` instead of an output-level cache). -/
def registerWriteFF21 (s : ApuState) (data : Nat) : ApuState :=
  if s.soundMasterEnabled then
    let s := audioJIT s
    let s :=
      if s.channel4Enabled ∧ s.channel4envelopeSweeps = 0 then
        let s :=
          if Nat.testBit (s.memory 0xff21 ^^^ data) 3 then
            let s :=
              if ¬ Nat.testBit (s.memory 0xff21) 3 then
                if s.memory 0xff21 &&& 0x7 = 0x7 then
                  { s with channel4envelopeVolume := s.channel4envelopeVolume + 2 }
                else { s with channel4envelopeVolume := s.channel4envelopeVolume + 1 }
              else s
            { s with channel4envelopeVolume := (16 - s.channel4envelopeVolume).emod 16 }
          else if s.memory 0xff21 &&& 0xf = 0x8 then
            { s with channel4envelopeVolume := (1 + s.channel4envelopeVolume).emod 16 }
          else s
        { s with channel4currentVolume := s.channel4envelopeVolume * 2 ^ s.channel4VolumeShifter }
      else s
    let s := { s with channel4envelopeType := Nat.testBit data 3,
                      memory := Function.update s.memory 0xff21 data }
    channel4VolumeEnableCheck (channel4UpdateCache s)
  else s

/-- `memoryWriter[0xff22]` (NR43): noise frequency period
(`Math.max((data & 0x7) << 4, 8) << (data >> 4)`) and LSFR width switch. -/
def registerWriteFF22 (s : ApuState) (data : Nat) : ApuState :=
  if s.soundMasterEnabled then
    let s := audioJIT s
    let s := { s with
      channel4FrequencyPeriod := ((max ((data &&& 0x7) <<< 4) 8 <<< (data >>> 4) : Nat) : Int) }
    let bitWidth := data &&& 0x8
    let s :=
      if (bitWidth = 0x8 ∧ s.channel4BitRange = 0x7fff) ∨
          (bitWidth = 0 ∧ s.channel4BitRange = 0x7f) then
        let s := { s with channel4lastSampleLookup := 0,
                          channel4BitRange := if bitWidth = 0x8 then 0x7f else 0x7fff,
                          channel4VolumeShifter := if bitWidth = 0x8 then 7 else 15 }
        { s with channel4currentVolume := s.channel4envelopeVolume * 2 ^ s.channel4VolumeShifter,
                 noiseSampleTable := if bitWidth = 0x8 then s.LSFR7Table else s.LSFR15Table }
      else s
    channel4UpdateCache { s with memory := Function.update s.memory 0xff22 data }
  else s

/-- The `data > 0x7f` (trigger) block of the NR44 write closure. -/
def registerWriteFF23Trigger (s : ApuState) (data : Nat) : ApuState :=
  let nr42 := s.memory 0xff21
  let s := { s with channel4envelopeVolume := ((nr42 >>> 4 : Nat) : Int) }
  let s := { s with
    channel4currentVolume := s.channel4envelopeVolume * 2 ^ s.channel4VolumeShifter }
  let s := { s with channel4envelopeSweepsLast := ((nr42 &&& 0x7 : Nat) : Int) - 1 }
  let s := if s.channel4totalLength = 0 then { s with channel4totalLength := 0x40 } else s
  if Nat.testBit data 6 then
    { s with memory := Function.update s.memory 0xff26 (s.memory 0xff26 ||| 0x8) }
  else s

/-- `memoryWriter[0xff23]` (NR44): channel-4 trigger. -/
def registerWriteFF23 (s : ApuState) (data : Nat) : ApuState :=
  if s.soundMasterEnabled then
    let s := audioJIT s
    let s := { s with memory := Function.update s.memory 0xff23 data }
    let s := { s with channel4consecutive := data &&& 0x40 = 0 }
    let s := if 0x7f < data then registerWriteFF23Trigger s data else s
    channel4EnableCheck s
  else s

/-- `memoryWriter[0xff24]` (NR50): master Vin volumes; a no-op when the
byte is unchanged or the master enable is off. -/
def registerWriteFF24 (s : ApuState) (data : Nat) : ApuState :=
  if s.soundMasterEnabled ∧ s.memory 0xff24 ≠ data then
    let s := audioJIT s
    mixerOutputLevelCache
      { s with memory := Function.update s.memory 0xff24 data,
               VinLeftChannelMasterVolume := (((data >>> 4) &&& 0x07 : Nat) : Int) + 1,
               VinRightChannelMasterVolume := ((data &&& 0x07 : Nat) : Int) + 1 }
  else s

/-- `memoryWriter[0xff25]` (NR51): per-channel left/right routing; a no-op
when the byte is unchanged or the master enable is off. -/
def registerWriteFF25 (s : ApuState) (data : Nat) : ApuState :=
  if s.soundMasterEnabled ∧ s.memory 0xff25 ≠ data then
    let s := audioJIT s
    let s := { s with
      memory := Function.update s.memory 0xff25 data,
      rightChannel1 := Nat.testBit data 0, rightChannel2 := Nat.testBit data 1,
      rightChannel3 := Nat.testBit data 2, rightChannel4 := Nat.testBit data 3,
      leftChannel1 := Nat.testBit data 4, leftChannel2 := Nat.testBit data 5,
      leftChannel3 := Nat.testBit data 6, leftChannel4 := decide (0x7f < data) }
    channel4OutputLevelCache
      (channel3OutputLevelCache (channel2OutputLevelCache (channel1OutputLevelCache s)))
  else s

/-- The `memoryWriter` dispatch for the NRxx range `0xff10`-`0xff25` as
compiled by `registerWriteJumpCompile` (`0xff15` and `0xff1f` hold
`cartIgnoreWrite`). -/
def registerWriteNRxx (s : ApuState) (address data : Nat) : ApuState :=
  if address = 0xff10 then registerWriteFF10 s data
  else if address = 0xff11 then registerWriteFF11 s data
  else if address = 0xff12 then registerWriteFF12 s data
  else if address = 0xff13 then registerWriteFF13 s data
  else if address = 0xff14 then registerWriteFF14 s data
  else if address = 0xff16 then registerWriteFF16 s data
  else if address = 0xff17 then registerWriteFF17 s data
  else if address = 0xff18 then registerWriteFF18 s data
  else if address = 0xff19 then registerWriteFF19 s data
  else if address = 0xff1a then registerWriteFF1A s data
  else if address = 0xff1b then registerWriteFF1B s data
  else if address = 0xff1c then registerWriteFF1C s data
  else if address = 0xff1d then registerWriteFF1D s data
  else if address = 0xff1e then registerWriteFF1E s data
  else if address = 0xff20 then registerWriteFF20 s data
  else if address = 0xff21 then registerWriteFF21 s data
  else if address = 0xff22 then registerWriteFF22 s data
  else if address = 0xff23 then registerWriteFF23 s data
  else if address = 0xff24 then registerWriteFF24 s data
  else if address = 0xff25 then registerWriteFF25 s data
  else s

/-- `GameBoyCore.prototype.initializeAudioStartState` (run when NR52 turns
the APU on). -/
def initializeAudioStartState (s : ApuState) : ApuState :=
  let s := { s with
    channel1FrequencyTracker := 0x2000, channel1DutyTracker := 0,
    channel1CachedDuty := dutyLookup 2, channel1totalLength := 0,
    channel1envelopeVolume := 0, channel1envelopeType := false, channel1envelopeSweeps := 0,
    channel1envelopeSweepsLast := 0, channel1consecutive := true, channel1frequency := 0,
    channel1SweepFault := false, channel1ShadowFrequency := 0, channel1timeSweep := 1,
    channel1lastTimeSweep := 0, channel1Swept := false, channel1frequencySweepDivider := 0,
    channel1decreaseSweep := false,
    channel2FrequencyTracker := 0x2000, channel2DutyTracker := 0,
    channel2CachedDuty := dutyLookup 2, channel2totalLength := 0,
    channel2envelopeVolume := 0, channel2envelopeType := false, channel2envelopeSweeps := 0,
    channel2envelopeSweepsLast := 0, channel2consecutive := true, channel2frequency := 0,
    channel3canPlay := false, channel3totalLength := 0, channel3patternType := 4,
    channel3frequency := 0, channel3consecutive := true,
    channel4FrequencyPeriod := 8, channel4totalLength := 0, channel4envelopeVolume := 0,
    channel4currentVolume := 0, channel4envelopeType := false, channel4envelopeSweeps := 0,
    channel4envelopeSweepsLast := 0, channel4consecutive := true, channel4BitRange := 0x7fff,
    channel4VolumeShifter := 15,
    channel1FrequencyCounter := 0x2000, channel2FrequencyCounter := 0x2000,
    channel3Counter := 0x800, channel3FrequencyPeriod := 0x800,
    channel3lastSampleLookup := 0, channel4lastSampleLookup := 0,
    VinLeftChannelMasterVolume := 8, VinRightChannelMasterVolume := 8,
    mixerOutputCache := 0, sequencerClocks := 0x2000, sequencePosition := 0,
    channel4Counter := 8, cachedChannel3Sample := 0, cachedChannel4Sample := 0,
    channel1Enabled := false, channel2Enabled := false, channel3Enabled := false,
    channel4Enabled := false, channel1canPlay := false, channel2canPlay := false,
    channel4canPlay := false,
    audioClocksUntilNextEvent := 1, audioClocksUntilNextEventCounter := 1 }
  let s := channel4OutputLevelCache
    (channel3OutputLevelCache (channel2OutputLevelCache (channel1OutputLevelCache s)))
  { s with noiseSampleTable := s.LSFR15Table }

/-- The power-off loop of the NR52 write:
`for (var index = 0xff10; index < 0xff26; index++) this.memoryWriter[index](index, 0);`. -/
def soundPowerOffLoop : ApuState → List Nat → ApuState
  | s, [] => s
  | s, a :: rest => soundPowerOffLoop (registerWriteNRxx s a 0) rest

/-- The addresses `0xff10`-`0xff25` visited by the NR52 power-off loop. -/
def powerOffAddresses : List Nat :=
  List.range 0x16 |>.map (0xff10 + ·)

/-- `memoryWriter[0xff26]` (NR52): master enable.  On → runs
`initializeAudioStartState`; Off → zeroes the NRxx registers through their
own writers. -/
def registerWriteFF26 (s : ApuState) (data : Nat) : ApuState :=
  let s := audioJIT s
  if !s.soundMasterEnabled && decide (0x7f < data) then
    initializeAudioStartState
      { s with memory := Function.update s.memory 0xff26 0x80, soundMasterEnabled := true }
  else if s.soundMasterEnabled && decide (data < 0x80) then
    soundPowerOffLoop
      { s with memory := Function.update s.memory 0xff26 0, soundMasterEnabled := false }
      powerOffAddresses
  else s

/-- The `memoryWriter` dispatch over the APU I/O range modelled here:
NR52, the wave RAM closures (`0xff30 + i` calls `channel3WriteRAM(i, data)`)
and the NRxx writers. -/
def registerWriteAPU (s : ApuState) (address data : Nat) : ApuState :=
  if address = 0xff26 then registerWriteFF26 s data
  else if 0xff30 ≤ address ∧ address ≤ 0xff3f then channel3WriteRAM s (address &&& 0xf) data
  else registerWriteNRxx s address data

/-- `memoryReader[0xff30..0xff3f]` closure of `memoryReadJumpCompile`:
`return this.channel3canPlay ? this.memory[0xff00 | this.channel3lastSampleLookup >> 1] : this.memory[address];` -/
def waveRamRead (s : ApuState) (address : Nat) : Nat :=
  if s.channel3canPlay then s.memory (0xff00 ||| (s.channel3lastSampleLookup >>> 1))
  else s.memory address

/-- `memoryHighReader[0x30..0x3f]` closure (`address` is the low byte):
`return this.channel3canPlay ? this.memory[0xff00 | this.channel3lastSampleLookup >> 1] : this.memory[0xff00 | address];` -/
def waveRamHighRead (s : ApuState) (address : Nat) : Nat :=
  if s.channel3canPlay then s.memory (0xff00 ||| (s.channel3lastSampleLookup >>> 1))
  else s.memory (0xff00 ||| address)

/-- The wave-RAM read the specification describes, for comparison: the
byte at `0xFF30 | (channel3lastSampleLookup >> 1)` while playing. -/
def waveRamReadSpec (s : ApuState) (address : Nat) : Nat :=
  if s.channel3canPlay then s.memory (0xff30 ||| (s.channel3lastSampleLookup >>> 1))
  else s.memory address

/-- `GameBoyCore.prototype.recalculateIterationClockLimitForAudio`:
`cyclesTotal += Math.min(audioClocking >> 2 << 2, cyclesTotalBase << 1)`. -/
def recalculateIterationClockLimitForAudio (s : ApuState) (audioClocking : Int) : ApuState :=
  { s with cpuCyclesTotal :=
      (s.cpuCyclesTotal + min (audioClocking.fdiv 4 * 4) (s.cpuCyclesTotalBase * 2)) }

/-- `GameBoyCore.prototype.audioUnderrunAdjustment`: reads the host's
`remainingBuffer()` (an external input, `none` when it is not a number)
and extends the iteration budget on underrun. -/
def audioUnderrunAdjustment (s : ApuState) (remainingBuffer : Option Int) : ApuState :=
  if !s.settingsSoundOn then s
  else
    match remainingBuffer with
    | none => s
    | some r =>
      let underrunAmount := s.bufferContainAmount - max r 0
      if 0 < underrunAmount then
        recalculateIterationClockLimitForAudio s
          (underrunAmount.fdiv 2 * (s.audioResamplerFirstPassFactor : Int))
      else s

/-- The `CPUStopped` branch of `run()` (`index.js` lines 1089-1094):
`audioUnderrunAdjustment(); audioTicks += cpu.cyclesTotal; audioJIT();
stopEmulator |= 1;` — `cyclesTotal` is non-negative, added via `toNat`. -/
def runStoppedBranch (s : ApuState) (remainingBuffer : Option Int) : ApuState :=
  let s := audioUnderrunAdjustment s remainingBuffer
  let s := { s with audioTicks := s.audioTicks + s.cpuCyclesTotal.toNat }
  let s := audioJIT s
  { s with stopEmulator := s.stopEmulator ||| 1 }

/-! ## Preservation lemmas for the audio subsystem

The counting and flag theorems below need to know which `ApuState` fields
the various audio helpers leave alone.  `CacheUntouched` collects the
fields untouched by the whole mixer cache cascade; `SeqUntouched` the
(smaller) set untouched by the frame sequencer's clock functions, whose
channel-1 tracker clause is one-sided because `runAudioSweep` rewrites the
tracker (always to a positive value). -/

/-- The number of stereo samples handed towards the host so far: full
buffers flushed by `audioServer.writeAudio` plus the fill of the current
buffer. -/
def emittedSamples (s : ApuState) : Nat :=
  s.audioServerWritten * s.numSamplesTotal + s.audioDestinationPosition

/-- Fields untouched by the frame sequencer and channel-event helpers:
the resampler/output stage, the loop counters, the channel counters and
periods (tracker 1 one-sidedly, since `runAudioSweep` rewrites it, always
to a positive value), and the channel-1 sweep flags (`channel1Swept` is
only ever set, `channel1decreaseSweep` never written, inside audio
generation). -/
def SeqUntouched (s t : ApuState) : Prop :=
  t.audioIndex = s.audioIndex ∧
  t.audioDestinationPosition = s.audioDestinationPosition ∧
  t.audioServerWritten = s.audioServerWritten ∧
  t.numSamplesTotal = s.numSamplesTotal ∧
  t.audioResamplerFirstPassFactor = s.audioResamplerFirstPassFactor ∧
  t.audioClocksUntilNextEventCounter = s.audioClocksUntilNextEventCounter ∧
  t.sequencerClocks = s.sequencerClocks ∧
  t.audioClocksUntilNextEvent = s.audioClocksUntilNextEvent ∧
  t.channel1FrequencyCounter = s.channel1FrequencyCounter ∧
  t.channel2FrequencyCounter = s.channel2FrequencyCounter ∧
  t.channel3Counter = s.channel3Counter ∧
  t.channel4Counter = s.channel4Counter ∧
  t.channel2FrequencyTracker = s.channel2FrequencyTracker ∧
  t.channel3FrequencyPeriod = s.channel3FrequencyPeriod ∧
  t.channel4FrequencyPeriod = s.channel4FrequencyPeriod ∧
  (1 ≤ s.channel1FrequencyTracker → 1 ≤ t.channel1FrequencyTracker) ∧
  t.channel1decreaseSweep = s.channel1decreaseSweep ∧
  (s.channel1Swept = true → t.channel1Swept = true) ∧
  t.CPUStopped = s.CPUStopped

/-- `SeqUntouched` plus the fields only the sequencer writes: `memory`,
the length counters, the tracker-1 equality and the channel-1 sweep state.
This is what the mixer cache cascade preserves. -/
def CacheUntouched (s t : ApuState) : Prop :=
  SeqUntouched s t ∧
  t.memory = s.memory ∧
  t.channel1FrequencyTracker = s.channel1FrequencyTracker ∧
  t.channel1SweepFault = s.channel1SweepFault ∧
  t.channel1Swept = s.channel1Swept ∧
  t.channel1totalLength = s.channel1totalLength ∧
  t.channel2totalLength = s.channel2totalLength ∧
  t.channel3totalLength = s.channel3totalLength ∧
  t.channel4totalLength = s.channel4totalLength ∧
  t.soundMasterEnabled = s.soundMasterEnabled

theorem SeqUntouched.idx {s t : ApuState} (h : SeqUntouched s t) :
    t.audioIndex = s.audioIndex :=
  h.1

theorem SeqUntouched.pos {s t : ApuState} (h : SeqUntouched s t) :
    t.audioDestinationPosition = s.audioDestinationPosition :=
  h.2.1

theorem SeqUntouched.wr {s t : ApuState} (h : SeqUntouched s t) :
    t.audioServerWritten = s.audioServerWritten :=
  h.2.2.1

theorem SeqUntouched.tot {s t : ApuState} (h : SeqUntouched s t) :
    t.numSamplesTotal = s.numSamplesTotal :=
  h.2.2.2.1

theorem SeqUntouched.fac {s t : ApuState} (h : SeqUntouched s t) :
    t.audioResamplerFirstPassFactor = s.audioResamplerFirstPassFactor :=
  h.2.2.2.2.1

theorem SeqUntouched.ec {s t : ApuState} (h : SeqUntouched s t) :
    t.audioClocksUntilNextEventCounter = s.audioClocksUntilNextEventCounter :=
  h.2.2.2.2.2.1

theorem SeqUntouched.sc {s t : ApuState} (h : SeqUntouched s t) :
    t.sequencerClocks = s.sequencerClocks :=
  h.2.2.2.2.2.2.1

theorem SeqUntouched.ev {s t : ApuState} (h : SeqUntouched s t) :
    t.audioClocksUntilNextEvent = s.audioClocksUntilNextEvent :=
  h.2.2.2.2.2.2.2.1

theorem SeqUntouched.c1 {s t : ApuState} (h : SeqUntouched s t) :
    t.channel1FrequencyCounter = s.channel1FrequencyCounter :=
  h.2.2.2.2.2.2.2.2.1

theorem SeqUntouched.c2 {s t : ApuState} (h : SeqUntouched s t) :
    t.channel2FrequencyCounter = s.channel2FrequencyCounter :=
  h.2.2.2.2.2.2.2.2.2.1

theorem SeqUntouched.c3 {s t : ApuState} (h : SeqUntouched s t) :
    t.channel3Counter = s.channel3Counter :=
  h.2.2.2.2.2.2.2.2.2.2.1

theorem SeqUntouched.c4 {s t : ApuState} (h : SeqUntouched s t) :
    t.channel4Counter = s.channel4Counter :=
  h.2.2.2.2.2.2.2.2.2.2.2.1

theorem SeqUntouched.t2 {s t : ApuState} (h : SeqUntouched s t) :
    t.channel2FrequencyTracker = s.channel2FrequencyTracker :=
  h.2.2.2.2.2.2.2.2.2.2.2.2.1

theorem SeqUntouched.p3 {s t : ApuState} (h : SeqUntouched s t) :
    t.channel3FrequencyPeriod = s.channel3FrequencyPeriod :=
  h.2.2.2.2.2.2.2.2.2.2.2.2.2.1

theorem SeqUntouched.p4 {s t : ApuState} (h : SeqUntouched s t) :
    t.channel4FrequencyPeriod = s.channel4FrequencyPeriod :=
  h.2.2.2.2.2.2.2.2.2.2.2.2.2.2.1

theorem SeqUntouched.t1pos {s t : ApuState} (h : SeqUntouched s t) :
    1 ≤ s.channel1FrequencyTracker → 1 ≤ t.channel1FrequencyTracker :=
  h.2.2.2.2.2.2.2.2.2.2.2.2.2.2.2.1

theorem SeqUntouched.dsw {s t : ApuState} (h : SeqUntouched s t) :
    t.channel1decreaseSweep = s.channel1decreaseSweep :=
  h.2.2.2.2.2.2.2.2.2.2.2.2.2.2.2.2.1

theorem SeqUntouched.swm {s t : ApuState} (h : SeqUntouched s t) :
    s.channel1Swept = true → t.channel1Swept = true :=
  h.2.2.2.2.2.2.2.2.2.2.2.2.2.2.2.2.2.1

theorem SeqUntouched.stop {s t : ApuState} (h : SeqUntouched s t) :
    t.CPUStopped = s.CPUStopped :=
  h.2.2.2.2.2.2.2.2.2.2.2.2.2.2.2.2.2.2

theorem CacheUntouched.seq {s t : ApuState} (h : CacheUntouched s t) : SeqUntouched s t :=
  h.1

theorem CacheUntouched.mem {s t : ApuState} (h : CacheUntouched s t) :
    t.memory = s.memory :=
  h.2.1

theorem CacheUntouched.ct1 {s t : ApuState} (h : CacheUntouched s t) :
    t.channel1FrequencyTracker = s.channel1FrequencyTracker :=
  h.2.2.1

theorem CacheUntouched.fault {s t : ApuState} (h : CacheUntouched s t) :
    t.channel1SweepFault = s.channel1SweepFault :=
  h.2.2.2.1

theorem CacheUntouched.swept {s t : ApuState} (h : CacheUntouched s t) :
    t.channel1Swept = s.channel1Swept :=
  h.2.2.2.2.1

theorem CacheUntouched.len1 {s t : ApuState} (h : CacheUntouched s t) :
    t.channel1totalLength = s.channel1totalLength :=
  h.2.2.2.2.2.1

theorem CacheUntouched.len2 {s t : ApuState} (h : CacheUntouched s t) :
    t.channel2totalLength = s.channel2totalLength :=
  h.2.2.2.2.2.2.1

theorem CacheUntouched.len3 {s t : ApuState} (h : CacheUntouched s t) :
    t.channel3totalLength = s.channel3totalLength :=
  h.2.2.2.2.2.2.2.1

theorem CacheUntouched.len4 {s t : ApuState} (h : CacheUntouched s t) :
    t.channel4totalLength = s.channel4totalLength :=
  h.2.2.2.2.2.2.2.2.1

theorem CacheUntouched.master {s t : ApuState} (h : CacheUntouched s t) :
    t.soundMasterEnabled = s.soundMasterEnabled :=
  h.2.2.2.2.2.2.2.2.2

theorem SeqUntouched.refl (s : ApuState) : SeqUntouched s s :=
  ⟨rfl, rfl, rfl, rfl, rfl, rfl, rfl, rfl, rfl, rfl, rfl, rfl, rfl, rfl, rfl, fun h => h, rfl, fun h => h, rfl⟩

theorem SeqUntouched.trans {s t u : ApuState} (h1 : SeqUntouched s t)
    (h2 : SeqUntouched t u) : SeqUntouched s u :=
  ⟨(h2.idx).trans (h1.idx), (h2.pos).trans (h1.pos), (h2.wr).trans (h1.wr), (h2.tot).trans (h1.tot), (h2.fac).trans (h1.fac), (h2.ec).trans (h1.ec), (h2.sc).trans (h1.sc), (h2.ev).trans (h1.ev), (h2.c1).trans (h1.c1), (h2.c2).trans (h1.c2), (h2.c3).trans (h1.c3), (h2.c4).trans (h1.c4), (h2.t2).trans (h1.t2), (h2.p3).trans (h1.p3), (h2.p4).trans (h1.p4), fun h => (h2.t1pos) ((h1.t1pos) h), (h2.dsw).trans (h1.dsw), fun h => (h2.swm) ((h1.swm) h), (h2.stop).trans (h1.stop)⟩

theorem CacheUntouched.crefl (s : ApuState) : CacheUntouched s s :=
  ⟨SeqUntouched.refl s, rfl, rfl, rfl, rfl, rfl, rfl, rfl, rfl, rfl⟩

theorem CacheUntouched.ctrans {s t u : ApuState} (h1 : CacheUntouched s t)
    (h2 : CacheUntouched t u) : CacheUntouched s u :=
  ⟨(h1.seq).trans (h2.seq), (h2.mem).trans (h1.mem), (h2.ct1).trans (h1.ct1), (h2.fault).trans (h1.fault), (h2.swept).trans (h1.swept), (h2.len1).trans (h1.len1), (h2.len2).trans (h1.len2), (h2.len3).trans (h1.len3), (h2.len4).trans (h1.len4), (h2.master).trans (h1.master)⟩

theorem cacheUntouched_mixerOutputLevelCache (s : ApuState) :
    CacheUntouched s (mixerOutputLevelCache s) :=
  CacheUntouched.crefl s

theorem cacheUntouched_channel1OutputLevelTrimaryCache (s : ApuState) :
    CacheUntouched s (channel1OutputLevelTrimaryCache s) := by
  unfold channel1OutputLevelTrimaryCache
  split <;> exact (CacheUntouched.crefl s).ctrans (cacheUntouched_mixerOutputLevelCache _)

theorem cacheUntouched_channel1OutputLevelSecondaryCache (s : ApuState) :
    CacheUntouched s (channel1OutputLevelSecondaryCache s) := by
  unfold channel1OutputLevelSecondaryCache
  split <;>
    exact (CacheUntouched.crefl s).ctrans (cacheUntouched_channel1OutputLevelTrimaryCache _)

theorem cacheUntouched_channel1OutputLevelCache (s : ApuState) :
    CacheUntouched s (channel1OutputLevelCache s) :=
  (CacheUntouched.crefl s).ctrans (cacheUntouched_channel1OutputLevelSecondaryCache _)

theorem cacheUntouched_channel1EnableCheck (s : ApuState) :
    CacheUntouched s (channel1EnableCheck s) :=
  (CacheUntouched.crefl s).ctrans (cacheUntouched_channel1OutputLevelSecondaryCache _)

theorem cacheUntouched_channel1VolumeEnableCheck (s : ApuState) :
    CacheUntouched s (channel1VolumeEnableCheck s) := by
  unfold channel1VolumeEnableCheck
  apply CacheUntouched.ctrans _ (cacheUntouched_channel1OutputLevelSecondaryCache _)
  apply CacheUntouched.ctrans _ (cacheUntouched_channel1EnableCheck _)
  exact CacheUntouched.crefl s

theorem cacheUntouched_channel2OutputLevelTrimaryCache (s : ApuState) :
    CacheUntouched s (channel2OutputLevelTrimaryCache s) := by
  unfold channel2OutputLevelTrimaryCache
  split <;> exact (CacheUntouched.crefl s).ctrans (cacheUntouched_mixerOutputLevelCache _)

theorem cacheUntouched_channel2OutputLevelSecondaryCache (s : ApuState) :
    CacheUntouched s (channel2OutputLevelSecondaryCache s) := by
  unfold channel2OutputLevelSecondaryCache
  split <;>
    exact (CacheUntouched.crefl s).ctrans (cacheUntouched_channel2OutputLevelTrimaryCache _)

theorem cacheUntouched_channel2OutputLevelCache (s : ApuState) :
    CacheUntouched s (channel2OutputLevelCache s) :=
  (CacheUntouched.crefl s).ctrans (cacheUntouched_channel2OutputLevelSecondaryCache _)

theorem cacheUntouched_channel2EnableCheck (s : ApuState) :
    CacheUntouched s (channel2EnableCheck s) :=
  (CacheUntouched.crefl s).ctrans (cacheUntouched_channel2OutputLevelSecondaryCache _)

theorem cacheUntouched_channel2VolumeEnableCheck (s : ApuState) :
    CacheUntouched s (channel2VolumeEnableCheck s) := by
  unfold channel2VolumeEnableCheck
  apply CacheUntouched.ctrans _ (cacheUntouched_channel2OutputLevelSecondaryCache _)
  apply CacheUntouched.ctrans _ (cacheUntouched_channel2EnableCheck _)
  exact CacheUntouched.crefl s

theorem cacheUntouched_channel3OutputLevelSecondaryCache (s : ApuState) :
    CacheUntouched s (channel3OutputLevelSecondaryCache s) := by
  unfold channel3OutputLevelSecondaryCache
  split <;> exact (CacheUntouched.crefl s).ctrans (cacheUntouched_mixerOutputLevelCache _)

theorem cacheUntouched_channel3OutputLevelCache (s : ApuState) :
    CacheUntouched s (channel3OutputLevelCache s) :=
  (CacheUntouched.crefl s).ctrans (cacheUntouched_channel3OutputLevelSecondaryCache _)

theorem cacheUntouched_channel3EnableCheck (s : ApuState) :
    CacheUntouched s (channel3EnableCheck s) :=
  (CacheUntouched.crefl s).ctrans (cacheUntouched_channel3OutputLevelSecondaryCache _)

theorem cacheUntouched_channel3UpdateCache (s : ApuState) :
    CacheUntouched s (channel3UpdateCache s) :=
  (CacheUntouched.crefl s).ctrans (cacheUntouched_channel3OutputLevelCache _)

theorem cacheUntouched_channel4OutputLevelSecondaryCache (s : ApuState) :
    CacheUntouched s (channel4OutputLevelSecondaryCache s) := by
  unfold channel4OutputLevelSecondaryCache
  split <;> exact (CacheUntouched.crefl s).ctrans (cacheUntouched_mixerOutputLevelCache _)

theorem cacheUntouched_channel4OutputLevelCache (s : ApuState) :
    CacheUntouched s (channel4OutputLevelCache s) :=
  (CacheUntouched.crefl s).ctrans (cacheUntouched_channel4OutputLevelSecondaryCache _)

theorem cacheUntouched_channel4EnableCheck (s : ApuState) :
    CacheUntouched s (channel4EnableCheck s) :=
  (CacheUntouched.crefl s).ctrans (cacheUntouched_channel4OutputLevelSecondaryCache _)

theorem cacheUntouched_channel4VolumeEnableCheck (s : ApuState) :
    CacheUntouched s (channel4VolumeEnableCheck s) := by
  unfold channel4VolumeEnableCheck
  apply CacheUntouched.ctrans _ (cacheUntouched_channel4OutputLevelSecondaryCache _)
  apply CacheUntouched.ctrans _ (cacheUntouched_channel4EnableCheck _)
  exact CacheUntouched.crefl s

theorem cacheUntouched_channel4UpdateCache (s : ApuState) :
    CacheUntouched s (channel4UpdateCache s) :=
  (CacheUntouched.crefl s).ctrans (cacheUntouched_channel4OutputLevelCache _)

/-! ## Theorems for claims C2, C3, C4, C9, C10 -/

/-- The channel-1 frequency tracker value committed by `runAudioSweep`,
`(0x800 - f) << 2` with `f ≤ 0x7ff`, is positive. -/
theorem oneLeTracker (f : Nat) (hf : f ≤ 0x7ff) :
    (1 : Int) ≤ (((0x800 - f) <<< 2 : Nat) : Int) := by
  have h2 : (1 : Nat) ≤ (0x800 - f) <<< 2 := by
    calc (1 : Nat) ≤ 0x800 - f := by omega
      _ ≤ (0x800 - f) * 4 := Nat.le_mul_of_pos_right _ (by norm_num)
      _ = (0x800 - f) <<< 2 := by rw [Nat.shiftLeft_eq]
  exact_mod_cast h2

/-- A `memory` overwrite preserves every sequencer-view field. -/
theorem SeqUntouched.memUpd {s t : ApuState} (v : Nat → Nat) (h : SeqUntouched s t) :
    SeqUntouched s { t with memory := v } :=
  ⟨h.idx, h.pos, h.wr, h.tot, h.fac, h.ec, h.sc, h.ev, h.c1, h.c2, h.c3, h.c4, h.t2, h.p3, h.p4, h.t1pos, h.dsw, h.swm, h.stop⟩

/-- A `channel1timeSweep` overwrite preserves every sequencer-view field. -/
theorem SeqUntouched.tsUpd {s t : ApuState} (v : Nat) (h : SeqUntouched s t) :
    SeqUntouched s { t with channel1timeSweep := v } :=
  ⟨h.idx, h.pos, h.wr, h.tot, h.fac, h.ec, h.sc, h.ev, h.c1, h.c2, h.c3, h.c4, h.t2, h.p3, h.p4, h.t1pos, h.dsw, h.swm, h.stop⟩

/-- The channel-1 block of `clockAudioLength` only touches the length
counter, the enable caches and `memory[0xff26]`. -/
theorem seqUntouched_clockAudioLength1 (s : ApuState) :
    SeqUntouched s (clockAudioLength1 s) := by
  unfold clockAudioLength1 channel1EnableCheck channel1OutputLevelSecondaryCache
    channel1OutputLevelTrimaryCache mixerOutputLevelCache
  dsimp only
  repeat' split
  all_goals exact ⟨rfl, rfl, rfl, rfl, rfl, rfl, rfl, rfl, rfl, rfl, rfl, rfl, rfl, rfl, rfl, fun h => h, rfl, fun h => h, rfl⟩

/-- The channel-2 block of `clockAudioLength` preserves the sequencer-view
fields. -/
theorem seqUntouched_clockAudioLength2 (s : ApuState) :
    SeqUntouched s (clockAudioLength2 s) := by
  unfold clockAudioLength2 channel2EnableCheck channel2OutputLevelSecondaryCache
    channel2OutputLevelTrimaryCache mixerOutputLevelCache
  dsimp only
  repeat' split
  all_goals exact ⟨rfl, rfl, rfl, rfl, rfl, rfl, rfl, rfl, rfl, rfl, rfl, rfl, rfl, rfl, rfl, fun h => h, rfl, fun h => h, rfl⟩

/-- The channel-3 block of `clockAudioLength` preserves the sequencer-view
fields. -/
theorem seqUntouched_clockAudioLength3 (s : ApuState) :
    SeqUntouched s (clockAudioLength3 s) := by
  unfold clockAudioLength3 channel3EnableCheck channel3OutputLevelSecondaryCache
    mixerOutputLevelCache
  dsimp only
  repeat' split
  all_goals exact ⟨rfl, rfl, rfl, rfl, rfl, rfl, rfl, rfl, rfl, rfl, rfl, rfl, rfl, rfl, rfl, fun h => h, rfl, fun h => h, rfl⟩

/-- The channel-4 block of `clockAudioLength` preserves the sequencer-view
fields. -/
theorem seqUntouched_clockAudioLength4 (s : ApuState) :
    SeqUntouched s (clockAudioLength4 s) := by
  unfold clockAudioLength4 channel4EnableCheck channel4OutputLevelSecondaryCache
    mixerOutputLevelCache
  dsimp only
  repeat' split
  all_goals exact ⟨rfl, rfl, rfl, rfl, rfl, rfl, rfl, rfl, rfl, rfl, rfl, rfl, rfl, rfl, rfl, fun h => h, rfl, fun h => h, rfl⟩

/-- `clockAudioLength` preserves the sequencer-view fields. -/
theorem seqUntouched_clockAudioLength (s : ApuState) :
    SeqUntouched s (clockAudioLength s) :=
  SeqUntouched.trans (SeqUntouched.trans (SeqUntouched.trans
        (seqUntouched_clockAudioLength1 s)
        (seqUntouched_clockAudioLength2 _))
      (seqUntouched_clockAudioLength3 _))
    (seqUntouched_clockAudioLength4 _)

/-- `runAudioSweep` preserves the sequencer-view fields: whenever it
rewrites the channel-1 frequency tracker it writes `(0x800 - f) << 2` with
`f ≤ 0x7ff`, which is positive, and it only ever sets `channel1Swept`. -/
theorem seqUntouched_runAudioSweep (s : ApuState) :
    SeqUntouched s (runAudioSweep s) := by
  unfold runAudioSweep
  dsimp only
  repeat' split
  all_goals first
  | exact SeqUntouched.refl s
  | exact (SeqUntouched.refl s).trans ((cacheUntouched_channel1EnableCheck _).seq)
  | exact ⟨rfl, rfl, rfl, rfl, rfl, rfl, rfl, rfl, rfl, rfl, rfl, rfl, rfl, rfl, rfl, fun _ => oneLeTracker _ Nat.and_le_right, rfl, fun _ => rfl, rfl⟩
  | exact ⟨rfl, rfl, rfl, rfl, rfl, rfl, rfl, rfl, rfl, rfl, rfl, rfl, rfl, rfl, rfl, fun h => h, rfl, fun _ => rfl, rfl⟩
  | (refine SeqUntouched.tsUpd _ ?_
     exact ⟨rfl, rfl, rfl, rfl, rfl, rfl, rfl, rfl, rfl, rfl, rfl, rfl, rfl, rfl, rfl, fun _ => oneLeTracker _ (by assumption), rfl, fun _ => rfl, rfl⟩)
  | (refine SeqUntouched.tsUpd _ (SeqUntouched.memUpd _ (SeqUntouched.trans ?_
       ((cacheUntouched_channel1EnableCheck _).seq)))
     exact ⟨rfl, rfl, rfl, rfl, rfl, rfl, rfl, rfl, rfl, rfl, rfl, rfl, rfl, rfl, rfl, fun _ => oneLeTracker _ (by assumption), rfl, fun _ => rfl, rfl⟩)
  | (refine SeqUntouched.tsUpd _ (SeqUntouched.memUpd _ (SeqUntouched.trans ?_
       ((cacheUntouched_channel1EnableCheck _).seq)))
     exact ⟨rfl, rfl, rfl, rfl, rfl, rfl, rfl, rfl, rfl, rfl, rfl, rfl, rfl, rfl, rfl, fun h => h, rfl, fun _ => rfl, rfl⟩)

/-- `clockAudioSweep` preserves the sequencer-view fields. -/
theorem seqUntouched_clockAudioSweep (s : ApuState) :
    SeqUntouched s (clockAudioSweep s) := by
  unfold clockAudioSweep
  dsimp only
  split
  · split
    · refine SeqUntouched.trans ?_ (seqUntouched_runAudioSweep _)
      exact ⟨rfl, rfl, rfl, rfl, rfl, rfl, rfl, rfl, rfl, rfl, rfl, rfl, rfl, rfl, rfl, fun h => h, rfl, fun h => h, rfl⟩
    · exact ⟨rfl, rfl, rfl, rfl, rfl, rfl, rfl, rfl, rfl, rfl, rfl, rfl, rfl, rfl, rfl, fun h => h, rfl, fun h => h, rfl⟩
  · exact SeqUntouched.refl s

/-- The channel-1 block of `clockAudioEnvelope` preserves the
sequencer-view fields. -/
theorem seqUntouched_clockAudioEnvelope1 (s : ApuState) :
    SeqUntouched s (clockAudioEnvelope1 s) := by
  unfold clockAudioEnvelope1
  repeat' split
  all_goals first
  | exact SeqUntouched.refl s
  | exact (SeqUntouched.refl s).trans ((cacheUntouched_channel1OutputLevelCache _).seq)

/-- The channel-2 block of `clockAudioEnvelope` preserves the
sequencer-view fields. -/
theorem seqUntouched_clockAudioEnvelope2 (s : ApuState) :
    SeqUntouched s (clockAudioEnvelope2 s) := by
  unfold clockAudioEnvelope2
  repeat' split
  all_goals first
  | exact SeqUntouched.refl s
  | exact (SeqUntouched.refl s).trans ((cacheUntouched_channel2OutputLevelCache _).seq)

/-- The channel-4 block of `clockAudioEnvelope` preserves the
sequencer-view fields. -/
theorem seqUntouched_clockAudioEnvelope4 (s : ApuState) :
    SeqUntouched s (clockAudioEnvelope4 s) := by
  unfold clockAudioEnvelope4 channel4UpdateCache channel4OutputLevelCache
    channel4OutputLevelSecondaryCache mixerOutputLevelCache
  dsimp only
  repeat' split
  all_goals exact ⟨rfl, rfl, rfl, rfl, rfl, rfl, rfl, rfl, rfl, rfl, rfl, rfl, rfl, rfl, rfl, fun h => h, rfl, fun h => h, rfl⟩

/-- `clockAudioEnvelope` preserves the sequencer-view fields. -/
theorem seqUntouched_clockAudioEnvelope (s : ApuState) :
    SeqUntouched s (clockAudioEnvelope s) :=
  SeqUntouched.trans (SeqUntouched.trans (seqUntouched_clockAudioEnvelope1 s)
      (seqUntouched_clockAudioEnvelope2 _))
    (seqUntouched_clockAudioEnvelope4 _)

/-- Bumping the frame-sequencer position preserves the sequencer-view
fields. -/
theorem seqUntouched_bumpSeq (s : ApuState) :
    SeqUntouched s { s with sequencePosition := s.sequencePosition + 1 } :=
  ⟨rfl, rfl, rfl, rfl, rfl, rfl, rfl, rfl, rfl, rfl, rfl, rfl, rfl, rfl, rfl, fun h => h, rfl, fun h => h, rfl⟩

/-- One frame-sequencer step preserves the sequencer-view fields. -/
theorem seqUntouched_audioComputeSequencer (s : ApuState) :
    SeqUntouched s (audioComputeSequencer s) := by
  unfold audioComputeSequencer
  dsimp only
  repeat' split
  all_goals first
  | exact SeqUntouched.trans (SeqUntouched.trans (seqUntouched_bumpSeq s)
      (seqUntouched_clockAudioLength _)) (seqUntouched_clockAudioSweep _)
  | exact SeqUntouched.trans (seqUntouched_bumpSeq s) (seqUntouched_clockAudioLength _)
  | exact SeqUntouched.trans (SeqUntouched.trans (seqUntouched_bumpSeq s)
      (seqUntouched_clockAudioEnvelope _)) ⟨rfl, rfl, rfl, rfl, rfl, rfl, rfl, rfl, rfl, rfl, rfl, rfl, rfl, rfl, rfl, fun h => h, rfl, fun h => h, rfl⟩
  | exact seqUntouched_bumpSeq s

/-- `outputAudio` never touches the STOP flag. -/
theorem outputAudio_CPUStopped (s : ApuState) :
    (outputAudio s).CPUStopped = s.CPUStopped := by
  unfold outputAudio
  dsimp only
  split <;> rfl

/-- The silent resampler loop never touches the STOP flag. -/
theorem generateAudioSilent_CPUStopped (fuel : Nat) :
    ∀ s n, (generateAudioSilent fuel s n).CPUStopped = s.CPUStopped := by
  induction fuel with
  | zero => intro s n; rfl
  | succ f ih =>
    intro s n
    unfold generateAudioSilent
    dsimp only
    split
    · rfl
    · split
      · rfl
      · rw [ih]
        split
        · rw [outputAudio_CPUStopped]
        · rfl

/-- `audioUnderrunAdjustment` never touches the STOP flag. -/
theorem audioUnderrunAdjustment_CPUStopped (s : ApuState) (r : Option Int) :
    (audioUnderrunAdjustment s r).CPUStopped = s.CPUStopped := by
  unfold audioUnderrunAdjustment recalculateIterationClockLimitForAudio
  dsimp only
  repeat' split
  all_goals rfl

/-- While the CPU is stopped, `audioJIT` runs the silent path (or the fake
path, which bails out), leaving the STOP flag set. -/
theorem audioJIT_CPUStopped_of_stopped (s : ApuState) (h : s.CPUStopped = true) :
    (audioJIT s).CPUStopped = true := by
  unfold audioJIT generateAudio generateAudioFake
  dsimp only
  split <;>
    simp only [h, Bool.not_true, Bool.and_false, Bool.false_eq_true, if_false,
      generateAudioSilent_CPUStopped]

/-- The three facts about a state transition that the NR10 write logic
needs across `audioJIT`: the sweep direction is unchanged, `channel1Swept`
is only ever set, and the STOP flag is unchanged.  This holds for every
function in the audio-generation call tree. -/
def LoopFrame (s t : ApuState) : Prop :=
  t.channel1decreaseSweep = s.channel1decreaseSweep ∧
  (s.channel1Swept = true → t.channel1Swept = true) ∧
  t.CPUStopped = s.CPUStopped

theorem LoopFrame.ldsw {s t : ApuState} (h : LoopFrame s t) :
    t.channel1decreaseSweep = s.channel1decreaseSweep :=
  h.1

theorem LoopFrame.lswm {s t : ApuState} (h : LoopFrame s t) :
    s.channel1Swept = true → t.channel1Swept = true :=
  h.2.1

theorem LoopFrame.lstop {s t : ApuState} (h : LoopFrame s t) :
    t.CPUStopped = s.CPUStopped :=
  h.2.2

theorem LoopFrame.lrefl (s : ApuState) : LoopFrame s s :=
  ⟨rfl, fun h => h, rfl⟩

theorem LoopFrame.ltrans {s t u : ApuState} (h1 : LoopFrame s t) (h2 : LoopFrame t u) :
    LoopFrame s u :=
  ⟨(h2.ldsw).trans (h1.ldsw), fun h => h2.lswm (h1.lswm h), (h2.lstop).trans (h1.lstop)⟩

theorem LoopFrame.of_seq {s t : ApuState} (h : SeqUntouched s t) : LoopFrame s t :=
  ⟨h.dsw, h.swm, h.stop⟩

theorem LoopFrame.lof_cache {s t : ApuState} (h : CacheUntouched s t) : LoopFrame s t :=
  LoopFrame.of_seq h.seq

/-- A `sequencerClocks` overwrite preserves the loop frame. -/
theorem LoopFrame.scUpd {s t : ApuState} (v : Int) (h : LoopFrame s t) :
    LoopFrame s { t with sequencerClocks := v } :=
  ⟨h.ldsw, h.lswm, h.lstop⟩

/-- An `audioTicks` overwrite preserves the loop frame. -/
theorem LoopFrame.atUpd {s t : ApuState} (v : Nat) (h : LoopFrame s t) :
    LoopFrame s { t with audioTicks := v } :=
  ⟨h.ldsw, h.lswm, h.lstop⟩

/-- `outputAudio` preserves the loop frame. -/
theorem loopFrame_outputAudio (s : ApuState) : LoopFrame s (outputAudio s) := by
  unfold outputAudio
  dsimp only
  split <;> exact ⟨rfl, fun h => h, rfl⟩

/-- The counter-decrement block of `computeAudioChannels` preserves the
loop frame. -/
theorem loopFrame_computeAudioChannelsDec (s : ApuState) :
    LoopFrame s (computeAudioChannelsDec s) :=
  LoopFrame.lrefl s

/-- The channel-1 event block of `computeAudioChannels` preserves the loop
frame. -/
theorem loopFrame_computeAudioChannels1 (s : ApuState) :
    LoopFrame s (computeAudioChannels1 s) := by
  unfold computeAudioChannels1
  split
  · refine LoopFrame.ltrans ?_ (LoopFrame.lof_cache (cacheUntouched_channel1OutputLevelTrimaryCache _))
    exact LoopFrame.lrefl s
  · exact LoopFrame.lrefl s

/-- The channel-2 event block of `computeAudioChannels` preserves the loop
frame. -/
theorem loopFrame_computeAudioChannels2 (s : ApuState) :
    LoopFrame s (computeAudioChannels2 s) := by
  unfold computeAudioChannels2
  split
  · refine LoopFrame.ltrans ?_ (LoopFrame.lof_cache (cacheUntouched_channel2OutputLevelTrimaryCache _))
    exact LoopFrame.lrefl s
  · exact LoopFrame.lrefl s

/-- The channel-3 event block of `computeAudioChannels` preserves the loop
frame. -/
theorem loopFrame_computeAudioChannels3 (s : ApuState) :
    LoopFrame s (computeAudioChannels3 s) := by
  unfold computeAudioChannels3
  repeat' split
  all_goals first
  | exact LoopFrame.lrefl s
  | (refine LoopFrame.ltrans ?_ (LoopFrame.lof_cache (cacheUntouched_channel3UpdateCache _))
     exact LoopFrame.lrefl s)

/-- The channel-4 event block of `computeAudioChannels` preserves the loop
frame. -/
theorem loopFrame_computeAudioChannels4 (s : ApuState) :
    LoopFrame s (computeAudioChannels4 s) := by
  unfold computeAudioChannels4
  split
  · refine LoopFrame.ltrans ?_ (LoopFrame.lof_cache (cacheUntouched_channel4UpdateCache _))
    exact LoopFrame.lrefl s
  · exact LoopFrame.lrefl s

/-- The next-event block of `computeAudioChannels` preserves the loop
frame. -/
theorem loopFrame_computeAudioChannelsNext (s : ApuState) :
    LoopFrame s (computeAudioChannelsNext s) :=
  LoopFrame.lrefl s

/-- `computeAudioChannels` preserves the loop frame. -/
theorem loopFrame_computeAudioChannels (s : ApuState) :
    LoopFrame s (computeAudioChannels s) :=
  LoopFrame.ltrans (LoopFrame.ltrans (LoopFrame.ltrans (LoopFrame.ltrans (LoopFrame.ltrans
            (loopFrame_computeAudioChannelsDec s)
            (loopFrame_computeAudioChannels1 _))
          (loopFrame_computeAudioChannels2 _))
        (loopFrame_computeAudioChannels3 _))
      (loopFrame_computeAudioChannels4 _))
    (loopFrame_computeAudioChannelsNext _)

/-- The inner resampler loop preserves the loop frame. -/
theorem loopFrame_generateAudioInner (fuel : Nat) :
    ∀ s c, LoopFrame s (generateAudioInner fuel s c) := by
  induction fuel with
  | zero => intro s c; exact LoopFrame.lrefl s
  | succ f ih =>
    intro s c
    unfold generateAudioInner
    dsimp only
    split
    · exact LoopFrame.lrefl s
    · split
      · exact LoopFrame.lrefl s
      · refine LoopFrame.ltrans ?_ (ih _ _)
        split
        · refine LoopFrame.ltrans ?_ (loopFrame_outputAudio _)
          exact LoopFrame.lrefl s
        · exact LoopFrame.lrefl s

/-- The silent resampler loop preserves the loop frame. -/
theorem loopFrame_generateAudioSilent (fuel : Nat) :
    ∀ s n, LoopFrame s (generateAudioSilent fuel s n) := by
  induction fuel with
  | zero => intro s n; exact LoopFrame.lrefl s
  | succ f ih =>
    intro s n
    unfold generateAudioSilent
    dsimp only
    split
    · exact LoopFrame.lrefl s
    · split
      · exact LoopFrame.lrefl s
      · refine LoopFrame.ltrans ?_ (ih _ _)
        split
        · refine LoopFrame.ltrans ?_ (loopFrame_outputAudio _)
          exact LoopFrame.lrefl s
        · exact LoopFrame.lrefl s

/-- The audible outer loop preserves the loop frame. -/
theorem loopFrame_generateAudioGo (fuel : Nat) :
    ∀ s n, LoopFrame s (generateAudioGo fuel s n) := by
  induction fuel with
  | zero => intro s n; exact LoopFrame.lrefl s
  | succ f ih =>
    intro s n
    unfold generateAudioGo
    dsimp only
    split
    · exact LoopFrame.lrefl s
    · split
      · exact LoopFrame.lrefl s
      · refine LoopFrame.ltrans ?_ (ih _ _)
        repeat' split
        all_goals first
        | (refine LoopFrame.ltrans ?_ (loopFrame_computeAudioChannels _)
           refine LoopFrame.scUpd _ ?_
           refine LoopFrame.ltrans ?_ (LoopFrame.of_seq (seqUntouched_audioComputeSequencer _))
           refine LoopFrame.ltrans ?_ (loopFrame_generateAudioInner _ _ _)
           exact LoopFrame.lrefl s)
        | (refine LoopFrame.ltrans ?_ (loopFrame_computeAudioChannels _)
           refine LoopFrame.ltrans ?_ (loopFrame_generateAudioInner _ _ _)
           exact LoopFrame.lrefl s)
        | (refine LoopFrame.scUpd _ ?_
           refine LoopFrame.ltrans ?_ (LoopFrame.of_seq (seqUntouched_audioComputeSequencer _))
           refine LoopFrame.ltrans ?_ (loopFrame_generateAudioInner _ _ _)
           exact LoopFrame.lrefl s)
        | (refine LoopFrame.ltrans ?_ (loopFrame_generateAudioInner _ _ _)
           exact LoopFrame.lrefl s)

/-- The fake (sound-off) outer loop preserves the loop frame. -/
theorem loopFrame_generateAudioFakeGo (fuel : Nat) :
    ∀ s n, LoopFrame s (generateAudioFakeGo fuel s n) := by
  induction fuel with
  | zero => intro s n; exact LoopFrame.lrefl s
  | succ f ih =>
    intro s n
    unfold generateAudioFakeGo
    dsimp only
    split
    · exact LoopFrame.lrefl s
    · split
      · exact LoopFrame.lrefl s
      · refine LoopFrame.ltrans ?_ (ih _ _)
        repeat' split
        all_goals first
        | (refine LoopFrame.ltrans ?_ (loopFrame_computeAudioChannels _)
           refine LoopFrame.scUpd _ ?_
           refine LoopFrame.ltrans ?_ (LoopFrame.of_seq (seqUntouched_audioComputeSequencer _))
           exact LoopFrame.lrefl s)
        | (refine LoopFrame.ltrans ?_ (loopFrame_computeAudioChannels _)
           exact LoopFrame.lrefl s)
        | (refine LoopFrame.scUpd _ ?_
           refine LoopFrame.ltrans ?_ (LoopFrame.of_seq (seqUntouched_audioComputeSequencer _))
           exact LoopFrame.lrefl s)
        | exact LoopFrame.lrefl s

/-- `generateAudio` preserves the loop frame. -/
theorem loopFrame_generateAudio (s : ApuState) (n : Nat) :
    LoopFrame s (generateAudio s n) := by
  unfold generateAudio
  split
  · exact loopFrame_generateAudioGo _ _ _
  · exact loopFrame_generateAudioSilent _ _ _

/-- `generateAudioFake` preserves the loop frame. -/
theorem loopFrame_generateAudioFake (s : ApuState) (n : Nat) :
    LoopFrame s (generateAudioFake s n) := by
  unfold generateAudioFake
  split
  · exact loopFrame_generateAudioFakeGo _ _ _
  · exact LoopFrame.lrefl s

/-- `audioJIT` preserves the loop frame: the pending-clock flush never
changes the sweep direction, never clears `channel1Swept` and never
touches the STOP flag. -/
theorem loopFrame_audioJIT (s : ApuState) : LoopFrame s (audioJIT s) := by
  unfold audioJIT
  dsimp only
  refine LoopFrame.atUpd _ ?_
  split
  · exact loopFrame_generateAudio _ _
  · exact loopFrame_generateAudioFake _ _

/-- The secondary output cache leaves `channel1Enabled` unchanged. -/
theorem secondary1_Enabled (s : ApuState) :
    (channel1OutputLevelSecondaryCache s).channel1Enabled = s.channel1Enabled := by
  unfold channel1OutputLevelSecondaryCache channel1OutputLevelTrimaryCache mixerOutputLevelCache
  repeat' split
  all_goals rfl

/-- The fields preserved by the inner resampler loop and by `outputAudio`:
the resampler factor, the event and sequencer counters, the channel
counters and periods, and the host buffer size. -/
def InnerFrame (s t : ApuState) : Prop :=
  t.audioResamplerFirstPassFactor = s.audioResamplerFirstPassFactor ∧
  t.audioClocksUntilNextEventCounter = s.audioClocksUntilNextEventCounter ∧
  t.sequencerClocks = s.sequencerClocks ∧
  t.audioClocksUntilNextEvent = s.audioClocksUntilNextEvent ∧
  t.channel1FrequencyCounter = s.channel1FrequencyCounter ∧
  t.channel2FrequencyCounter = s.channel2FrequencyCounter ∧
  t.channel3Counter = s.channel3Counter ∧
  t.channel4Counter = s.channel4Counter ∧
  t.channel1FrequencyTracker = s.channel1FrequencyTracker ∧
  t.channel2FrequencyTracker = s.channel2FrequencyTracker ∧
  t.channel3FrequencyPeriod = s.channel3FrequencyPeriod ∧
  t.channel4FrequencyPeriod = s.channel4FrequencyPeriod ∧
  t.numSamplesTotal = s.numSamplesTotal

theorem InnerFrame.ifac {s t : ApuState} (h : InnerFrame s t) :
    t.audioResamplerFirstPassFactor = s.audioResamplerFirstPassFactor := h.1

theorem InnerFrame.iec {s t : ApuState} (h : InnerFrame s t) :
    t.audioClocksUntilNextEventCounter = s.audioClocksUntilNextEventCounter := h.2.1

theorem InnerFrame.isc {s t : ApuState} (h : InnerFrame s t) :
    t.sequencerClocks = s.sequencerClocks := h.2.2.1

theorem InnerFrame.iev {s t : ApuState} (h : InnerFrame s t) :
    t.audioClocksUntilNextEvent = s.audioClocksUntilNextEvent := h.2.2.2.1

theorem InnerFrame.ic1 {s t : ApuState} (h : InnerFrame s t) :
    t.channel1FrequencyCounter = s.channel1FrequencyCounter := h.2.2.2.2.1

theorem InnerFrame.ic2 {s t : ApuState} (h : InnerFrame s t) :
    t.channel2FrequencyCounter = s.channel2FrequencyCounter := h.2.2.2.2.2.1

theorem InnerFrame.ic3 {s t : ApuState} (h : InnerFrame s t) :
    t.channel3Counter = s.channel3Counter := h.2.2.2.2.2.2.1

theorem InnerFrame.ic4 {s t : ApuState} (h : InnerFrame s t) :
    t.channel4Counter = s.channel4Counter := h.2.2.2.2.2.2.2.1

theorem InnerFrame.it1 {s t : ApuState} (h : InnerFrame s t) :
    t.channel1FrequencyTracker = s.channel1FrequencyTracker := h.2.2.2.2.2.2.2.2.1

theorem InnerFrame.it2 {s t : ApuState} (h : InnerFrame s t) :
    t.channel2FrequencyTracker = s.channel2FrequencyTracker := h.2.2.2.2.2.2.2.2.2.1

theorem InnerFrame.ip3 {s t : ApuState} (h : InnerFrame s t) :
    t.channel3FrequencyPeriod = s.channel3FrequencyPeriod := h.2.2.2.2.2.2.2.2.2.2.1

theorem InnerFrame.ip4 {s t : ApuState} (h : InnerFrame s t) :
    t.channel4FrequencyPeriod = s.channel4FrequencyPeriod := h.2.2.2.2.2.2.2.2.2.2.2.1

theorem InnerFrame.itot {s t : ApuState} (h : InnerFrame s t) :
    t.numSamplesTotal = s.numSamplesTotal := h.2.2.2.2.2.2.2.2.2.2.2.2

theorem InnerFrame.irefl (s : ApuState) : InnerFrame s s :=
  ⟨rfl, rfl, rfl, rfl, rfl, rfl, rfl, rfl, rfl, rfl, rfl, rfl, rfl⟩

theorem InnerFrame.itrans {s t u : ApuState} (h1 : InnerFrame s t) (h2 : InnerFrame t u) :
    InnerFrame s u :=
  ⟨(h2.ifac).trans (h1.ifac), (h2.iec).trans (h1.iec), (h2.isc).trans (h1.isc),
   (h2.iev).trans (h1.iev), (h2.ic1).trans (h1.ic1), (h2.ic2).trans (h1.ic2),
   (h2.ic3).trans (h1.ic3), (h2.ic4).trans (h1.ic4), (h2.it1).trans (h1.it1),
   (h2.it2).trans (h1.it2), (h2.ip3).trans (h1.ip3), (h2.ip4).trans (h1.ip4),
   (h2.itot).trans (h1.itot)⟩

/-- `outputAudio` preserves the inner-loop frame. -/
theorem innerFrame_outputAudio (s : ApuState) : InnerFrame s (outputAudio s) := by
  unfold outputAudio
  dsimp only
  split <;> exact InnerFrame.irefl s

/-- `outputAudio` does not move the resampler index. -/
theorem outputAudio_idx (s : ApuState) :
    (outputAudio s).audioIndex = s.audioIndex := by
  unfold outputAudio
  dsimp only
  split <;> rfl

/-- `outputAudio` hands exactly one stereo pair (two buffer slots) towards
the host: whether or not the buffer wraps, the emitted-samples count grows
by 2. -/
theorem outputAudio_emitted (s : ApuState) :
    emittedSamples (outputAudio s) = emittedSamples s + 2 := by
  unfold outputAudio emittedSamples
  dsimp only
  split
  case isTrue h =>
    rw [← h]
    ring
  case isFalse h =>
    ring

/-- Division accumulates across a split at a remainder:
`a / f + (a % f + b) / f = (a + b) / f`. -/
theorem divAccum (f a b : Nat) (hf : 0 < f) :
    a / f + (a % f + b) / f = (a + b) / f := by
  conv_rhs => rw [← Nat.div_add_mod a f, Nat.add_assoc]
  rw [Nat.mul_add_div hf]

/-- One-step unfolding of the inner resampler loop with the two branch
states written as small record updates of `s`. -/
theorem generateAudioInner_succ (f : Nat) (s : ApuState) (c : Nat) (hc : ¬ c = 0)
    (hmz : ¬ min c (s.audioResamplerFirstPassFactor - s.audioIndex) = 0) :
    generateAudioInner (f + 1) s c =
      (if s.audioIndex + min c (s.audioResamplerFirstPassFactor - s.audioIndex) =
          s.audioResamplerFirstPassFactor then
        generateAudioInner f
          (outputAudio { s with
            audioIndex := 0,
            downsampleInput := s.downsampleInput + s.mixerOutputCache *
              ((min c (s.audioResamplerFirstPassFactor - s.audioIndex) : Nat) : Int) })
          (c - min c (s.audioResamplerFirstPassFactor - s.audioIndex))
      else
        generateAudioInner f
          { s with
            audioIndex := s.audioIndex + min c (s.audioResamplerFirstPassFactor - s.audioIndex),
            downsampleInput := s.downsampleInput + s.mixerOutputCache *
              ((min c (s.audioResamplerFirstPassFactor - s.audioIndex) : Nat) : Int) }
          (c - min c (s.audioResamplerFirstPassFactor - s.audioIndex))) := by
  conv_lhs => rw [generateAudioInner]
  rw [if_neg hc, if_neg hmz]
  dsimp only
  by_cases hfl : s.audioIndex + min c (s.audioResamplerFirstPassFactor - s.audioIndex) =
      s.audioResamplerFirstPassFactor
  · rw [if_pos hfl, if_pos hfl]
  · rw [if_neg hfl, if_neg hfl]

/-- The inner resampler loop of `generateAudio`, on `c ≤ fuel` clocks from
an in-range index, emits exactly `(audioIndex + c) / factor` stereo pairs,
leaves the index at `(audioIndex + c) % factor` and preserves the frame. -/
theorem generateAudioInner_spec (fuel : Nat) :
    ∀ s c, c ≤ fuel → 0 < s.audioResamplerFirstPassFactor →
      s.audioIndex < s.audioResamplerFirstPassFactor →
      emittedSamples (generateAudioInner fuel s c) =
        emittedSamples s + 2 * ((s.audioIndex + c) / s.audioResamplerFirstPassFactor) ∧
      (generateAudioInner fuel s c).audioIndex =
        (s.audioIndex + c) % s.audioResamplerFirstPassFactor ∧
      InnerFrame s (generateAudioInner fuel s c) := by
  induction fuel with
  | zero =>
    intro s c hc hf hidx
    have hc0 : c = 0 := by omega
    subst hc0
    refine ⟨?_, ?_, InnerFrame.irefl s⟩
    · rw [Nat.add_zero, Nat.div_eq_of_lt hidx]
      rfl
    · rw [Nat.add_zero, Nat.mod_eq_of_lt hidx]
      rfl
  | succ f ih =>
    intro s c hc hf hidx
    by_cases hc0 : c = 0
    · subst hc0
      rw [show generateAudioInner (f + 1) s 0 = s from rfl]
      refine ⟨?_, ?_, InnerFrame.irefl s⟩
      · rw [Nat.add_zero, Nat.div_eq_of_lt hidx]
        rfl
      · rw [Nat.add_zero, Nat.mod_eq_of_lt hidx]
    · have hm1 : 1 ≤ min c (s.audioResamplerFirstPassFactor - s.audioIndex) := by omega
      have hmc : min c (s.audioResamplerFirstPassFactor - s.audioIndex) ≤ c :=
        Nat.min_le_left _ _
      rw [generateAudioInner_succ f s c hc0 (by omega)]
      by_cases hflush :
          s.audioIndex + min c (s.audioResamplerFirstPassFactor - s.audioIndex) =
            s.audioResamplerFirstPassFactor
      · rw [if_pos hflush]
        obtain ⟨ihe, ihi, ihF⟩ := ih
          (outputAudio { s with
            audioIndex := 0,
            downsampleInput := s.downsampleInput + s.mixerOutputCache *
              ((min c (s.audioResamplerFirstPassFactor - s.audioIndex) : Nat) : Int) })
          (c - min c (s.audioResamplerFirstPassFactor - s.audioIndex))
          (by omega)
          (by rw [(innerFrame_outputAudio _).ifac]; exact hf)
          (by rw [outputAudio_idx, (innerFrame_outputAudio _).ifac]; exact hf)
        have hsplit : s.audioIndex + c =
            (c - min c (s.audioResamplerFirstPassFactor - s.audioIndex)) +
              s.audioResamplerFirstPassFactor := by omega
        refine ⟨?_, ?_, ?_⟩
        · rw [ihe, outputAudio_emitted, outputAudio_idx, (innerFrame_outputAudio _).ifac]
          unfold emittedSamples
          dsimp only
          rw [hsplit, Nat.add_div_right _ hf, Nat.zero_add]
          ring
        · rw [ihi, outputAudio_idx, (innerFrame_outputAudio _).ifac]
          dsimp only
          rw [hsplit, Nat.add_mod_right, Nat.zero_add]
        · refine InnerFrame.itrans ?_ ihF
          refine InnerFrame.itrans ?_ (innerFrame_outputAudio _)
          exact InnerFrame.irefl s
      · rw [if_neg hflush]
        have hmeq : min c (s.audioResamplerFirstPassFactor - s.audioIndex) = c := by omega
        obtain ⟨ihe, ihi, ihF⟩ := ih
          { s with
            audioIndex := s.audioIndex + min c (s.audioResamplerFirstPassFactor - s.audioIndex),
            downsampleInput := s.downsampleInput + s.mixerOutputCache *
              ((min c (s.audioResamplerFirstPassFactor - s.audioIndex) : Nat) : Int) }
          (c - min c (s.audioResamplerFirstPassFactor - s.audioIndex))
          (by omega) hf (by dsimp only; omega)
        refine ⟨?_, ?_, ?_⟩
        · rw [ihe]
          unfold emittedSamples
          dsimp only
          rw [hmeq, Nat.sub_self, Nat.add_zero]
        · rw [ihi]
          dsimp only
          rw [hmeq, Nat.sub_self, Nat.add_zero]
        · refine InnerFrame.itrans ?_ ihF
          exact InnerFrame.irefl s

/-- The fields preserved by every block of `computeAudioChannels`: the
output stage, the resampler, the sequencer countdown and the channel
reload values. -/
def CompFrame (s t : ApuState) : Prop :=
  t.audioIndex = s.audioIndex ∧
  t.audioDestinationPosition = s.audioDestinationPosition ∧
  t.audioServerWritten = s.audioServerWritten ∧
  t.numSamplesTotal = s.numSamplesTotal ∧
  t.audioResamplerFirstPassFactor = s.audioResamplerFirstPassFactor ∧
  t.sequencerClocks = s.sequencerClocks ∧
  t.channel1FrequencyTracker = s.channel1FrequencyTracker ∧
  t.channel2FrequencyTracker = s.channel2FrequencyTracker ∧
  t.channel3FrequencyPeriod = s.channel3FrequencyPeriod ∧
  t.channel4FrequencyPeriod = s.channel4FrequencyPeriod

theorem CompFrame.kidx {s t : ApuState} (h : CompFrame s t) :
    t.audioIndex = s.audioIndex := h.1

theorem CompFrame.kpos {s t : ApuState} (h : CompFrame s t) :
    t.audioDestinationPosition = s.audioDestinationPosition := h.2.1

theorem CompFrame.kwr {s t : ApuState} (h : CompFrame s t) :
    t.audioServerWritten = s.audioServerWritten := h.2.2.1

theorem CompFrame.ktot {s t : ApuState} (h : CompFrame s t) :
    t.numSamplesTotal = s.numSamplesTotal := h.2.2.2.1

theorem CompFrame.kfac {s t : ApuState} (h : CompFrame s t) :
    t.audioResamplerFirstPassFactor = s.audioResamplerFirstPassFactor := h.2.2.2.2.1

theorem CompFrame.ksc {s t : ApuState} (h : CompFrame s t) :
    t.sequencerClocks = s.sequencerClocks := h.2.2.2.2.2.1

theorem CompFrame.kt1 {s t : ApuState} (h : CompFrame s t) :
    t.channel1FrequencyTracker = s.channel1FrequencyTracker := h.2.2.2.2.2.2.1

theorem CompFrame.kt2 {s t : ApuState} (h : CompFrame s t) :
    t.channel2FrequencyTracker = s.channel2FrequencyTracker := h.2.2.2.2.2.2.2.1

theorem CompFrame.kp3 {s t : ApuState} (h : CompFrame s t) :
    t.channel3FrequencyPeriod = s.channel3FrequencyPeriod := h.2.2.2.2.2.2.2.2.1

theorem CompFrame.kp4 {s t : ApuState} (h : CompFrame s t) :
    t.channel4FrequencyPeriod = s.channel4FrequencyPeriod := h.2.2.2.2.2.2.2.2.2

theorem CompFrame.krefl (s : ApuState) : CompFrame s s :=
  ⟨rfl, rfl, rfl, rfl, rfl, rfl, rfl, rfl, rfl, rfl⟩

theorem CompFrame.ktrans {s t u : ApuState} (h1 : CompFrame s t) (h2 : CompFrame t u) :
    CompFrame s u :=
  ⟨(h2.kidx).trans (h1.kidx), (h2.kpos).trans (h1.kpos), (h2.kwr).trans (h1.kwr), (h2.ktot).trans (h1.ktot), (h2.kfac).trans (h1.kfac), (h2.ksc).trans (h1.ksc), (h2.kt1).trans (h1.kt1), (h2.kt2).trans (h1.kt2), (h2.kp3).trans (h1.kp3), (h2.kp4).trans (h1.kp4)⟩

theorem CompFrame.kof_cache {s t : ApuState} (h : CacheUntouched s t) : CompFrame s t :=
  ⟨h.seq.idx, h.seq.pos, h.seq.wr, h.seq.tot, h.seq.fac, h.seq.sc, h.ct1, h.seq.t2,
   h.seq.p3, h.seq.p4⟩

/-- The decrement block of `computeAudioChannels`: every counter drops by
the previous event interval; everything else is untouched. -/
theorem computeAudioChannelsDec_spec (s : ApuState) :
    CompFrame s (computeAudioChannelsDec s) ∧
    (computeAudioChannelsDec s).channel1FrequencyCounter =
      s.channel1FrequencyCounter - s.audioClocksUntilNextEvent ∧
    (computeAudioChannelsDec s).channel2FrequencyCounter =
      s.channel2FrequencyCounter - s.audioClocksUntilNextEvent ∧
    (computeAudioChannelsDec s).channel3Counter =
      s.channel3Counter - s.audioClocksUntilNextEvent ∧
    (computeAudioChannelsDec s).channel4Counter =
      s.channel4Counter - s.audioClocksUntilNextEvent ∧
    (computeAudioChannelsDec s).audioClocksUntilNextEvent = s.audioClocksUntilNextEvent ∧
    (computeAudioChannelsDec s).audioClocksUntilNextEventCounter =
      s.audioClocksUntilNextEventCounter :=
  ⟨CompFrame.krefl s, rfl, rfl, rfl, rfl, rfl, rfl⟩

/-- The channel-1 event block: the counter reloads from the tracker when
it hit zero; the other counters and the frame are untouched. -/
theorem computeAudioChannels1_spec (s : ApuState) :
    CompFrame s (computeAudioChannels1 s) ∧
    (computeAudioChannels1 s).channel1FrequencyCounter =
      (if s.channel1FrequencyCounter = 0 then s.channel1FrequencyTracker
       else s.channel1FrequencyCounter) ∧
    (computeAudioChannels1 s).channel2FrequencyCounter = s.channel2FrequencyCounter ∧
    (computeAudioChannels1 s).channel3Counter = s.channel3Counter ∧
    (computeAudioChannels1 s).channel4Counter = s.channel4Counter ∧
    (computeAudioChannels1 s).audioClocksUntilNextEvent = s.audioClocksUntilNextEvent ∧
    (computeAudioChannels1 s).audioClocksUntilNextEventCounter =
      s.audioClocksUntilNextEventCounter := by
  unfold computeAudioChannels1
  split
  case isTrue h =>
    refine ⟨?_, ?_, ?_, ?_, ?_, ?_, ?_⟩
    · refine CompFrame.ktrans ?_
        (CompFrame.kof_cache (cacheUntouched_channel1OutputLevelTrimaryCache _))
      exact CompFrame.krefl s
    · rw [(cacheUntouched_channel1OutputLevelTrimaryCache _).seq.c1]
    · rw [(cacheUntouched_channel1OutputLevelTrimaryCache _).seq.c2]
    · rw [(cacheUntouched_channel1OutputLevelTrimaryCache _).seq.c3]
    · rw [(cacheUntouched_channel1OutputLevelTrimaryCache _).seq.c4]
    · rw [(cacheUntouched_channel1OutputLevelTrimaryCache _).seq.ev]
    · rw [(cacheUntouched_channel1OutputLevelTrimaryCache _).seq.ec]
  case isFalse h =>
    exact ⟨CompFrame.krefl s, rfl, rfl, rfl, rfl, rfl, rfl⟩

/-- The channel-2 event block. -/
theorem computeAudioChannels2_spec (s : ApuState) :
    CompFrame s (computeAudioChannels2 s) ∧
    (computeAudioChannels2 s).channel1FrequencyCounter = s.channel1FrequencyCounter ∧
    (computeAudioChannels2 s).channel2FrequencyCounter =
      (if s.channel2FrequencyCounter = 0 then s.channel2FrequencyTracker
       else s.channel2FrequencyCounter) ∧
    (computeAudioChannels2 s).channel3Counter = s.channel3Counter ∧
    (computeAudioChannels2 s).channel4Counter = s.channel4Counter ∧
    (computeAudioChannels2 s).audioClocksUntilNextEvent = s.audioClocksUntilNextEvent ∧
    (computeAudioChannels2 s).audioClocksUntilNextEventCounter =
      s.audioClocksUntilNextEventCounter := by
  unfold computeAudioChannels2
  split
  case isTrue h =>
    refine ⟨?_, ?_, ?_, ?_, ?_, ?_, ?_⟩
    · refine CompFrame.ktrans ?_
        (CompFrame.kof_cache (cacheUntouched_channel2OutputLevelTrimaryCache _))
      exact CompFrame.krefl s
    · rw [(cacheUntouched_channel2OutputLevelTrimaryCache _).seq.c1]
    · rw [(cacheUntouched_channel2OutputLevelTrimaryCache _).seq.c2]
    · rw [(cacheUntouched_channel2OutputLevelTrimaryCache _).seq.c3]
    · rw [(cacheUntouched_channel2OutputLevelTrimaryCache _).seq.c4]
    · rw [(cacheUntouched_channel2OutputLevelTrimaryCache _).seq.ev]
    · rw [(cacheUntouched_channel2OutputLevelTrimaryCache _).seq.ec]
  case isFalse h =>
    exact ⟨CompFrame.krefl s, rfl, rfl, rfl, rfl, rfl, rfl⟩

/-- The channel-3 event block: the counter reloads from the wave period
(and the wave position advances only when the channel can play). -/
theorem computeAudioChannels3_spec (s : ApuState) :
    CompFrame s (computeAudioChannels3 s) ∧
    (computeAudioChannels3 s).channel1FrequencyCounter = s.channel1FrequencyCounter ∧
    (computeAudioChannels3 s).channel2FrequencyCounter = s.channel2FrequencyCounter ∧
    (computeAudioChannels3 s).channel3Counter =
      (if s.channel3Counter = 0 then s.channel3FrequencyPeriod else s.channel3Counter) ∧
    (computeAudioChannels3 s).channel4Counter = s.channel4Counter ∧
    (computeAudioChannels3 s).audioClocksUntilNextEvent = s.audioClocksUntilNextEvent ∧
    (computeAudioChannels3 s).audioClocksUntilNextEventCounter =
      s.audioClocksUntilNextEventCounter := by
  unfold computeAudioChannels3
  split
  case isTrue h =>
    dsimp only
    split
    case isTrue h2 =>
      refine ⟨?_, ?_, ?_, ?_, ?_, ?_, ?_⟩
      · refine CompFrame.ktrans ?_ (CompFrame.kof_cache (cacheUntouched_channel3UpdateCache _))
        exact CompFrame.krefl s
      · rw [(cacheUntouched_channel3UpdateCache _).seq.c1]
      · rw [(cacheUntouched_channel3UpdateCache _).seq.c2]
      · rw [(cacheUntouched_channel3UpdateCache _).seq.c3]
      · rw [(cacheUntouched_channel3UpdateCache _).seq.c4]
      · rw [(cacheUntouched_channel3UpdateCache _).seq.ev]
      · rw [(cacheUntouched_channel3UpdateCache _).seq.ec]
    case isFalse h2 =>
      refine ⟨?_, ?_, ?_, ?_, ?_, ?_, ?_⟩
      · refine CompFrame.ktrans ?_ (CompFrame.kof_cache (cacheUntouched_channel3UpdateCache _))
        exact CompFrame.krefl s
      · rw [(cacheUntouched_channel3UpdateCache _).seq.c1]
      · rw [(cacheUntouched_channel3UpdateCache _).seq.c2]
      · rw [(cacheUntouched_channel3UpdateCache _).seq.c3]
      · rw [(cacheUntouched_channel3UpdateCache _).seq.c4]
      · rw [(cacheUntouched_channel3UpdateCache _).seq.ev]
      · rw [(cacheUntouched_channel3UpdateCache _).seq.ec]
  case isFalse h =>
    exact ⟨CompFrame.krefl s, rfl, rfl, rfl, rfl, rfl, rfl⟩

/-- The channel-4 event block. -/
theorem computeAudioChannels4_spec (s : ApuState) :
    CompFrame s (computeAudioChannels4 s) ∧
    (computeAudioChannels4 s).channel1FrequencyCounter = s.channel1FrequencyCounter ∧
    (computeAudioChannels4 s).channel2FrequencyCounter = s.channel2FrequencyCounter ∧
    (computeAudioChannels4 s).channel3Counter = s.channel3Counter ∧
    (computeAudioChannels4 s).channel4Counter =
      (if s.channel4Counter = 0 then s.channel4FrequencyPeriod else s.channel4Counter) ∧
    (computeAudioChannels4 s).audioClocksUntilNextEvent = s.audioClocksUntilNextEvent ∧
    (computeAudioChannels4 s).audioClocksUntilNextEventCounter =
      s.audioClocksUntilNextEventCounter := by
  unfold computeAudioChannels4
  split
  case isTrue h =>
    refine ⟨?_, ?_, ?_, ?_, ?_, ?_, ?_⟩
    · refine CompFrame.ktrans ?_ (CompFrame.kof_cache (cacheUntouched_channel4UpdateCache _))
      exact CompFrame.krefl s
    · rw [(cacheUntouched_channel4UpdateCache _).seq.c1]
    · rw [(cacheUntouched_channel4UpdateCache _).seq.c2]
    · rw [(cacheUntouched_channel4UpdateCache _).seq.c3]
    · rw [(cacheUntouched_channel4UpdateCache _).seq.c4]
    · rw [(cacheUntouched_channel4UpdateCache _).seq.ev]
    · rw [(cacheUntouched_channel4UpdateCache _).seq.ec]
  case isFalse h =>
    exact ⟨CompFrame.krefl s, rfl, rfl, rfl, rfl, rfl, rfl⟩

/-- The closing block: the next event interval and its countdown both
become the minimum of the four counters. -/
theorem computeAudioChannelsNext_spec (s : ApuState) :
    CompFrame s (computeAudioChannelsNext s) ∧
    (computeAudioChannelsNext s).channel1FrequencyCounter = s.channel1FrequencyCounter ∧
    (computeAudioChannelsNext s).channel2FrequencyCounter = s.channel2FrequencyCounter ∧
    (computeAudioChannelsNext s).channel3Counter = s.channel3Counter ∧
    (computeAudioChannelsNext s).channel4Counter = s.channel4Counter ∧
    (computeAudioChannelsNext s).audioClocksUntilNextEvent =
      min (min s.channel1FrequencyCounter s.channel2FrequencyCounter)
        (min s.channel3Counter s.channel4Counter) ∧
    (computeAudioChannelsNext s).audioClocksUntilNextEventCounter =
      min (min s.channel1FrequencyCounter s.channel2FrequencyCounter)
        (min s.channel3Counter s.channel4Counter) :=
  ⟨CompFrame.krefl s, rfl, rfl, rfl, rfl, rfl, rfl⟩

/-- `computeAudioChannels`, entered with the previous event interval still
dominated by all four channel counters and positive reload values,
re-establishes the audio timing invariant: the new interval equals the new
countdown, is at least 1 and is dominated by all four counters; the frame
fields are untouched. -/
theorem computeAudioChannels_spec (s : ApuState)
    (h1 : s.audioClocksUntilNextEvent ≤ s.channel1FrequencyCounter)
    (h2 : s.audioClocksUntilNextEvent ≤ s.channel2FrequencyCounter)
    (h3 : s.audioClocksUntilNextEvent ≤ s.channel3Counter)
    (h4 : s.audioClocksUntilNextEvent ≤ s.channel4Counter)
    (ht1 : 1 ≤ s.channel1FrequencyTracker) (ht2 : 1 ≤ s.channel2FrequencyTracker)
    (hp3 : 1 ≤ s.channel3FrequencyPeriod) (hp4 : 1 ≤ s.channel4FrequencyPeriod) :
    CompFrame s (computeAudioChannels s) ∧
    1 ≤ (computeAudioChannels s).audioClocksUntilNextEventCounter ∧
    (computeAudioChannels s).audioClocksUntilNextEvent =
      (computeAudioChannels s).audioClocksUntilNextEventCounter ∧
    (computeAudioChannels s).audioClocksUntilNextEvent ≤
      (computeAudioChannels s).channel1FrequencyCounter ∧
    (computeAudioChannels s).audioClocksUntilNextEvent ≤
      (computeAudioChannels s).channel2FrequencyCounter ∧
    (computeAudioChannels s).audioClocksUntilNextEvent ≤
      (computeAudioChannels s).channel3Counter ∧
    (computeAudioChannels s).audioClocksUntilNextEvent ≤
      (computeAudioChannels s).channel4Counter := by
  obtain ⟨F0, d1, d2, d3, d4, dev, dec⟩ := computeAudioChannelsDec_spec s
  obtain ⟨F1, a1, a2, a3, a4, aev, aec⟩ :=
    computeAudioChannels1_spec (computeAudioChannelsDec s)
  obtain ⟨F2, b1, b2, b3, b4, bev, bec⟩ :=
    computeAudioChannels2_spec (computeAudioChannels1 (computeAudioChannelsDec s))
  obtain ⟨F3, e1, e2, e3, e4, eev, eec⟩ :=
    computeAudioChannels3_spec
      (computeAudioChannels2 (computeAudioChannels1 (computeAudioChannelsDec s)))
  obtain ⟨F4, g1, g2, g3, g4, gev, gec⟩ :=
    computeAudioChannels4_spec
      (computeAudioChannels3
        (computeAudioChannels2 (computeAudioChannels1 (computeAudioChannelsDec s))))
  obtain ⟨F5, n1, n2, n3, n4, nev, nec⟩ :=
    computeAudioChannelsNext_spec
      (computeAudioChannels4
        (computeAudioChannels3
          (computeAudioChannels2 (computeAudioChannels1 (computeAudioChannelsDec s)))))
  unfold computeAudioChannels
  refine ⟨((((F0.ktrans F1).ktrans F2).ktrans F3).ktrans F4).ktrans F5, ?_, ?_, ?_, ?_, ?_, ?_⟩
  all_goals
    simp only [nec, nev, n1, n2, n3, n4, g1, g2, g3, g4, e1, e2, e3, e4,
      b1, b2, b3, b4, a1, a2, a3, a4, d1, d2, d3, d4,
      F0.kt1, F0.kt2, F0.kp3, F0.kp4, F1.kt2, F1.kp3, F1.kp4, F2.kp3, F2.kp4, F3.kp4]
  all_goals split_ifs <;> omega

/-- The audio timing invariant maintained by the audible generation loop:
positive resampler factor, in-range resampler index, positive event and
sequencer countdowns, the current event interval dominated by all four
channel counters, and positive channel reload values. -/
def AudioTimingInv (s : ApuState) : Prop :=
  0 < s.audioResamplerFirstPassFactor ∧
  s.audioIndex < s.audioResamplerFirstPassFactor ∧
  1 ≤ s.audioClocksUntilNextEventCounter ∧
  1 ≤ s.sequencerClocks ∧
  s.audioClocksUntilNextEvent ≤ s.channel1FrequencyCounter ∧
  s.audioClocksUntilNextEvent ≤ s.channel2FrequencyCounter ∧
  s.audioClocksUntilNextEvent ≤ s.channel3Counter ∧
  s.audioClocksUntilNextEvent ≤ s.channel4Counter ∧
  1 ≤ s.channel1FrequencyTracker ∧
  1 ≤ s.channel2FrequencyTracker ∧
  1 ≤ s.channel3FrequencyPeriod ∧
  1 ≤ s.channel4FrequencyPeriod

/-- The clock budget of one iteration of the audible loop
(`clockUpTo.toNat`, with `clockUpTo = min(min(counter, sequencer), n)`). -/
def goC (s : ApuState) (n : Nat) : Nat :=
  (min (min s.audioClocksUntilNextEventCounter s.sequencerClocks) (n : Int)).toNat

/-- The state after an iteration of the audible loop decrements the two
countdowns. -/
def goS1 (s : ApuState) (n : Nat) : ApuState :=
  { s with
    audioClocksUntilNextEventCounter := s.audioClocksUntilNextEventCounter -
      min (min s.audioClocksUntilNextEventCounter s.sequencerClocks) (n : Int),
    sequencerClocks := s.sequencerClocks -
      min (min s.audioClocksUntilNextEventCounter s.sequencerClocks) (n : Int) }

/-- The state after the iteration's inner resampler run. -/
def goS2 (s : ApuState) (n : Nat) : ApuState :=
  generateAudioInner (goC s n) (goS1 s n) (goC s n)

/-- The state after the iteration's frame-sequencer step (when its
countdown expired). -/
def goS3 (s : ApuState) (n : Nat) : ApuState :=
  if (goS2 s n).sequencerClocks = 0 then
    { audioComputeSequencer (goS2 s n) with sequencerClocks := 0x2000 }
  else goS2 s n

/-- The state at the end of one iteration of the audible loop (after the
channel-event recompute, when the event countdown expired). -/
def goS4 (s : ApuState) (n : Nat) : ApuState :=
  if (goS3 s n).audioClocksUntilNextEventCounter = 0 then
    computeAudioChannels (goS3 s n)
  else goS3 s n

/-- One-step unfolding of the audible loop through the iteration states. -/
theorem generateAudioGo_succ (f : Nat) (s : ApuState) (n : Nat) (hn : ¬ n = 0)
    (hpos : ¬ min (min s.audioClocksUntilNextEventCounter s.sequencerClocks) (n : Int) ≤ 0) :
    generateAudioGo (f + 1) s n = generateAudioGo f (goS4 s n) (n - goC s n) := by
  conv_lhs => rw [generateAudioGo]
  rw [if_neg hn, if_neg hpos]
  rfl

/-- A `CompFrame` transition does not emit and moves neither the index nor
the factor. -/
theorem emitted_of_compFrame {s t : ApuState} (h : CompFrame s t) :
    emittedSamples t = emittedSamples s := by
  unfold emittedSamples
  rw [h.kwr, h.ktot, h.kpos]

/-- The fields of the sequencer step (with its countdown reset) that the
audible loop's accounting reads. -/
theorem seqScUpd_facts (t : ApuState) (v : Int) :
    emittedSamples { audioComputeSequencer t with sequencerClocks := v } = emittedSamples t ∧
    ({ audioComputeSequencer t with sequencerClocks := v }).audioIndex = t.audioIndex ∧
    ({ audioComputeSequencer t with
        sequencerClocks := v }).audioResamplerFirstPassFactor =
      t.audioResamplerFirstPassFactor ∧
    ({ audioComputeSequencer t with
        sequencerClocks := v }).audioClocksUntilNextEventCounter =
      t.audioClocksUntilNextEventCounter ∧
    ({ audioComputeSequencer t with sequencerClocks := v }).audioClocksUntilNextEvent =
      t.audioClocksUntilNextEvent ∧
    ({ audioComputeSequencer t with sequencerClocks := v }).channel1FrequencyCounter =
      t.channel1FrequencyCounter ∧
    ({ audioComputeSequencer t with sequencerClocks := v }).channel2FrequencyCounter =
      t.channel2FrequencyCounter ∧
    ({ audioComputeSequencer t with sequencerClocks := v }).channel3Counter =
      t.channel3Counter ∧
    ({ audioComputeSequencer t with sequencerClocks := v }).channel4Counter =
      t.channel4Counter ∧
    (1 ≤ t.channel1FrequencyTracker →
      1 ≤ ({ audioComputeSequencer t with sequencerClocks := v }).channel1FrequencyTracker) ∧
    ({ audioComputeSequencer t with sequencerClocks := v }).channel2FrequencyTracker =
      t.channel2FrequencyTracker ∧
    ({ audioComputeSequencer t with sequencerClocks := v }).channel3FrequencyPeriod =
      t.channel3FrequencyPeriod ∧
    ({ audioComputeSequencer t with sequencerClocks := v }).channel4FrequencyPeriod =
      t.channel4FrequencyPeriod := by
  have h := seqUntouched_audioComputeSequencer t
  exact ⟨by unfold emittedSamples; dsimp only; rw [h.wr, h.tot, h.pos],
    h.idx, h.fac, h.ec, h.ev, h.c1, h.c2, h.c3, h.c4, h.t1pos, h.t2, h.p3, h.p4⟩

/-- `goS1` does not emit. -/
theorem emitted_goS1 (s : ApuState) (n : Nat) :
    emittedSamples (goS1 s n) = emittedSamples s := rfl

/-- One iteration of the audible loop, entered with the invariant and a
positive remaining budget, consumes `goC` clocks (at least one), emits
`(audioIndex + goC) / factor` stereo pairs, moves the index to
`(audioIndex + goC) % factor`, keeps the factor and re-establishes the
invariant. -/
theorem goS4_inv (s : ApuState) (n : Nat) (hinv : AudioTimingInv s) (hn : ¬ n = 0) :
    AudioTimingInv (goS4 s n) ∧
    emittedSamples (goS4 s n) =
      emittedSamples s + 2 * ((s.audioIndex + goC s n) / s.audioResamplerFirstPassFactor) ∧
    (goS4 s n).audioIndex = (s.audioIndex + goC s n) % s.audioResamplerFirstPassFactor ∧
    (goS4 s n).audioResamplerFirstPassFactor = s.audioResamplerFirstPassFactor ∧
    1 ≤ goC s n ∧ goC s n ≤ n := by
  obtain ⟨hf, hidx, hec, hsc, hv1, hv2, hv3, hv4, ht1, ht2, hp3, hp4⟩ := hinv
  have hn1 : 1 ≤ n := Nat.one_le_iff_ne_zero.mpr hn
  have hc1 : 1 ≤ goC s n := by unfold goC; omega
  have hcn : goC s n ≤ n := by unfold goC; omega
  obtain ⟨ie, ii, iF⟩ := generateAudioInner_spec (goC s n) (goS1 s n) (goC s n) le_rfl
    (show 0 < (goS1 s n).audioResamplerFirstPassFactor from hf)
    (show (goS1 s n).audioIndex < (goS1 s n).audioResamplerFirstPassFactor from hidx)
  rw [show generateAudioInner (goC s n) (goS1 s n) (goC s n) = goS2 s n from rfl] at ie ii iF
  have hem2 : emittedSamples (goS2 s n) =
      emittedSamples s + 2 * ((s.audioIndex + goC s n) / s.audioResamplerFirstPassFactor) := by
    rw [ie, emitted_goS1]
    dsimp only [goS1]
  have hidx2 : (goS2 s n).audioIndex =
      (s.audioIndex + goC s n) % s.audioResamplerFirstPassFactor := ii
  have hfac2 : (goS2 s n).audioResamplerFirstPassFactor = s.audioResamplerFirstPassFactor :=
    iF.ifac
  have hec2 : (goS2 s n).audioClocksUntilNextEventCounter =
      s.audioClocksUntilNextEventCounter -
        min (min s.audioClocksUntilNextEventCounter s.sequencerClocks) (n : Int) := iF.iec
  have hsc2 : (goS2 s n).sequencerClocks =
      s.sequencerClocks -
        min (min s.audioClocksUntilNextEventCounter s.sequencerClocks) (n : Int) := iF.isc
  have hev2 : (goS2 s n).audioClocksUntilNextEvent = s.audioClocksUntilNextEvent := iF.iev
  have hC1 : (goS2 s n).channel1FrequencyCounter = s.channel1FrequencyCounter := iF.ic1
  have hC2 : (goS2 s n).channel2FrequencyCounter = s.channel2FrequencyCounter := iF.ic2
  have hC3 : (goS2 s n).channel3Counter = s.channel3Counter := iF.ic3
  have hC4 : (goS2 s n).channel4Counter = s.channel4Counter := iF.ic4
  have hT1 : (goS2 s n).channel1FrequencyTracker = s.channel1FrequencyTracker := iF.it1
  have hT2 : (goS2 s n).channel2FrequencyTracker = s.channel2FrequencyTracker := iF.it2
  have hP3 : (goS2 s n).channel3FrequencyPeriod = s.channel3FrequencyPeriod := iF.ip3
  have hP4 : (goS2 s n).channel4FrequencyPeriod = s.channel4FrequencyPeriod := iF.ip4
  have hmodlt : (s.audioIndex + goC s n) % s.audioResamplerFirstPassFactor <
      s.audioResamplerFirstPassFactor := Nat.mod_lt _ hf
  have s3facts :
      emittedSamples (goS3 s n) = emittedSamples (goS2 s n) ∧
      (goS3 s n).audioIndex = (goS2 s n).audioIndex ∧
      (goS3 s n).audioResamplerFirstPassFactor = (goS2 s n).audioResamplerFirstPassFactor ∧
      (goS3 s n).audioClocksUntilNextEventCounter =
        (goS2 s n).audioClocksUntilNextEventCounter ∧
      (goS3 s n).audioClocksUntilNextEvent = (goS2 s n).audioClocksUntilNextEvent ∧
      (goS3 s n).channel1FrequencyCounter = (goS2 s n).channel1FrequencyCounter ∧
      (goS3 s n).channel2FrequencyCounter = (goS2 s n).channel2FrequencyCounter ∧
      (goS3 s n).channel3Counter = (goS2 s n).channel3Counter ∧
      (goS3 s n).channel4Counter = (goS2 s n).channel4Counter ∧
      (1 ≤ (goS2 s n).channel1FrequencyTracker →
        1 ≤ (goS3 s n).channel1FrequencyTracker) ∧
      (goS3 s n).channel2FrequencyTracker = (goS2 s n).channel2FrequencyTracker ∧
      (goS3 s n).channel3FrequencyPeriod = (goS2 s n).channel3FrequencyPeriod ∧
      (goS3 s n).channel4FrequencyPeriod = (goS2 s n).channel4FrequencyPeriod ∧
      1 ≤ (goS3 s n).sequencerClocks := by
    unfold goS3
    by_cases hseq : (goS2 s n).sequencerClocks = 0
    · rw [if_pos hseq]
      obtain ⟨q1, q2, q3, q4, q5, q6, q7, q8, q9, q10, q11, q12, q13⟩ :=
        seqScUpd_facts (goS2 s n) 0x2000
      exact ⟨q1, q2, q3, q4, q5, q6, q7, q8, q9, q10, q11, q12, q13,
        show (1 : Int) ≤ 0x2000 by norm_num⟩
    · rw [if_neg hseq]
      refine ⟨rfl, rfl, rfl, rfl, rfl, rfl, rfl, rfl, rfl, fun h => h, rfl, rfl, rfl, ?_⟩
      omega
  obtain ⟨r1, r2, r3, r4, r5, r6, r7, r8, r9, r10, r11, r12, r13, r14⟩ := s3facts
  unfold goS4
  by_cases hev : (goS3 s n).audioClocksUntilNextEventCounter = 0
  · rw [if_pos hev]
    obtain ⟨CF, k1, k2, k3, k4, k5, k6⟩ := computeAudioChannels_spec (goS3 s n)
      (by rw [r5, hev2, r6, hC1]; exact hv1)
      (by rw [r5, hev2, r7, hC2]; exact hv2)
      (by rw [r5, hev2, r8, hC3]; exact hv3)
      (by rw [r5, hev2, r9, hC4]; exact hv4)
      (by apply r10; rw [hT1]; exact ht1)
      (by rw [r11, hT2]; exact ht2)
      (by rw [r12, hP3]; exact hp3)
      (by rw [r13, hP4]; exact hp4)
    refine ⟨⟨?_, ?_, ?_, ?_, ?_, ?_, ?_, ?_, ?_, ?_, ?_, ?_⟩, ?_, ?_, ?_, hc1, hcn⟩
    · rw [CF.kfac, r3, hfac2]; exact hf
    · rw [CF.kidx, CF.kfac, r2, r3, hidx2, hfac2]; exact hmodlt
    · exact k1
    · rw [CF.ksc]; exact r14
    · exact k3
    · exact k4
    · exact k5
    · exact k6
    · rw [CF.kt1]; apply r10; rw [hT1]; exact ht1
    · rw [CF.kt2, r11, hT2]; exact ht2
    · rw [CF.kp3, r12, hP3]; exact hp3
    · rw [CF.kp4, r13, hP4]; exact hp4
    · rw [emitted_of_compFrame CF, r1, hem2]
    · rw [CF.kidx, r2, hidx2]
    · rw [CF.kfac, r3, hfac2]
  · rw [if_neg hev]
    refine ⟨⟨?_, ?_, ?_, ?_, ?_, ?_, ?_, ?_, ?_, ?_, ?_, ?_⟩, ?_, ?_, ?_, hc1, hcn⟩
    · rw [r3, hfac2]; exact hf
    · rw [r2, r3, hidx2, hfac2]; exact hmodlt
    · have h0 : (0 : Int) ≤ (goS3 s n).audioClocksUntilNextEventCounter := by
        rw [r4, hec2]; omega
      omega
    · exact r14
    · rw [r5, hev2, r6, hC1]; exact hv1
    · rw [r5, hev2, r7, hC2]; exact hv2
    · rw [r5, hev2, r8, hC3]; exact hv3
    · rw [r5, hev2, r9, hC4]; exact hv4
    · apply r10; rw [hT1]; exact ht1
    · rw [r11, hT2]; exact ht2
    · rw [r12, hP3]; exact hp3
    · rw [r13, hP4]; exact hp4
    · rw [r1, hem2]
    · rw [r2, hidx2]
    · rw [r3, hfac2]

/-- The audible generation loop (`generateAudio` with the master enable on
and the CPU running), on `n ≤ fuel` clocks under the timing invariant,
emits exactly `(audioIndex + n) / factor` stereo pairs. -/
theorem generateAudioGo_spec (fuel : Nat) :
    ∀ s n, n ≤ fuel → AudioTimingInv s →
      emittedSamples (generateAudioGo fuel s n) =
        emittedSamples s + 2 * ((s.audioIndex + n) / s.audioResamplerFirstPassFactor) := by
  induction fuel with
  | zero =>
    intro s n hle hinv
    have hn0 : n = 0 := by omega
    subst hn0
    rw [show generateAudioGo 0 s 0 = s from rfl, Nat.add_zero, Nat.div_eq_of_lt hinv.2.1]
    rfl
  | succ f ih =>
    intro s n hle hinv
    by_cases hn0 : n = 0
    · subst hn0
      rw [show generateAudioGo (f + 1) s 0 = s from rfl, Nat.add_zero,
        Nat.div_eq_of_lt hinv.2.1]
      rfl
    · have hpos :
          ¬ min (min s.audioClocksUntilNextEventCounter s.sequencerClocks) (n : Int) ≤ 0 := by
        obtain ⟨hf, hidx, hec, hsc, hrest⟩ := hinv
        have hn1 : (1 : Int) ≤ (n : Int) := by
          exact_mod_cast Nat.one_le_iff_ne_zero.mpr hn0
        omega
      rw [generateAudioGo_succ f s n hn0 hpos]
      obtain ⟨hinv4, hem4, hidx4, hfac4, hc1, hcn⟩ := goS4_inv s n hinv hn0
      rw [ih (goS4 s n) (n - goC s n) (by omega) hinv4, hem4, hidx4, hfac4]
      have hf : 0 < s.audioResamplerFirstPassFactor := hinv.1
      have hd := divAccum s.audioResamplerFirstPassFactor (s.audioIndex + goC s n)
        (n - goC s n) hf
      have he : s.audioIndex + goC s n + (n - goC s n) = s.audioIndex + n := by omega
      rw [he] at hd
      omega

/-- One-step unfolding of the silent resampler loop. -/
theorem generateAudioSilent_succ (f : Nat) (s : ApuState) (n : Nat) (hn : ¬ n = 0)
    (hmz : ¬ min n (s.audioResamplerFirstPassFactor - s.audioIndex) = 0) :
    generateAudioSilent (f + 1) s n =
      (if s.audioIndex + min n (s.audioResamplerFirstPassFactor - s.audioIndex) =
          s.audioResamplerFirstPassFactor then
        generateAudioSilent f (outputAudio { s with audioIndex := 0 })
          (n - min n (s.audioResamplerFirstPassFactor - s.audioIndex))
      else
        generateAudioSilent f
          { s with audioIndex :=
              s.audioIndex + min n (s.audioResamplerFirstPassFactor - s.audioIndex) }
          (n - min n (s.audioResamplerFirstPassFactor - s.audioIndex))) := by
  conv_lhs => rw [generateAudioSilent]
  rw [if_neg hn, if_neg hmz]
  dsimp only
  by_cases hfl : s.audioIndex + min n (s.audioResamplerFirstPassFactor - s.audioIndex) =
      s.audioResamplerFirstPassFactor
  · rw [if_pos hfl, if_pos hfl]
  · rw [if_neg hfl, if_neg hfl]

/-- The silent resampler loop emits exactly `(audioIndex + n) / factor`
stereo pairs over `n ≤ fuel` clocks from an in-range index. -/
theorem generateAudioSilent_spec (fuel : Nat) :
    ∀ s n, n ≤ fuel → 0 < s.audioResamplerFirstPassFactor →
      s.audioIndex < s.audioResamplerFirstPassFactor →
      emittedSamples (generateAudioSilent fuel s n) =
        emittedSamples s + 2 * ((s.audioIndex + n) / s.audioResamplerFirstPassFactor) ∧
      (generateAudioSilent fuel s n).audioIndex =
        (s.audioIndex + n) % s.audioResamplerFirstPassFactor ∧
      InnerFrame s (generateAudioSilent fuel s n) := by
  induction fuel with
  | zero =>
    intro s n hc hf hidx
    have hc0 : n = 0 := by omega
    subst hc0
    refine ⟨?_, ?_, InnerFrame.irefl s⟩
    · rw [Nat.add_zero, Nat.div_eq_of_lt hidx]
      rfl
    · rw [Nat.add_zero, Nat.mod_eq_of_lt hidx]
      rfl
  | succ f ih =>
    intro s n hc hf hidx
    by_cases hc0 : n = 0
    · subst hc0
      rw [show generateAudioSilent (f + 1) s 0 = s from rfl]
      refine ⟨?_, ?_, InnerFrame.irefl s⟩
      · rw [Nat.add_zero, Nat.div_eq_of_lt hidx]
        rfl
      · rw [Nat.add_zero, Nat.mod_eq_of_lt hidx]
    · have hm1 : 1 ≤ min n (s.audioResamplerFirstPassFactor - s.audioIndex) := by omega
      have hmc : min n (s.audioResamplerFirstPassFactor - s.audioIndex) ≤ n :=
        Nat.min_le_left _ _
      rw [generateAudioSilent_succ f s n hc0 (by omega)]
      by_cases hflush :
          s.audioIndex + min n (s.audioResamplerFirstPassFactor - s.audioIndex) =
            s.audioResamplerFirstPassFactor
      · rw [if_pos hflush]
        obtain ⟨ihe, ihi, ihF⟩ := ih (outputAudio { s with audioIndex := 0 })
          (n - min n (s.audioResamplerFirstPassFactor - s.audioIndex))
          (by omega)
          (by rw [(innerFrame_outputAudio _).ifac]; exact hf)
          (by rw [outputAudio_idx, (innerFrame_outputAudio _).ifac]; exact hf)
        have hsplit : s.audioIndex + n =
            (n - min n (s.audioResamplerFirstPassFactor - s.audioIndex)) +
              s.audioResamplerFirstPassFactor := by omega
        refine ⟨?_, ?_, ?_⟩
        · rw [ihe, outputAudio_emitted, outputAudio_idx, (innerFrame_outputAudio _).ifac]
          unfold emittedSamples
          dsimp only
          rw [hsplit, Nat.add_div_right _ hf, Nat.zero_add]
          ring
        · rw [ihi, outputAudio_idx, (innerFrame_outputAudio _).ifac]
          dsimp only
          rw [hsplit, Nat.add_mod_right, Nat.zero_add]
        · refine InnerFrame.itrans ?_ ihF
          refine InnerFrame.itrans ?_ (innerFrame_outputAudio _)
          exact InnerFrame.irefl s
      · rw [if_neg hflush]
        have hmeq : min n (s.audioResamplerFirstPassFactor - s.audioIndex) = n := by omega
        obtain ⟨ihe, ihi, ihF⟩ := ih
          { s with audioIndex :=
              s.audioIndex + min n (s.audioResamplerFirstPassFactor - s.audioIndex) }
          (n - min n (s.audioResamplerFirstPassFactor - s.audioIndex))
          (by omega) hf (by dsimp only; omega)
        refine ⟨?_, ?_, ?_⟩
        · rw [ihe]
          unfold emittedSamples
          dsimp only
          rw [hmeq, Nat.sub_self, Nat.add_zero]
        · rw [ihi]
          dsimp only
          rw [hmeq, Nat.sub_self, Nat.add_zero]
        · refine InnerFrame.itrans ?_ ihF
          exact InnerFrame.irefl s

/-- C2, counterexample: with stored DIV byte `5` and `DIVTicks = 0x123`,
the readable FF04 value is `6`; immediately after a write of `0` to FF04
the readable value is `0`, not `6` — the write resets the readable FF04
value, refuting "writing 0 to FF04 does not reset the readable FF04 value"
and "the FF04 high byte continues to advance from its pre-write value". -/
theorem C2_div_write_counterexample :
    (memoryReadFF04 ⟨5, 0x123⟩).1 = 6 ∧
      (memoryReadFF04 (registerWriteFF04 ⟨5, 0x123⟩ 0)).1 = 0 ∧ (0 : Nat) ≠ 6 := by
  decide

/-- C2 (amended): a write of any value to FF04 clears the stored FF04 byte
to `0` and truncates `DIVTicks` to its low byte — it preserves the
sub-256-cycle phase while discarding the pending whole increments — so a
read `t` cycles after the write returns `(DIVTicks % 0x100 + t) / 0x100 % 0x100`,
restarting from `0` rather than continuing from the pre-write value. -/
theorem C2_div_write_amended (s : DivState) (data t : Nat) :
    registerWriteFF04 s data = ⟨0, s.divTicks % 0x100⟩ ∧
      (memoryReadFF04 (elapseDIV (registerWriteFF04 s data) t)).1 =
        (s.divTicks % 0x100 + t) / 0x100 % 0x100 := by
  refine ⟨rfl, ?_⟩
  simp [registerWriteFF04, elapseDIV, memoryReadFF04]

/-- A DMG-cartridge joypad state before the C3 scenario: all keys released
(`value = 0xff`), post-boot `memory[0xff00]`, no pending interrupts, no
boot ROM. -/
def joypadC3 : JoypadState :=
  { value := 0xff, ff00 := 0xcf, interruptsRequested := 0, interruptsEnabled := 0x10,
    IME := false, IRQLineMatched := 0, remainingClocks := 820, CPUStopped := false,
    hasCartridge := true, useGBCMode := false, usedBootROM := false, usedGBCBootROM := false }

/-- C3, counterexample: after writing `0x10` to FF00 and pressing Right
(key 0) on a DMG cartridge, reading FF00 returns `0xDF`, not the claimed
`0xC0 | 0x10 | 0x0E = 0xDE`: writing `0x10` sets FF00 bit 4, which
*deselects* the direction group in this code (`(data & 0x10) === 0` selects
it), so the pressed Right key never reaches the low nibble. -/
theorem C3_joypad_counterexample :
    memoryReadFF00 (Joypad.down (registerWriteFF00 joypadC3 0x10) 0) = 0xdf ∧
      (0xdf : Nat) ≠ 0xde := by
  decide

/-- C3 (amended): with FF00 written to `0x10` and then Right pressed on a
DMG cartridge, reading FF00 returns `0xC0 | 0x10 | 0x0F = 0xDF` (bit 4 set
deselects the directions, so the low nibble shows the all-released button
group), the key-down requests joypad interrupt `0x10`, and on a CGB-mode
cartridge the same key-down requests no interrupt. -/
theorem C3_joypad_amended :
    memoryReadFF00 (Joypad.down (registerWriteFF00 joypadC3 0x10) 0) = 0xdf ∧
      Nat.testBit
        (Joypad.down (registerWriteFF00 joypadC3 0x10) 0).interruptsRequested 4 = true ∧
      (Joypad.down (registerWriteFF00 { joypadC3 with useGBCMode := true } 0x10)
        0).interruptsRequested = 0 := by
  decide

/-- A PPU-access state in STAT mode 3 used to refute C4's "exactly mode 2"
for OAM writes. -/
def ppuC4 : PpuAccessState :=
  { modeSTAT := 3, memory := fun a => if a = 0xfe00 then 5 else 0, currVRAMBank := 0,
    VRAM := fun _ => 0, BGCHRBank1 := fun _ => 0, BGCHRCurrentBank := fun _ => 0 }

/-- C4, counterexample: in STAT mode 3 a CPU write to OAM address `0xFE00`
is silently dropped (`memoryWriteOAMRAM` requires `modeSTAT < 2`), although
the claim says OAM writes are dropped in exactly mode 2 — so in mode 3 the
write should have gone through and stored `7`. -/
theorem C4_oam_mode3_counterexample :
    (memoryWriteOAMRAM ppuC4 0xfe00 7).memory 0xfe00 = 5 ∧ (5 : Nat) ≠ 7 := by
  decide

/-- C4 (amended): OAM reads return `0xFF` and OAM writes are dropped in
STAT modes 2 *and* 3 (`modeSTAT > 1` for reads, `modeSTAT < 2` required for
writes); VRAM reads return `0xFF` and VRAM writes are dropped in mode 3
only; in the remaining modes reads return the stored byte and writes store
the byte. -/
theorem C4_oam_vram_gating_amended (s : PpuAccessState) (a d : Nat) (h : s.modeSTAT ≤ 3) :
    ((s.modeSTAT = 2 ∨ s.modeSTAT = 3) →
        memoryReadOAM s a = 0xff ∧ (memoryWriteOAMRAM s a d).memory = s.memory) ∧
      (s.modeSTAT ≤ 1 →
        memoryReadOAM s a = s.memory a ∧ (memoryWriteOAMRAM s a d).memory a = d) ∧
      (s.modeSTAT = 3 →
        VRAMDATAReadDMGCPU s a = 0xff ∧ VRAMDATAReadCGBCPU s a = 0xff ∧
          VRAMCHRReadDMGCPU s a = 0xff ∧ VRAMCHRReadCGBCPU s a = 0xff ∧
          (VRAMGBDATAWrite s a d).memory = s.memory ∧
          (VRAMGBDATAUpperWrite s a d).memory = s.memory ∧
          (VRAMGBCDATAWrite s a d).memory = s.memory ∧
          (VRAMGBCDATAWrite s a d).VRAM = s.VRAM ∧
          (VRAMGBCHRMAPWrite s a d).BGCHRBank1 = s.BGCHRBank1 ∧
          (VRAMGBCCHRMAPWrite s a d).BGCHRCurrentBank = s.BGCHRCurrentBank) ∧
      (s.modeSTAT ≤ 2 →
        VRAMDATAReadDMGCPU s a = s.memory a ∧ (VRAMGBDATAWrite s a d).memory a = d) := by
  refine ⟨?_, ?_, ?_, ?_⟩
  · rintro (h2 | h3)
    · constructor
      · simp [memoryReadOAM, h2]
      · simp [memoryWriteOAMRAM, h2]
    · constructor
      · simp [memoryReadOAM, h3]
      · simp [memoryWriteOAMRAM, h3]
  · intro h1
    constructor
    · simp [memoryReadOAM]
      omega
    · rcases eq_or_ne (s.memory a) d with he | hne
      · rw [memoryWriteOAMRAM, if_pos (by omega)]
        simp [he]
      · rw [memoryWriteOAMRAM, if_pos (by omega), if_pos hne]
        simp [graphicsJIT]
  · intro h3
    refine ⟨?_, ?_, ?_, ?_, ?_, ?_, ?_, ?_, ?_, ?_⟩ <;>
      simp [VRAMDATAReadDMGCPU, VRAMDATAReadCGBCPU, VRAMCHRReadDMGCPU, VRAMCHRReadCGBCPU,
        VRAMGBDATAWrite, VRAMGBDATAUpperWrite, VRAMGBCDATAWrite, VRAMGBCHRMAPWrite,
        VRAMGBCCHRMAPWrite, h3]
  · intro h2
    constructor
    · simp [VRAMDATAReadDMGCPU]
      omega
    · rcases eq_or_ne (s.memory a) d with he | hne
      · rw [VRAMGBDATAWrite, if_pos (by omega)]
        simp [he]
      · rw [VRAMGBDATAWrite, if_pos (by omega), if_pos hne]
        simp [graphicsJIT, generateTileLine]

/-- The mode-2 variant of `ppuC4`, used as the witness state for the
amended C4 theorem. -/
def ppuC4m2 : PpuAccessState :=
  { ppuC4 with modeSTAT := 2 }

/-- C4, witness: the amended gating theorem applied at a concrete mode-2
state. -/
theorem C4_oam_vram_gating_witness :
    ppuC4m2.modeSTAT ≤ 3 ∧
      (((ppuC4m2.modeSTAT = 2 ∨ ppuC4m2.modeSTAT = 3) →
          memoryReadOAM ppuC4m2 0xfe00 = 0xff ∧
            (memoryWriteOAMRAM ppuC4m2 0xfe00 9).memory = ppuC4m2.memory) ∧
        (ppuC4m2.modeSTAT ≤ 1 →
          memoryReadOAM ppuC4m2 0xfe00 = ppuC4m2.memory 0xfe00 ∧
            (memoryWriteOAMRAM ppuC4m2 0xfe00 9).memory 0xfe00 = 9) ∧
        (ppuC4m2.modeSTAT = 3 →
          VRAMDATAReadDMGCPU ppuC4m2 0xfe00 = 0xff ∧
            VRAMDATAReadCGBCPU ppuC4m2 0xfe00 = 0xff ∧
            VRAMCHRReadDMGCPU ppuC4m2 0xfe00 = 0xff ∧
            VRAMCHRReadCGBCPU ppuC4m2 0xfe00 = 0xff ∧
            (VRAMGBDATAWrite ppuC4m2 0xfe00 9).memory = ppuC4m2.memory ∧
            (VRAMGBDATAUpperWrite ppuC4m2 0xfe00 9).memory = ppuC4m2.memory ∧
            (VRAMGBCDATAWrite ppuC4m2 0xfe00 9).memory = ppuC4m2.memory ∧
            (VRAMGBCDATAWrite ppuC4m2 0xfe00 9).VRAM = ppuC4m2.VRAM ∧
            (VRAMGBCHRMAPWrite ppuC4m2 0xfe00 9).BGCHRBank1 = ppuC4m2.BGCHRBank1 ∧
            (VRAMGBCCHRMAPWrite ppuC4m2 0xfe00 9).BGCHRCurrentBank = ppuC4m2.BGCHRCurrentBank) ∧
        (ppuC4m2.modeSTAT ≤ 2 →
          VRAMDATAReadDMGCPU ppuC4m2 0xfe00 = ppuC4m2.memory 0xfe00 ∧
            (VRAMGBDATAWrite ppuC4m2 0xfe00 9).memory 0xfe00 = 9)) :=
  ⟨by decide, C4_oam_vram_gating_amended ppuC4m2 0xfe00 9 (by decide)⟩

/-- The concrete invalid ROM for C9: `0x4000` bytes long (so `parseROM`
accepts it) with cartridge-type byte `0x04` at `0x147`, which no case of
the `setTypeName` switch handles. -/
def romC9 : ROMImage :=
  { length := 0x4000, getByte := fun i => if i = 0x147 then 0x04 else 0 }

/-- A `BootROMConfig` with no boot ROM present. -/
def bootCfg0 : BootROMConfig :=
  { bootBootRomFirst := true, forceGBBootRom := false, gbcBootROMLength := 0,
    gbBootROMLength := 0 }

/-- C9, counterexample: loading a ROM whose cartridge-type byte `0x147` is
the unknown value `0x04` does **not** reject: `parseROM` succeeds (its only
failure is the `rom.length < 0x4000` check) and `setTypeName` totally
accepts the byte, producing `typeName = "Unknown"` with every MBC flag
clear (the source's `default` case carries a `// TODO error` comment and
continues). -/
theorem C9_unknown_type_counterexample :
    (parseROM bootCfg0 romC9 fun _ => 0).isOk = true ∧
      (setTypeName (romC9.getByte 0x147)).typeName = "Unknown" ∧
      (setTypeName 0x04).hasMBC1 = false ∧ (setTypeName 0x04).hasMBC2 = false ∧
      (setTypeName 0x04).hasMBC3 = false ∧ (setTypeName 0x04).hasMBC5 = false ∧
      (setTypeName 0x04).hasMBC7 = false ∧ (setTypeName 0x04).hasSRAM = false ∧
      (setTypeName 0x04).cRUMBLE = false ∧ (setTypeName 0x04).cHuC3 = false ∧
      (setTypeName 0x04).cHuC1 = false ∧ (setTypeName 0x04).cTAMA5 = false ∧
      (setTypeName 0x04).cCamera = false ∧ (setTypeName 0x04).cMMMO1 = false := by
  decide

/-- C9 (amended): cartridge load rejects with the explicit failure
`"ROM size too small."` exactly when the ROM is shorter than `0x4000`
bytes; an unknown cartridge-type byte is *not* rejected — `setTypeName`
maps it to `typeName = "Unknown"` with no MBC variant selected and loading
continues. -/
theorem C9_load_failure_amended (c : BootROMConfig) (rom : ROMImage) (memory : Nat → Nat)
    (t : Nat) (ht : t ∉ knownCartridgeTypes) :
    ((∃ msg, parseROM c rom memory = .error msg) ↔ rom.length < 0x4000) ∧
      setTypeName t = { typeName := "Unknown" } := by
  constructor
  · unfold parseROM
    split
    · simp_all
    · split <;> simp_all
  · simp only [knownCartridgeTypes, List.mem_cons, List.not_mem_nil, or_false, not_or] at ht
    obtain ⟨h0, h1, h2, h3, h5, h6, h8, h9, hb, hc, hd, hf, h10, h11, h12, h13, h19, h1a,
      h1b, h1c, h1d, h1e, h1f, h22, hfd, hfe, hff⟩ := ht
    simp [setTypeName, h0, h1, h2, h3, h5, h6, h8, h9, hb, hc, hd, hf, h10, h11, h12, h13,
      h19, h1a, h1b, h1c, h1d, h1e, h1f, h22, hfd, hfe, hff]

/-- C9, witness: the amended load-failure theorem applied at the concrete
unknown type byte `0x04` and the concrete `0x4000`-byte ROM. -/
theorem C9_load_failure_witness :
    ((0x04 : Nat) ∉ knownCartridgeTypes) ∧
      (((∃ msg, parseROM bootCfg0 romC9 (fun _ => 0) = .error msg) ↔ romC9.length < 0x4000) ∧
        setTypeName 0x04 = { typeName := "Unknown" }) :=
  ⟨by decide, C9_load_failure_amended bootCfg0 romC9 (fun _ => 0) 0x04 (by decide)⟩

/-- C10: the MBC RAM allocation of `setupRAM` is a function of the MBC
feature flags alone — `0x200` bytes for MBC2, `0x8000` (4 banks) for
MBC1/RUMBLE/MBC3/HuC3, `0x20000` (16 banks) for MBC5, `0x2000` (1 bank)
when only SRAM is flagged, `0` otherwise — and is independent of the header
RAM-size byte `0x149`. -/
theorem C10_setupRAM_flags_only (c : CartridgeRAMConfig) (h : c.numRAMBanks = 0) :
    (∀ n : Nat, allocatedRamBytes { c with ramSize := n } = allocatedRamBytes c) ∧
      allocatedRamBytes c =
        if c.hasMBC2 then 0x200
        else if c.hasMBC1 || c.cRUMBLE || c.hasMBC3 || c.cHuC3 then 0x8000
        else if c.hasMBC5 then 0x20000
        else if c.hasSRAM then 0x2000
        else 0 := by
  constructor
  · intro n
    rfl
  · unfold allocatedRamBytes setupRAMBanks
    split
    · norm_num
    · split
      · norm_num
      · split
        · norm_num
        · split
          · norm_num
          · rw [h]
            norm_num

/-- A concrete MBC5 cartridge configuration (the shape set up by
`setTypeName 0x1a` plus a nonzero header RAM-size byte). -/
def cartC10 : CartridgeRAMConfig :=
  { hasMBC1 := false, hasMBC2 := false, hasMBC3 := false, hasMBC5 := true,
    cRUMBLE := false, cHuC3 := false, hasSRAM := true, ramSize := 2, numRAMBanks := 0 }

/-- C10, witness: the allocation theorem applied at a concrete MBC5
cartridge configuration. -/
theorem C10_setupRAM_flags_only_witness :
    cartC10.numRAMBanks = 0 ∧
      ((∀ n : Nat, allocatedRamBytes { cartC10 with ramSize := n } = allocatedRamBytes cartC10) ∧
        allocatedRamBytes cartC10 =
          if cartC10.hasMBC2 then 0x200
          else if cartC10.hasMBC1 || cartC10.cRUMBLE || cartC10.hasMBC3 || cartC10.cHuC3 then
            0x8000
          else if cartC10.hasMBC5 then 0x20000
          else if cartC10.hasSRAM then 0x2000
          else 0) :=
  ⟨rfl, C10_setupRAM_flags_only cartC10 rfl⟩

/-- A concrete APU state used by the audio witnesses and counterexamples:
resampler factor 2, a 4-slot host buffer, all channel counters and
trackers at 1, sound enabled, nothing playing. -/
def apuBase : ApuState :=
  { memory := fun _ => 0,
    audioIndex := 0,
    audioResamplerFirstPassFactor := 2,
    downsampleInput := 0,
    downSampleInputDivider := 1,
    audioDestinationPosition := 0,
    numSamplesTotal := 4,
    audioBuffer := fun _ => 0,
    audioServerWritten := 0,
    audioTicks := 0,
    audioClocksUntilNextEvent := 1,
    audioClocksUntilNextEventCounter := 1,
    sequencerClocks := 0x2000,
    sequencePosition := 0,
    soundMasterEnabled := true,
    CPUStopped := false,
    settingsSoundOn := true,
    enabledChannels := fun _ => true,
    useGBCMode := false,
    mixerOutputCache := 0,
    VinLeftChannelMasterVolume := 1,
    VinRightChannelMasterVolume := 1,
    leftChannel1 := true, leftChannel2 := true, leftChannel3 := true, leftChannel4 := true,
    rightChannel1 := true, rightChannel2 := true, rightChannel3 := true, rightChannel4 := true,
    channel1FrequencyCounter := 1,
    channel1FrequencyTracker := 1,
    channel1DutyTracker := 0,
    channel1CachedDuty := fun _ => true,
    channel1totalLength := 0,
    channel1envelopeVolume := 0,
    channel1envelopeType := false,
    channel1envelopeSweeps := 0,
    channel1envelopeSweepsLast := -1,
    channel1consecutive := true,
    channel1frequency := 0,
    channel1SweepFault := false,
    channel1ShadowFrequency := 0,
    channel1timeSweep := 0,
    channel1lastTimeSweep := 0,
    channel1Swept := false,
    channel1frequencySweepDivider := 0,
    channel1decreaseSweep := false,
    channel1canPlay := false,
    channel1Enabled := false,
    channel1currentSampleLeft := 0,
    channel1currentSampleRight := 0,
    channel1currentSampleLeftSecondary := 0,
    channel1currentSampleRightSecondary := 0,
    channel1currentSampleLeftTrimary := 0,
    channel1currentSampleRightTrimary := 0,
    channel2FrequencyCounter := 1,
    channel2FrequencyTracker := 1,
    channel2DutyTracker := 0,
    channel2CachedDuty := fun _ => true,
    channel2totalLength := 0,
    channel2envelopeVolume := 0,
    channel2envelopeType := false,
    channel2envelopeSweeps := 0,
    channel2envelopeSweepsLast := -1,
    channel2consecutive := true,
    channel2frequency := 0,
    channel2canPlay := false,
    channel2Enabled := false,
    channel2currentSampleLeft := 0,
    channel2currentSampleRight := 0,
    channel2currentSampleLeftSecondary := 0,
    channel2currentSampleRightSecondary := 0,
    channel2currentSampleLeftTrimary := 0,
    channel2currentSampleRightTrimary := 0,
    channel3canPlay := false,
    channel3totalLength := 0,
    channel3patternType := 0,
    channel3frequency := 0,
    channel3consecutive := true,
    channel3Counter := 1,
    channel3FrequencyPeriod := 1,
    channel3lastSampleLookup := 0,
    channel3PCM := fun _ => 0,
    cachedChannel3Sample := 0,
    channel3Enabled := false,
    channel3currentSampleLeft := 0,
    channel3currentSampleRight := 0,
    channel3currentSampleLeftSecondary := 0,
    channel3currentSampleRightSecondary := 0,
    channel4FrequencyPeriod := 1,
    channel4Counter := 1,
    channel4totalLength := 0,
    channel4envelopeVolume := 0,
    channel4currentVolume := 0,
    channel4envelopeType := false,
    channel4envelopeSweeps := 0,
    channel4envelopeSweepsLast := -1,
    channel4consecutive := true,
    channel4BitRange := 0x7fff,
    channel4VolumeShifter := 0,
    channel4lastSampleLookup := 0,
    LSFR7Table := fun _ => 0,
    LSFR15Table := fun _ => 0,
    noiseSampleTable := fun _ => 0,
    cachedChannel4Sample := 0,
    channel4canPlay := false,
    channel4Enabled := false,
    channel4currentSampleLeft := 0,
    channel4currentSampleRight := 0,
    channel4currentSampleLeftSecondary := 0,
    channel4currentSampleRightSecondary := 0,
    stopEmulator := 0,
    cpuCyclesTotal := 0,
    cpuCyclesTotalBase := 0,
    bufferContainAmount := 0 }

/-- `apuBase` frozen by STOP, for the C8 witness. -/
def apuC8 : ApuState :=
  { apuBase with CPUStopped := true }

/-- A concrete stopped joypad state for the C8 counterexample: the CPU is
frozen by STOP, all keys released, a DMG cartridge inserted. -/
def joyC8 : JoypadState :=
  { value := 0xff, ff00 := 0x30, interruptsRequested := 0, interruptsEnabled := 0x1f,
    IME := true, IRQLineMatched := 0, remainingClocks := 0, CPUStopped := true,
    hasCartridge := true, useGBCMode := false, usedBootROM := false, usedGBCBootROM := false }

/-- C8, counterexample: with the CPU frozen by STOP, releasing a key
(`Joypad.up`) also clears `CPUStopped`, because `writeToMemory`
unconditionally sets `CPUStopped = false`; the claim says only a key-down
event clears the frozen state. -/
theorem C8_stop_keyup_counterexample :
    joyC8.CPUStopped = true ∧ (Joypad.up joyC8 0).CPUStopped = false :=
  ⟨rfl, rfl⟩

/-- C8 (amended): while `CPUStopped` holds, the `run()` stopped branch
leaves the CPU frozen (it only runs the audio underrun adjustment and the
silent audio flush) and sets bit 0 of `stopEmulator`; any joypad event -
key-down or key-up - clears the frozen state via `Joypad.writeToMemory`. -/
theorem C8_stop_freeze_amended (s : ApuState) (j : JoypadState) (r : Option Int) (key : Nat)
    (h : s.CPUStopped = true) :
    (runStoppedBranch s r).CPUStopped = true ∧
    (runStoppedBranch s r).stopEmulator.testBit 0 = true ∧
    (Joypad.down j key).CPUStopped = false ∧
    (Joypad.up j key).CPUStopped = false := by
  refine ⟨?_, ?_, rfl, rfl⟩
  · show (audioJIT _).CPUStopped = true
    apply audioJIT_CPUStopped_of_stopped
    show (audioUnderrunAdjustment s r).CPUStopped = true
    rw [audioUnderrunAdjustment_CPUStopped, h]
  · show ((audioJIT _).stopEmulator ||| 1).testBit 0 = true
    simp [Nat.testBit_lor]

/-- C8, witness: the amended freeze theorem applied at the concrete
stopped APU state `apuC8` and joypad state `joyC8`. -/
theorem C8_stop_freeze_witness :
    apuC8.CPUStopped = true ∧
    ((runStoppedBranch apuC8 none).CPUStopped = true ∧
     (runStoppedBranch apuC8 none).stopEmulator.testBit 0 = true ∧
     (Joypad.down joyC8 0).CPUStopped = false ∧
     (Joypad.up joyC8 0).CPUStopped = false) :=
  ⟨rfl, C8_stop_freeze_amended apuC8 joyC8 none 0 rfl⟩

/-- With the channel-1 sweep fault flag set, `channel1EnableCheck` always
computes `channel1Enabled = false`. -/
theorem enableCheck_false (y : ApuState) (hf : y.channel1SweepFault = true) :
    (channel1EnableCheck y).channel1Enabled = false := by
  unfold channel1EnableCheck
  rw [secondary1_Enabled]
  simp [hf]

/-- C5: for every write to NR10 (FF10) with the APU master enable on that
changes the channel-1 sweep direction from negate (`channel1decreaseSweep`)
to positive (data bit 3 clear) while a sweep has already occurred since
the last trigger (`channel1Swept`), the write sets `channel1SweepFault`
and the closing `channel1EnableCheck` disables the channel
(`channel1Enabled = false`).  The `audioJIT` flush at the head of the
closure cannot interfere: it never changes the sweep direction and never
clears `channel1Swept`. -/
theorem C5_nr10_negate_fault (s : ApuState) (data : Nat)
    (hm : s.soundMasterEnabled = true)
    (hd : s.channel1decreaseSweep = true)
    (hw : s.channel1Swept = true)
    (hb : Nat.testBit data 3 = false) :
    (registerWriteFF10 s data).channel1SweepFault = true ∧
    (registerWriteFF10 s data).channel1Enabled = false := by
  have hj := loopFrame_audioJIT s
  have hcond : (audioJIT s).channel1decreaseSweep = true ∧ ¬(Nat.testBit data 3 = true) :=
    ⟨by rw [hj.ldsw, hd], by simp [hb]⟩
  unfold registerWriteFF10
  rw [if_pos hm]
  dsimp only
  rw [if_pos hcond, if_pos (hj.lswm hw)]
  constructor
  · rw [(cacheUntouched_channel1EnableCheck _).fault]
  · exact enableCheck_false _ rfl

/-- `apuBase` with the channel-1 sweep currently negating and a sweep
already performed, for the C5 witness. -/
def apuC5 : ApuState :=
  { apuBase with channel1decreaseSweep := true, channel1Swept := true }

/-- C5, witness: the NR10 fault theorem applied at the concrete state
`apuC5` with data `0x00` (sweep direction bit 3 clear). -/
theorem C5_nr10_negate_fault_witness :
    (apuC5.soundMasterEnabled = true ∧ apuC5.channel1decreaseSweep = true ∧
     apuC5.channel1Swept = true ∧ Nat.testBit 0 3 = false) ∧
    ((registerWriteFF10 apuC5 0).channel1SweepFault = true ∧
     (registerWriteFF10 apuC5 0).channel1Enabled = false) :=
  ⟨⟨rfl, rfl, rfl, by decide⟩, C5_nr10_negate_fault apuC5 0 rfl rfl rfl (by decide)⟩

/-- `apuBase` with channel 3 playing at wave position 8
(`channel3lastSampleLookup = 4` after the `>> 1` pairing) and
distinguishable bytes at the three addresses of interest. -/
def apuC1 : ApuState :=
  { apuBase with
    channel3canPlay := true,
    channel3lastSampleLookup := 4,
    memory := fun a =>
      if a = 0xff02 then 0x77 else if a = 0xff32 then 0x33 else if a = 0xff3a then 0x99 else 0 }

/-- C1: the wave-RAM read closure, while channel 3 plays, returns the byte
at `0xFF00 | (channel3lastSampleLookup >> 1)` - an I/O-register address -
not the byte at `0xFF30 | (channel3lastSampleLookup >> 1)` that the
specification (and `channel3WriteRAM`, which stores at `0xff30 | address`)
uses: at `apuC1` the CPU read of `0xFF3A` yields `memory[0xFF02] = 0x77`,
whereas the specified behaviour yields `memory[0xFF32] = 0x33`.  With the
channel idle the addressed byte is returned, as claimed. -/
theorem C1_wave_read_bug :
    waveRamRead apuC1 0xff3a =
      apuC1.memory (0xff00 ||| (apuC1.channel3lastSampleLookup >>> 1)) ∧
    waveRamRead apuC1 0xff3a = 0x77 ∧
    waveRamReadSpec apuC1 0xff3a = 0x33 ∧
    waveRamRead apuC1 0xff3a ≠ waveRamReadSpec apuC1 0xff3a ∧
    waveRamHighRead apuC1 0x3a = 0x77 ∧
    waveRamRead { apuC1 with channel3canPlay := false } 0xff3a = apuC1.memory 0xff3a :=
  ⟨rfl, by decide, by decide, by decide, by decide, rfl⟩

/-- A DMG-mode APU state with the NR52 master enable off, for C6. -/
def apuC6 : ApuState :=
  { apuBase with soundMasterEnabled := false, useGBCMode := false }

/-- C6, counterexample: on DMG with the master enable off, a write of
`0xFF` to NR11 does not leave the stored register byte unchanged - the
closure masks the duty bits (`data &= 0x3f`) and stores the result, so
`memory[0xFF11]` becomes `0x3F`; the claim allows only the length counter
to change. -/
theorem C6_master_off_counterexample :
    apuC6.soundMasterEnabled = false ∧ apuC6.useGBCMode = false ∧
    apuC6.memory 0xff11 = 0 ∧
    (registerWriteNRxx apuC6 0xff11 0xff).memory 0xff11 = 0x3f :=
  ⟨rfl, rfl, rfl, by decide⟩

/-- C6 (amended): with the master enable off, every NRxx write in
FF10-FF25 is a complete no-op in CGB mode; on DMG the writes are no-ops
except NR11/NR21/NR31/NR41, where the length counter is still loaded and,
for NR11/NR21, the stored byte is rewritten with the duty bits cleared
(`data & 0x3f`); wave RAM FF30-FF3F always stores the written byte. -/
theorem C6_master_off_amended (s : ApuState) (data : Nat)
    (hm : s.soundMasterEnabled = false) :
    (s.useGBCMode = true → ∀ a, 0xff10 ≤ a → a ≤ 0xff25 →
      registerWriteNRxx s a data = s) ∧
    (s.useGBCMode = false → ∀ a, 0xff10 ≤ a → a ≤ 0xff25 →
      a ≠ 0xff11 → a ≠ 0xff16 → a ≠ 0xff1b → a ≠ 0xff20 →
      registerWriteNRxx s a data = s) ∧
    (s.useGBCMode = false →
      ((registerWriteNRxx s 0xff11 data).memory 0xff11 = data &&& 0x3f ∧
       (registerWriteNRxx s 0xff11 data).channel1totalLength = 0x40 - (data &&& 0x3f)) ∧
      ((registerWriteNRxx s 0xff16 data).memory 0xff16 = data &&& 0x3f ∧
       (registerWriteNRxx s 0xff16 data).channel2totalLength = 0x40 - (data &&& 0x3f)) ∧
      (registerWriteNRxx s 0xff1b data).channel3totalLength = 0x100 - data ∧
      (registerWriteNRxx s 0xff20 data).channel4totalLength = 0x40 - (data &&& 0x3f)) ∧
    (∀ i d2, i < 0x10 → (channel3WriteRAM s i d2).memory (0xff30 ||| i) = d2) := by
  have hand : data &&& 0x3f &&& 0x3f = data &&& 0x3f := by
    rw [Nat.and_assoc]
    rfl
  refine ⟨?_, ?_, ?_, ?_⟩
  · intro hg a h1 h2
    interval_cases a <;>
      simp [registerWriteNRxx, registerWriteFF10, registerWriteFF11, registerWriteFF12,
        registerWriteFF13, registerWriteFF14, registerWriteFF16, registerWriteFF17,
        registerWriteFF18, registerWriteFF19, registerWriteFF1A, registerWriteFF1B,
        registerWriteFF1C, registerWriteFF1D, registerWriteFF1E, registerWriteFF20,
        registerWriteFF21, registerWriteFF22, registerWriteFF23, registerWriteFF24,
        registerWriteFF25, hm, hg]
  · intro hg a h1 h2 e1 e2 e3 e4
    interval_cases a <;>
      simp_all [registerWriteNRxx, registerWriteFF10, registerWriteFF12,
        registerWriteFF13, registerWriteFF14, registerWriteFF17,
        registerWriteFF18, registerWriteFF19, registerWriteFF1A,
        registerWriteFF1C, registerWriteFF1D, registerWriteFF1E,
        registerWriteFF21, registerWriteFF22, registerWriteFF23, registerWriteFF24,
        registerWriteFF25, hm, hg]
  · intro hg
    have h11 : registerWriteNRxx s 0xff11 data = registerWriteFF11 s data := by
      simp [registerWriteNRxx]
    have h16 : registerWriteNRxx s 0xff16 data = registerWriteFF16 s data := by
      simp [registerWriteNRxx]
    have h1b : registerWriteNRxx s 0xff1b data = registerWriteFF1B s data := by
      simp [registerWriteNRxx]
    have h20 : registerWriteNRxx s 0xff20 data = registerWriteFF20 s data := by
      simp [registerWriteNRxx]
    rw [h11, h16, h1b, h20]
    unfold registerWriteFF11 registerWriteFF16 registerWriteFF1B registerWriteFF20
    simp only [hm, hg, Bool.false_or, Bool.not_false, if_true, if_false,
      Bool.false_eq_true, ite_false, ite_true]
    refine ⟨⟨?_, ?_⟩, ⟨?_, ?_⟩, ?_, ?_⟩
    · rw [(cacheUntouched_channel1EnableCheck _).mem]
      simp [hand]
    · rw [(cacheUntouched_channel1EnableCheck _).len1]
      simp [hand]
    · rw [(cacheUntouched_channel2EnableCheck _).mem]
      simp [hand]
    · rw [(cacheUntouched_channel2EnableCheck _).len2]
      simp [hand]
    · rw [(cacheUntouched_channel3EnableCheck _).len3]
    · rw [(cacheUntouched_channel4EnableCheck _).len4]
  · intro i d2 _
    unfold channel3WriteRAM
    dsimp only
    split <;> simp

/-- C6, witness: the amended master-off theorem applied at the concrete
DMG state `apuC6` with data `0xFF`: the NR12 write is a no-op and the NR11
write stores `0x3F`. -/
theorem C6_master_off_witness :
    apuC6.soundMasterEnabled = false ∧
    registerWriteNRxx apuC6 0xff12 0xff = apuC6 ∧
    (registerWriteNRxx apuC6 0xff11 0xff).memory 0xff11 = 0x3f := by
  refine ⟨rfl, ?_, ?_⟩
  · exact (C6_master_off_amended apuC6 0xff rfl).2.1 rfl 0xff12 (by decide) (by decide)
      (by decide) (by decide) (by decide) (by decide)
  · exact (((C6_master_off_amended apuC6 0xff rfl).2.2.1 rfl).1.1).trans (by decide)

/-- C7: starting from an aligned resampler (`audioIndex = 0`) under the
audio timing invariant, `generateAudio` over `n` machine clocks emits
exactly `n / audioResamplerFirstPassFactor` stereo pairs (the
emitted-samples count grows by twice that), on both the audible path
(`generateAudioGo`) and the silent path (`generateAudioSilent`),
independently of where channel events and frame-sequencer ticks fall. -/
theorem C7_resampler_count (s : ApuState) (n : Nat)
    (hidx : s.audioIndex = 0) (hinv : AudioTimingInv s) :
    emittedSamples (generateAudio s n) =
      emittedSamples s + 2 * (n / s.audioResamplerFirstPassFactor) := by
  unfold generateAudio
  split
  · have h := generateAudioGo_spec n s n le_rfl hinv
    rw [h, hidx, Nat.zero_add]
  · obtain ⟨he, hi, hF⟩ := generateAudioSilent_spec n s n le_rfl hinv.1 hinv.2.1
    rw [he, hidx, Nat.zero_add]

/-- C7, witness: the counting theorem applied at the concrete aligned
state `apuBase` (factor 2) over 5 clocks, emitting 2 pairs. -/
theorem C7_resampler_count_witness :
    (apuBase.audioIndex = 0 ∧ AudioTimingInv apuBase) ∧
    emittedSamples (generateAudio apuBase 5) =
      emittedSamples apuBase + 2 * (5 / apuBase.audioResamplerFirstPassFactor) := by
  have hinv : AudioTimingInv apuBase :=
    ⟨by decide, by decide, by decide, by decide, by decide, by decide, by decide, by decide,
     by decide, by decide, by decide, by decide⟩
  exact ⟨⟨rfl, hinv⟩, C7_resampler_count apuBase 5 rfl hinv⟩

end JsGBC
